import Mathlib

/-! # Chat gateway: a shallow embedding of `main.go`

The development follows the source file top to bottom: Go string primitives the
code relies on, the decoded JSON values, the protocol translator
(`extractContent`, `isMeaninglessRequest`, `buildConversationMessage`), the
proxy manager, the identity caches and the four upstream handlers.

Conventions.
* A Go `string` that came out of `encoding/json` is valid UTF-8, so it is a Lean
  `String`; `len` is the UTF-8 byte count.
* A Go `interface{}` holding decoded JSON is a `JSONValue`.
* A Go `map[int]*T` is a function `Int → Option T`.
* Code that can panic returns an `Outcome`, which keeps the state reached at the
  panic (the deferred unlocks run and `net/http` recovers the handler).
* Library functions whose tables are not part of the repository (the Unicode
  case table, `json.Unmarshal`) are parameters.
* A response body is read through `bufio.Scanner` with its default buffer:
  `scanLines` gives the lines the reading loops see for given raw lines.
-/

namespace Chat2API

/-! ## Go string primitives -/

/-- Go's builtin `len` on a string: the number of bytes of its UTF-8 encoding. -/
def len (s : String) : Nat := s.utf8ByteSize

/-- Whether `sub` occurs as a contiguous run inside `l`. -/
def containsChars : List Char → List Char → Bool
  | [], sub => sub.isEmpty
  | c :: cs, sub => sub.isPrefixOf (c :: cs) || containsChars cs sub

namespace strings

/-- Go `strings.HasPrefix`. -/
def HasPrefix (s pre : String) : Bool := pre.data.isPrefixOf s.data

/-- Go `strings.TrimPrefix`. -/
def TrimPrefix (s pre : String) : String :=
  if HasPrefix s pre then ⟨s.data.drop pre.data.length⟩ else s

/-- Go `strings.Contains`. -/
def Contains (s substr : String) : Bool := containsChars s.data substr.data

/-- Go `strings.Join`. -/
def Join : List String → String → String
  | [], _ => ""
  | [a], _ => a
  | a :: b :: rest, sep => a ++ sep ++ Join (b :: rest) sep

/-- Go `unicode.ToLower`: ASCII is handled inline, everything else goes through
the Unicode case table, which is the parameter `caseTable`. -/
def runeToLower (caseTable : Char → Char) (r : Char) : Char :=
  if r.toNat ≤ 0x7F then Char.toLower r else caseTable r

/-- Go `strings.ToLower`: an all-ASCII string takes the byte loop, any other
string is mapped rune by rune with `unicode.ToLower`. -/
def ToLower (caseTable : Char → Char) (s : String) : String :=
  if s.data.all (fun c => c.toNat < 0x80) then ⟨s.data.map Char.toLower⟩
  else ⟨s.data.map (runeToLower caseTable)⟩

/-- Go `unicode.IsSpace` (the White_Space property), used by `strings.TrimSpace`. -/
def isSpace (c : Char) : Bool :=
  let n := c.toNat
  n = 0x09 || n = 0x0A || n = 0x0B || n = 0x0C || n = 0x0D || n = 0x20 ||
  n = 0x85 || n = 0xA0 || n = 0x1680 || (0x2000 ≤ n && n ≤ 0x200A) ||
  n = 0x2028 || n = 0x2029 || n = 0x202F || n = 0x205F || n = 0x3000

/-- Go `strings.TrimSpace`. -/
def TrimSpace (s : String) : String :=
  ⟨((s.data.dropWhile isSpace).reverse.dropWhile isSpace).reverse⟩

/-- Splitting a rune list at every comma. -/
def splitComma : List Char → List (List Char)
  | [] => [[]]
  | c :: cs =>
    if c = ',' then [] :: splitComma cs
    else
      match splitComma cs with
      | [] => [[c]]
      | h :: t => (c :: h) :: t

/-- Go `strings.Split(s, ",")`. -/
def Split (s : String) : List String := (splitComma s.data).map String.mk

end strings

/-! ## Data structures -/

/-- A value decoded by `encoding/json` into an `interface{}`. -/
inductive JSONValue where
  | null
  | bool (b : Bool)
  | number (n : Int)
  | string (s : String)
  | array (items : List JSONValue)
  | object (fields : List (String × JSONValue))

/-- Reading `m[key]` in a `map[string]interface{}`; a missing key gives `nil`. -/
def JSONValue.field (fields : List (String × JSONValue)) (key : String) : JSONValue :=
  match fields.find? (fun kv => kv.1 == key) with
  | some kv => kv.2
  | none => JSONValue.null

structure OpenAIMessage where
  Role : String
  Content : JSONValue

structure OpenAIRequest where
  Model : String
  Messages : List OpenAIMessage
  Stream : Bool

/-- Source `SSEEvent`; the field `Type` is spelled `Type_` here. -/
structure SSEEvent where
  Type_ : String
  Delta : String

/-! ## Protocol translator -/

/-- The body of the `for _, item := range v` loop of `extractContent`: the texts
appended for one item. -/
def extractItem : JSONValue → List String
  | JSONValue.object block =>
    match JSONValue.field block "type" with
    | JSONValue.string typ =>
      if typ = "text" then
        match JSONValue.field block "text" with
        | JSONValue.string text => [text]
        | _ => []
      else []
    | _ => []
  | _ => []

/-- Source `Gateway.extractContent`. -/
def extractContent : JSONValue → String
  | JSONValue.string v => v
  | JSONValue.array v => strings.Join (v.foldl (fun texts item => texts ++ extractItem item) []) ""
  | _ => ""

/-- The keyword slice of `isMeaninglessRequest`, in source order. -/
def testKeywords : List String := ["hi", "hello", "test", "测试", "你好", "hey", "ping"]

/-- One iteration of the counting loop of `isMeaninglessRequest`; the state is
`(userMsgCount, firstUserMsg)`. -/
def countStep (acc : Nat × String) (msg : OpenAIMessage) : Nat × String :=
  if msg.Role = "user" ∨ msg.Role = "assistant" then
    (acc.1 + 1,
      if msg.Role = "user" ∧ acc.2 = "" then extractContent msg.Content else acc.2)
  else acc

/-- Source `Gateway.isMeaninglessRequest`. -/
def isMeaninglessRequest (caseTable : Char → Char) (messages : List OpenAIMessage) : Bool :=
  let acc := messages.foldl countStep (0, "")
  let userMsgCount := acc.1
  let firstUserMsg := acc.2
  if userMsgCount > 1 then false
  else if len firstUserMsg ≥ 10 then false
  else
    let lowerMsg := strings.ToLower caseTable firstUserMsg
    testKeywords.any (fun keyword => strings.Contains lowerMsg keyword)

/-! ### Vocabulary of the specification -/

/-- Whether a message is a conversation turn (role `user` or `assistant`). -/
def isTurn (msg : OpenAIMessage) : Bool :=
  decide (msg.Role = "user") || decide (msg.Role = "assistant")

/-- The number of user/assistant turns of a conversation. -/
def turnCount (messages : List OpenAIMessage) : Nat := (messages.filter isTurn).length

/-- The text of the first `user` message, empty when there is none. -/
def firstUserText (messages : List OpenAIMessage) : String :=
  match messages.find? (fun m => decide (m.Role = "user")) with
  | some m => extractContent m.Content
  | none => ""

/-- A one-message conversation made of a single user turn with plain text. -/
def userSays (text : String) : List OpenAIMessage := [⟨"user", JSONValue.string text⟩]

/-- The text contains one of the test keywords. -/
def containsKeyword (text : String) : Prop :=
  ∃ keyword ∈ testKeywords, strings.Contains text keyword = true

instance (text : String) : Decidable (containsKeyword text) := by
  unfold containsKeyword; infer_instance

/-- The fixed instruction of `buildConversationMessage` that forbids tool calls. -/
def builtinSystemPrompt : String := "请不要调用任何工具"

/-- The first loop of `buildConversationMessage`: the text of the first
`system` message (the loop breaks there), empty when there is none. -/
def userSystemPrompt : List OpenAIMessage → String
  | [] => ""
  | msg :: rest =>
    if msg.Role = "system" then extractContent msg.Content else userSystemPrompt rest

/-- The part `buildConversationMessage` appends first. -/
def systemBlock (messages : List OpenAIMessage) : String :=
  if userSystemPrompt messages ≠ "" then
    "[System]\n" ++ userSystemPrompt messages ++ "\n\n" ++ builtinSystemPrompt
  else "[System]\n" ++ builtinSystemPrompt

/-- One iteration of the history loop of `buildConversationMessage` (the
`switch msg.Role`). -/
def historyStep (parts : List String) (msg : OpenAIMessage) : List String :=
  let content := extractContent msg.Content
  if msg.Role = "system" then parts
  else if msg.Role = "user" then parts ++ ["[User]\n" ++ content]
  else if msg.Role = "assistant" then parts ++ ["[Assistant]\n" ++ content]
  else parts

/-- The slice `parts` of `buildConversationMessage` right before the join. -/
def conversationParts (messages : List OpenAIMessage) : List String :=
  messages.foldl historyStep [systemBlock messages]

/-- Source `Gateway.buildConversationMessage`. -/
def buildConversationMessage (messages : List OpenAIMessage) : String :=
  strings.Join (conversationParts messages) "\n\n"

/-- The block of one user or assistant turn, as the specification words it. -/
def renderTurn (msg : OpenAIMessage) : String :=
  if msg.Role = "user" then "[User]\n" ++ extractContent msg.Content
  else "[Assistant]\n" ++ extractContent msg.Content

/-- A part is a `[System]` block when it opens with that label. -/
def isSystemBlock (part : String) : Bool := strings.HasPrefix part "[System]"

/-- Whether some message of the list has the role `system`. -/
def hasSystem (messages : List OpenAIMessage) : Bool :=
  messages.any (fun m => decide (m.Role = "system"))

/-! ## Proxy manager -/

/-- The result of running code that may panic: either it returns a value, or it
panics; both keep the state that was reached. -/
inductive Outcome (σ α : Type) where
  | ret (value : α) (state : σ)
  | panic (state : σ)

/-- The state an outcome leaves behind. -/
def Outcome.state {σ α : Type} : Outcome σ α → σ
  | Outcome.ret _ s => s
  | Outcome.panic s => s

/-- Whether the run ended in a panic. -/
def Outcome.panicked {σ α : Type} : Outcome σ α → Bool
  | Outcome.ret _ _ => false
  | Outcome.panic _ => true

/-- Source `ProxyManager`; `currentIndex` is a Go `int` that starts at 0 and is
only ever assigned a remainder, so it is a natural number. -/
structure ProxyManager where
  proxies : List String
  containers : List String
  currentIndex : Nat

/-- One iteration of the filtering loop of `NewProxyManager`; the state is
`(validProxies, validContainers)` and `ip` is the pair `(i, p)` of the range. -/
def keepProxy (containers : List String) (acc : List String × List String)
    (ip : Nat × String) : List String × List String :=
  let p := strings.TrimSpace ip.2
  if p ≠ "" then
    (acc.1 ++ [p],
      match containers[ip.1]? with
      | some c => acc.2 ++ [strings.TrimSpace c]
      | none => acc.2)
  else acc

/-- Source `NewProxyManager`. -/
def NewProxyManager (proxiesStr containersStr : String) : ProxyManager :=
  let proxies := strings.Split proxiesStr
  let containers := strings.Split containersStr
  let acc := proxies.enum.foldl (keepProxy containers) ([], [])
  { proxies := acc.1, containers := acc.2, currentIndex := 0 }

/-- Source `ProxyManager.GetCurrentProxy`; `none` stands for the index panic of
`pm.proxies[pm.currentIndex]`. -/
def ProxyManager.GetCurrentProxy (pm : ProxyManager) : Option (String × Int) :=
  if pm.proxies.length = 0 then some ("", -1)
  else
    match pm.proxies[pm.currentIndex]? with
    | some p => some (p, (pm.currentIndex : Int))
    | none => none

/-- Source `ProxyManager.OnRateLimit`. The value returned is the container
handed to `go pm.restartWarp`, if the call got that far. The two reads of
`pm.containers` panic when the index is out of range: the first one before
`currentIndex` is assigned, the second one (an argument of `logWarn`) after. -/
def ProxyManager.OnRateLimit (pm : ProxyManager) : Outcome ProxyManager (Option String) :=
  if pm.proxies.length = 0 then Outcome.ret none pm
  else
    let oldIndex := pm.currentIndex
    match pm.containers[oldIndex]? with
    | none => Outcome.panic pm
    | some oldContainer =>
      let pm2 := { pm with currentIndex := (pm.currentIndex + 1) % pm.proxies.length }
      match pm2.containers[pm2.currentIndex]? with
      | none => Outcome.panic pm2
      | some _ => Outcome.ret (some oldContainer) pm2

/-- Calling `OnRateLimit` `k` times in a row, each call made from a request of
its own, so that a panic ends that call only. -/
def onRateLimitTimes : Nat → ProxyManager → ProxyManager
  | 0, pm => pm
  | k + 1, pm => onRateLimitTimes k pm.OnRateLimit.state

/-- Whether one of `k` successive calls of `OnRateLimit` panics. -/
def onRateLimitPanics : Nat → ProxyManager → Bool
  | 0, _ => false
  | k + 1, pm => pm.OnRateLimit.panicked || onRateLimitPanics k pm.OnRateLimit.state

/-! ## Gateway state and its environment -/

/-- An `*http.Client` built by `createHTTPClient`: what tells two clients apart
is the proxy address the transport was configured with (empty: no proxy). -/
structure Client where
  proxyURL : String

/-- Source `Account`. -/
structure Account where
  Email : String
  Password : String
  SessionToken : String
  Client : Client
  ProxyIndex : Int
  CreatedAt : Int
  LastUsedAt : Int

/-- Source `GuestSession`. -/
structure GuestSession where
  Client : Client
  ProxyIndex : Int
  CreatedAt : Int
  LastUsedAt : Int

/-- Source `MessagePart`; the field `Type` is spelled `Type_`. -/
structure MessagePart where
  Type_ : String
  Text : String

/-- Source `Message`. -/
structure Message where
  Role : String
  Parts : List MessagePart
  ID : String

/-- Source `ChatRequest`. -/
structure ChatRequest where
  ID : String
  Message : Message
  SelectedChatModel : String
  SelectedVisibilityType : String

/-- Source `Gateway`; the two maps are keyed by proxy index. -/
structure Gateway where
  baseURL : String
  proxyMgr : ProxyManager
  accounts : Int → Option Account
  sessions : Int → Option GuestSession
  useAuth : Bool

/-- What `client.Do` gives back: a transport error with its message, or a
response with its status code, the names of the cookies it sets, the names of
the cookies the jar holds for the base URL afterwards, and the lines of the
body, that is the successive values of `scanner.Text()` for which
`scanner.Scan()` answers true (a read error or a line beyond the buffer limit
of the scanner ends the list; for a body that is read without error they are
`scanLines` of its raw lines). -/
inductive Reply where
  | failed (message : String)
  | response (status : Nat) (cookies : List String) (jarCookies : List String)
      (lines : List String)

/-- The effects a handler has on the outside world, in the order they happen. -/
inductive Effect where
  | getOrCreateSession
  | getOrCreateAccount
  | probe (client : Client)
  | register (client : Client) (email password : String)
  | chat (client : Client) (chatReq : ChatRequest)
  | restartWarp (container : String)
  | sleep

/-- Everything the code reads from outside: the answers of the upstream and the
values of the clock and of the random sources, each indexed by the number of
such reads made before (the clock reads that only feed log lines are not
counted); `json.Unmarshal` into an `SSEEvent`, the Unicode case table and the
proxy addresses `createHTTPClient` cannot use. -/
structure Env where
  caseTable : Char → Char
  unmarshal : String → Option SSEEvent
  badProxy : String → Bool
  reply : Nat → Reply
  now : Nat → Int
  uuid : Nat → String
  email : Nat → String
  password : Nat → String

/-- The state shared by the requests: the gateway, the number of reads of the
environment made so far, and the effects so far (oldest first). -/
structure World where
  g : Gateway
  step : Nat
  trace : List Effect

/-- A computation over the shared state that may panic. -/
def M (α : Type) : Type := World → Outcome World α

/-- Returning a value. -/
def M.pure {α : Type} (a : α) : M α := fun s => Outcome.ret a s

/-- Sequencing; a panic stops the run. -/
def M.bind {α β : Type} (m : M α) (f : α → M β) : M β := fun s =>
  match m s with
  | Outcome.ret a s2 => f a s2
  | Outcome.panic s2 => Outcome.panic s2

instance : Monad M where
  pure := M.pure
  bind := M.bind

/-- A runtime panic. -/
def panicNow {α : Type} : M α := fun s => Outcome.panic s

/-- Reading the gateway. -/
def getGateway : M Gateway := fun s => Outcome.ret s.g s

/-- Updating the gateway. -/
def modifyGateway (f : Gateway → Gateway) : M Unit :=
  fun s => Outcome.ret () { s with g := f s.g }

/-- Recording an effect. -/
def emit (e : Effect) : M Unit := fun s => Outcome.ret () { s with trace := s.trace ++ [e] }

/-- One read of the environment: gives the index of the read. -/
def tick : M Nat := fun s => Outcome.ret s.step { s with step := s.step + 1 }

/-- Go `time.Now().Unix()`. -/
def timeNow (env : Env) : M Int := do
  let n ← tick
  return env.now n

/-- Go `uuid.New().String()`. -/
def uuidNew (env : Env) : M String := do
  let n ← tick
  return env.uuid n

/-- Go `client.Do(req)`; `e` names the request. -/
def clientDo (env : Env) (e : Effect) : M Reply := do
  emit e
  let n ← tick
  return env.reply n

/-- The launch of `go pm.restartWarp(container)`: the goroutine restarts the
container unless its name is empty. -/
def restartWarp : Option String → List Effect
  | some container => if container = "" then [] else [Effect.restartWarp container]
  | none => []

/-- The call `g.proxyMgr.OnRateLimit()`. -/
def onRateLimit : M Unit := fun s =>
  match s.g.proxyMgr.OnRateLimit with
  | Outcome.ret restart pm =>
    Outcome.ret () { s with g := { s.g with proxyMgr := pm }, trace := s.trace ++ restartWarp restart }
  | Outcome.panic pm => Outcome.panic { s with g := { s.g with proxyMgr := pm } }

/-- Go `delete(m, key)`. -/
def mapDelete {α : Type} (m : Int → Option α) (key : Int) : Int → Option α :=
  fun j => if j = key then none else m j

/-- Go `m[key] = value`. -/
def mapSet {α : Type} (m : Int → Option α) (key : Int) (value : α) : Int → Option α :=
  fun j => if j = key then some value else m j

/-- Source `Gateway.clearSession`. -/
def clearSession (proxyIndex : Int) : M Unit :=
  modifyGateway (fun g => { g with sessions := mapDelete g.sessions proxyIndex })

/-- Source `Gateway.clearAccount`. -/
def clearAccount (proxyIndex : Int) : M Unit :=
  modifyGateway (fun g => { g with accounts := mapDelete g.accounts proxyIndex })

/-- Go slice indexing `l[i]` with an `int` index; `none` is the runtime panic. -/
def sliceAt {α : Type} (l : List α) (i : Int) : Option α :=
  if i < 0 then none else l[i.toNat]?

/-- Source `Gateway.createHTTPClient`: it fails only on a non-empty proxy
address that cannot be parsed or dialled. -/
def createHTTPClient (env : Env) (proxyURL : String) : Except String Client :=
  if proxyURL ≠ "" ∧ env.badProxy proxyURL = true then Except.error "解析代理失败"
  else Except.ok { proxyURL := proxyURL }

/-- Source `Gateway.register`. -/
def register (env : Env) (client : Client) : M (Except String (String × String)) := do
  let email := env.email (← tick)
  let password := env.password (← tick)
  let reply ← clientDo env (Effect.register client email password)
  match reply with
  | Reply.failed message => return Except.error ("注册请求失败: " ++ message)
  | Reply.response status cookies jarCookies _ =>
    if status = 429 then return Except.error "注册触发限流"
    else if cookies.any (fun name => strings.Contains name "session-token") then
      return Except.ok (email, password)
    else if jarCookies.any (fun name => strings.Contains name "session-token") then
      return Except.ok (email, password)
    else return Except.error "注册失败，未获取到 session token"

/-- Source `Gateway.getOrCreateAccount`. -/
def getOrCreateAccount (env : Env) : M (Except String Account) := do
  emit Effect.getOrCreateAccount
  let g ← getGateway
  match g.proxyMgr.GetCurrentProxy with
  | none => panicNow
  | some (proxyURL, proxyIndex) =>
    match g.accounts proxyIndex with
    | some account =>
      let used ← timeNow env
      let account := { account with LastUsedAt := used }
      modifyGateway (fun g => { g with accounts := mapSet g.accounts proxyIndex account })
      return Except.ok account
    | none =>
      -- `containerName`: the read is guarded by `proxyIndex < len(containers)` only
      if proxyIndex < (g.proxyMgr.containers.length : Int) ∧
          (sliceAt g.proxyMgr.containers proxyIndex).isNone then panicNow
      else
        match createHTTPClient env proxyURL with
        | Except.error err => return Except.error err
        | Except.ok client =>
          match ← register env client with
          | Except.error err =>
            if strings.Contains err "限流" then onRateLimit
            return Except.error err
          | Except.ok (email, password) =>
            let created ← timeNow env
            let used ← timeNow env
            let account : Account :=
              { Email := email, Password := password, SessionToken := "", Client := client,
                ProxyIndex := proxyIndex, CreatedAt := created, LastUsedAt := used }
            modifyGateway (fun g => { g with accounts := mapSet g.accounts proxyIndex account })
            return Except.ok account

/-- Source `Gateway.getOrCreateSession`. -/
def getOrCreateSession (env : Env) : M (Except String GuestSession) := do
  emit Effect.getOrCreateSession
  let g ← getGateway
  match g.proxyMgr.GetCurrentProxy with
  | none => panicNow
  | some (proxyURL, proxyIndex) =>
    match g.sessions proxyIndex with
    | some session =>
      let used ← timeNow env
      let session := { session with LastUsedAt := used }
      modifyGateway (fun g => { g with sessions := mapSet g.sessions proxyIndex session })
      return Except.ok session
    | none =>
      -- `containerName`: the read is guarded on both sides, it cannot panic
      match createHTTPClient env proxyURL with
      | Except.error err => return Except.error err
      | Except.ok client =>
        match ← clientDo env (Effect.probe client) with
        | Reply.failed message => return Except.error ("获取会话失败: " ++ message)
        | Reply.response status _ _ _ =>
          if status = 429 then do
            onRateLimit
            return Except.error "触发限流"
          else
            let created ← timeNow env
            let used ← timeNow env
            let session : GuestSession :=
              { Client := client, ProxyIndex := proxyIndex, CreatedAt := created,
                LastUsedAt := used }
            modifyGateway (fun g => { g with sessions := mapSet g.sessions proxyIndex session })
            return Except.ok session

/-! ## Responses -/

/-- One write to the response body. -/
inductive Written where
  | text (s : String)
  | data (payload : JSONValue)
  | json (payload : JSONValue)

/-- The `http.ResponseWriter` of one request: the header map, the status code
once it has been written, the body writes so far, and whether the writer also
is an `http.Flusher`. A handler that returns without writing anything leaves
`status` empty and `net/http` then answers 200 with an empty body. -/
structure ResponseWriter where
  header : List (String × String)
  status : Option Nat
  body : List Written
  flusher : Bool

/-- The status code the client receives once the handler has returned. -/
def ResponseWriter.received (w : ResponseWriter) : Nat := w.status.getD 200

/-- Go `w.Header().Set(key, value)`. -/
def ResponseWriter.setHeader (w : ResponseWriter) (key value : String) : ResponseWriter :=
  { w with header := w.header.filter (fun kv => kv.1 ≠ key) ++ [(key, value)] }

/-- Go `w.Header().Del(key)`. -/
def ResponseWriter.delHeader (w : ResponseWriter) (key : String) : ResponseWriter :=
  { w with header := w.header.filter (fun kv => kv.1 ≠ key) }

/-- Go `w.WriteHeader(code)`: a second call changes nothing, a code outside
100..999 panics (`none`). -/
def ResponseWriter.WriteHeader (w : ResponseWriter) (code : Nat) : Option ResponseWriter :=
  if w.status.isSome then some w
  else if code < 100 ∨ code > 999 then none
  else some { w with status := some code }

/-- Whether a response with this status may carry a body. -/
def bodyAllowed (code : Nat) : Bool :=
  !(decide (100 ≤ code ∧ code ≤ 199) || decide (code = 204) || decide (code = 304))

/-- Go `w.Write`: the first write sends status 200 when none was written. -/
def ResponseWriter.write (w : ResponseWriter) (x : Written) : ResponseWriter :=
  let code := w.status.getD 200
  { w with status := some code, body := if bodyAllowed code then w.body ++ [x] else w.body }

/-- Go `flusher.Flush()`: sends the header when it was not sent yet. -/
def ResponseWriter.flush (w : ResponseWriter) : ResponseWriter :=
  { w with status := some (w.status.getD 200) }

/-- Go `http.Error(w, msg, code)`. -/
def httpError (w : ResponseWriter) (msg : String) (code : Nat) : M ResponseWriter :=
  let w1 := ((w.delHeader "Content-Length").setHeader "Content-Type"
    "text/plain; charset=utf-8").setHeader "X-Content-Type-Options" "nosniff"
  match w1.WriteHeader code with
  | none => panicNow
  | some w2 => return w2.write (Written.text (msg ++ "\n"))

/-- The chunk object of `handleStreamWithClient`. -/
def openAIChunk (chatID : String) (created : Int) (model delta : String) : JSONValue :=
  JSONValue.object [
    ("id", JSONValue.string chatID),
    ("object", JSONValue.string "chat.completion.chunk"),
    ("created", JSONValue.number created),
    ("model", JSONValue.string model),
    ("choices", JSONValue.array [JSONValue.object [
      ("index", JSONValue.number 0),
      ("delta", JSONValue.object [("content", JSONValue.string delta)])]])]

/-- The response object of `handleNonStreamWithClient`. -/
def openAIResp (id : String) (created : Int) (model content : String) : JSONValue :=
  JSONValue.object [
    ("id", JSONValue.string id),
    ("object", JSONValue.string "chat.completion"),
    ("created", JSONValue.number created),
    ("model", JSONValue.string model),
    ("choices", JSONValue.array [JSONValue.object [
      ("index", JSONValue.number 0),
      ("message", JSONValue.object [
        ("role", JSONValue.string "assistant"), ("content", JSONValue.string content)]),
      ("finish_reason", JSONValue.string "stop")]])]

/-- The chunk object of `handleStreamAnthropic`. -/
def anthropicChunk (delta : String) : JSONValue :=
  JSONValue.object [
    ("type", JSONValue.string "content_block_delta"),
    ("index", JSONValue.number 0),
    ("delta", JSONValue.object [
      ("type", JSONValue.string "text_delta"), ("text", JSONValue.string delta)])]

/-- The response object of `handleNonStreamAnthropic`. -/
def anthropicResp (id model content : String) : JSONValue :=
  JSONValue.object [
    ("id", JSONValue.string ("msg_" ++ id)),
    ("type", JSONValue.string "message"),
    ("role", JSONValue.string "assistant"),
    ("content", JSONValue.array [JSONValue.object [
      ("type", JSONValue.string "text"), ("text", JSONValue.string content)]]),
    ("model", JSONValue.string model),
    ("stop_reason", JSONValue.string "end_turn"),
    ("stop_sequence", JSONValue.null),
    ("usage", JSONValue.object [
      ("input_tokens", JSONValue.number 0),
      ("output_tokens", JSONValue.number (len content))])]

/-- The terminal marker of the OpenAI stream. -/
def doneMarker : Written := Written.text "data: [DONE]\n\n"

/-- The two writes that make the terminal event of the Anthropic stream. -/
def messageStop : List Written :=
  [Written.text "event: message_stop\n",
   Written.text "data: \x7b\"type\":\"message_stop\"\x7d\n\n"]

/-! ## Reading the upstream stream -/

/-- Go `bufio.MaxScanTokenSize`, the largest buffer a `bufio.Scanner` allocates
unless `Scanner.Buffer` is called; `main.go` never calls it. -/
def MaxScanTokenSize : Nat := 64 * 1024

/-- Go `dropCR` of package `bufio`: a token loses one trailing carriage
return. -/
def dropCR (line : String) : String :=
  if line.data.getLast? = some '\r' then ⟨line.data.dropLast⟩ else line

/-- The successive `scanner.Text()` values of `bufio.NewScanner(resp.Body)` for
a body given as its raw lines, each without its newline. A raw line is yielded,
less one trailing carriage return, as long as it fits the buffer together with
its newline, that is as long as it has fewer than `MaxScanTokenSize` bytes; at
the first longer line `Scan` returns false for good (`bufio.ErrTooLong`) and
the rest of the body is not read. None of the four reading loops looks at
`scanner.Err()`. -/
def scanLines (raw : List String) : List String :=
  (raw.takeWhile (fun line => decide (len line < MaxScanTokenSize))).map dropCR

/-- What one scanned line means to the four reading loops. -/
inductive LineKind where
  | skip
  | done
  | delta (text : String)

/-- The body of the four `for scanner.Scan()` loops up to the action on a
delta: lines without the `data: ` prefix, lines that do not unmarshal and
events that are not a non-empty `text-delta` are skipped, `data: [DONE]` ends
the loop. -/
def classifyLine (unmarshal : String → Option SSEEvent) (line : String) : LineKind :=
  if !strings.HasPrefix line "data: " then LineKind.skip
  else
    let data := strings.TrimPrefix line "data: "
    if data = "[DONE]" then LineKind.done
    else
      match unmarshal data with
      | none => LineKind.skip
      | some event =>
        if event.Type_ = "text-delta" ∧ event.Delta ≠ "" then LineKind.delta event.Delta
        else LineKind.skip

/-- The reading loop of the two non-streaming handlers; `fullContent` is the
`strings.Builder`. -/
def readAll (unmarshal : String → Option SSEEvent) : List String → String → String
  | [], fullContent => fullContent
  | line :: rest, fullContent =>
    match classifyLine unmarshal line with
    | LineKind.skip => readAll unmarshal rest fullContent
    | LineKind.done => fullContent
    | LineKind.delta text => readAll unmarshal rest (fullContent ++ text)

/-- The reading loop of `handleStreamWithClient`. -/
def streamOpenAI (env : Env) (chatID model : String) :
    List String → ResponseWriter → M ResponseWriter
  | [], w => return w
  | line :: rest, w =>
    match classifyLine env.unmarshal line with
    | LineKind.skip => streamOpenAI env chatID model rest w
    | LineKind.done => return w
    | LineKind.delta text => do
      let created ← timeNow env
      let w := (w.write (Written.data (openAIChunk chatID created model text))).flush
      streamOpenAI env chatID model rest w

/-- The reading loop of `handleStreamAnthropic`. -/
def streamAnthropic (unmarshal : String → Option SSEEvent) :
    List String → ResponseWriter → ResponseWriter
  | [], w => w
  | line :: rest, w =>
    match classifyLine unmarshal line with
    | LineKind.skip => streamAnthropic unmarshal rest w
    | LineKind.done => w
    | LineKind.delta text =>
      streamAnthropic unmarshal rest
        (((w.write (Written.text "event: content_block_delta\n")).write
          (Written.data (anthropicChunk text))).flush)

/-! ## The four upstream handlers -/

/-- The branch all four handlers take on an upstream status other than 200:
429 first, then any other code. -/
def rejectUpstream (w : ResponseWriter) (proxyIndex : Int) (status : Nat) : M ResponseWriter := do
  if status = 429 then
    onRateLimit
    clearSession proxyIndex
    clearAccount proxyIndex
    httpError w "Rate limited" 429
  else
    onRateLimit
    clearSession proxyIndex
    clearAccount proxyIndex
    httpError w "Upstream error" status

/-- The three header writes that open a streaming handler. -/
def eventStreamHeaders (w : ResponseWriter) : ResponseWriter :=
  ((w.setHeader "Content-Type" "text/event-stream").setHeader "Cache-Control"
    "no-cache").setHeader "Connection" "keep-alive"

/-- Source `Gateway.handleStreamWithClient`. -/
def handleStreamWithClient (env : Env) (w : ResponseWriter) (client : Client)
    (proxyIndex : Int) (chatReq : ChatRequest) : M ResponseWriter := do
  let w := eventStreamHeaders w
  if !w.flusher then httpError w "Streaming not supported" 500
  else
    -- `logDebug(..., len(chatReq.Message.Parts[0].Text))` evaluates its arguments
    match chatReq.Message.Parts with
    | [] => panicNow
    | _ :: _ =>
      match ← clientDo env (Effect.chat client chatReq) with
      | Reply.failed _ => return w
      | Reply.response status _ _ lines =>
        if status ≠ 200 then rejectUpstream w proxyIndex status
        else
          let chatID ← uuidNew env
          let w ← streamOpenAI env chatID chatReq.SelectedChatModel lines w
          return (w.write doneMarker).flush

/-- Source `Gateway.handleNonStreamWithClient`. -/
def handleNonStreamWithClient (env : Env) (w : ResponseWriter) (client : Client)
    (proxyIndex : Int) (chatReq : ChatRequest) : M ResponseWriter := do
  match chatReq.Message.Parts with
  | [] => panicNow
  | _ :: _ =>
    match ← clientDo env (Effect.chat client chatReq) with
    | Reply.failed _ => httpError w "Request failed" 500
    | Reply.response status _ _ lines =>
      if status ≠ 200 then rejectUpstream w proxyIndex status
      else
        let fullContent := readAll env.unmarshal lines ""
        let id ← uuidNew env
        let created ← timeNow env
        let w := w.setHeader "Content-Type" "application/json"
        return w.write (Written.json (openAIResp id created chatReq.SelectedChatModel fullContent))

/-- Source `Gateway.handleStreamAnthropic`. -/
def handleStreamAnthropic (env : Env) (w : ResponseWriter) (client : Client)
    (proxyIndex : Int) (chatReq : ChatRequest) : M ResponseWriter := do
  let w := eventStreamHeaders w
  if !w.flusher then httpError w "Streaming not supported" 500
  else
    match ← clientDo env (Effect.chat client chatReq) with
    | Reply.failed _ => return w
    | Reply.response status _ _ lines =>
      if status ≠ 200 then rejectUpstream w proxyIndex status
      else
        let w := streamAnthropic env.unmarshal lines w
        return ((w.write (Written.text "event: message_stop\n")).write
          (Written.text "data: \x7b\"type\":\"message_stop\"\x7d\n\n")).flush

/-- Source `Gateway.handleNonStreamAnthropic`. -/
def handleNonStreamAnthropic (env : Env) (w : ResponseWriter) (client : Client)
    (proxyIndex : Int) (chatReq : ChatRequest) : M ResponseWriter := do
  match ← clientDo env (Effect.chat client chatReq) with
  | Reply.failed _ => httpError w "Request failed" 500
  | Reply.response status _ _ lines =>
    if status ≠ 200 then rejectUpstream w proxyIndex status
    else
      let fullContent := readAll env.unmarshal lines ""
      let id ← uuidNew env
      let w := w.setHeader "Content-Type" "application/json"
      return w.write (Written.json (anthropicResp id chatReq.SelectedChatModel fullContent))

/-! ## Dispatch with bounded retry -/

/-- The loop `for retry := 0; retry < 3; retry++` shared by the four
`handleWith...` functions, with `n` iterations left: a call of `acquire`, a
break on success, a one-second sleep on error. The result is the identity
variable after the loop, `none` for `nil`. -/
def retryAcquire {ι : Type} (acquire : M (Except String ι)) : Nat → M (Option ι)
  | 0 => return none
  | n + 1 => do
    match ← acquire with
    | Except.ok identity => return some identity
    | Except.error _ =>
      emit Effect.sleep
      retryAcquire acquire n

/-- Source `Gateway.handleWithAccount`. -/
def handleWithAccount (env : Env) (w : ResponseWriter) (openAIReq : OpenAIRequest)
    (chatReq : ChatRequest) : M ResponseWriter := do
  match ← retryAcquire (getOrCreateAccount env) 3 with
  | none => httpError w "Service unavailable" 503
  | some account =>
    if openAIReq.Stream then
      handleStreamWithClient env w account.Client account.ProxyIndex chatReq
    else handleNonStreamWithClient env w account.Client account.ProxyIndex chatReq

/-- Source `Gateway.handleWithSession`. -/
def handleWithSession (env : Env) (w : ResponseWriter) (openAIReq : OpenAIRequest)
    (chatReq : ChatRequest) : M ResponseWriter := do
  match ← retryAcquire (getOrCreateSession env) 3 with
  | none => httpError w "Service unavailable" 503
  | some session =>
    if openAIReq.Stream then
      handleStreamWithClient env w session.Client session.ProxyIndex chatReq
    else handleNonStreamWithClient env w session.Client session.ProxyIndex chatReq

/-- Source `Gateway.handleWithAccountAnthropic`. -/
def handleWithAccountAnthropic (env : Env) (w : ResponseWriter) (openAIReq : OpenAIRequest)
    (chatReq : ChatRequest) : M ResponseWriter := do
  match ← retryAcquire (getOrCreateAccount env) 3 with
  | none => httpError w "Service unavailable" 503
  | some account =>
    if openAIReq.Stream then
      handleStreamAnthropic env w account.Client account.ProxyIndex chatReq
    else handleNonStreamAnthropic env w account.Client account.ProxyIndex chatReq

/-- Source `Gateway.handleWithSessionAnthropic`. -/
def handleWithSessionAnthropic (env : Env) (w : ResponseWriter) (openAIReq : OpenAIRequest)
    (chatReq : ChatRequest) : M ResponseWriter := do
  match ← retryAcquire (getOrCreateSession env) 3 with
  | none => httpError w "Service unavailable" 503
  | some session =>
    if openAIReq.Stream then
      handleStreamAnthropic env w session.Client session.ProxyIndex chatReq
    else handleNonStreamAnthropic env w session.Client session.ProxyIndex chatReq

/-! ## The two entry points -/

/-- Source `NewGateway`. -/
def NewGateway (baseURL : String) (proxyMgr : ProxyManager) (useAuth : Bool) : Gateway :=
  { baseURL := baseURL, proxyMgr := proxyMgr, accounts := fun _ => none,
    sessions := fun _ => none, useAuth := useAuth }

/-- Source `ModelMapping`: the alias table, one pair per key of the map. -/
def ModelMapping : List (String × String) :=
  [("gpt-5.2", "openai/gpt-5.2"),
   ("claude-opus-4.5", "anthropic/claude-opus-4.5"),
   ("claude-sonnet-4.5", "anthropic/claude-sonnet-4.5"),
   ("gemini-3-pro-preview", "google/gemini-3-pro-preview")]

/-- Source `Gateway.convertModel`. -/
def convertModel (model : String) : String :=
  match ModelMapping.find? (fun kv => kv.1 == model) with
  | some kv => kv.2
  | none => model

/-- Source `Gateway.respondBAKA`. -/
def respondBAKA (env : Env) (w : ResponseWriter) (stream : Bool) : M ResponseWriter := do
  if stream then
    let w := eventStreamHeaders w
    let id ← uuidNew env
    let created ← timeNow env
    let w := w.write (Written.data (openAIChunk id created "baka" "BAKA!"))
    let w := w.write doneMarker
    return if w.flusher then w.flush else w
  else
    let w := w.setHeader "Content-Type" "application/json"
    let id ← uuidNew env
    let created ← timeNow env
    return w.write (Written.json (openAIResp id created "baka" "BAKA!"))

/-- The response object of the non-streaming branch of `respondAnthropicBAKA`. -/
def anthropicBAKA (id : String) : JSONValue :=
  JSONValue.object [
    ("id", JSONValue.string ("msg_" ++ id)),
    ("type", JSONValue.string "message"),
    ("role", JSONValue.string "assistant"),
    ("content", JSONValue.array [JSONValue.object [
      ("type", JSONValue.string "text"), ("text", JSONValue.string "BAKA!")]]),
    ("model", JSONValue.string "claude-3-opus-20240229"),
    ("stop_reason", JSONValue.string "end_turn"),
    ("usage", JSONValue.object [
      ("input_tokens", JSONValue.number 0),
      ("output_tokens", JSONValue.number 5)])]

/-- Source `Gateway.respondAnthropicBAKA`. -/
def respondAnthropicBAKA (env : Env) (w : ResponseWriter) (stream : Bool) :
    M ResponseWriter := do
  if stream then
    let w := eventStreamHeaders w
    let w := w.write (Written.text "event: content_block_delta\n")
    let w := w.write (Written.data (anthropicChunk "BAKA!"))
    let w := w.write (Written.text "event: message_stop\n")
    let w := w.write (Written.text "data: \x7b\"type\":\"message_stop\"\x7d\n\n")
    return if w.flusher then w.flush else w
  else
    let w := w.setHeader "Content-Type" "application/json"
    let id ← uuidNew env
    return w.write (Written.json (anthropicBAKA id))

/-- Source `AnthropicMessageCompat`. -/
structure AnthropicMessageCompat where
  Role : String
  Content : JSONValue

/-- The anonymous request struct `HandleAnthropicMessages` decodes into. -/
structure AnthropicRequestCompat where
  Model : String
  Messages : List AnthropicMessageCompat
  Stream : Bool
  MaxTokens : Int

/-- The `switch v := msg.Content.(type)` of `anthropicCompatToOpenAI`: a string
is taken as it is, of an array only the element `v[0]` is looked at. -/
def compatContent : JSONValue → String
  | JSONValue.string v => v
  | JSONValue.array (JSONValue.object block :: _) =>
    match JSONValue.field block "type" with
    | JSONValue.string typ =>
      if typ = "text" then
        match JSONValue.field block "text" with
        | JSONValue.string text => text
        | _ => ""
      else ""
    | _ => ""
  | _ => ""

/-- Source `Gateway.anthropicCompatToOpenAI`. -/
def anthropicCompatToOpenAI (req : AnthropicRequestCompat) : OpenAIRequest :=
  { Model := req.Model,
    Messages := req.Messages.foldl
      (fun messages msg =>
        messages ++ [{ Role := msg.Role, Content := JSONValue.string (compatContent msg.Content) }])
      [],
    Stream := req.Stream }

/-- The `ChatRequest` both entry points build; the two identifiers are fresh
`uuid`s, drawn in the order of the struct literal. -/
def newChatRequest (env : Env) (model : String) (messages : List OpenAIMessage) :
    M ChatRequest := do
  let finalMessage := buildConversationMessage messages
  let chatModel := convertModel model
  let id ← uuidNew env
  let messageID ← uuidNew env
  return { ID := id,
           Message := { Role := "user",
                        Parts := [{ Type_ := "text", Text := finalMessage }],
                        ID := messageID },
           SelectedChatModel := chatModel,
           SelectedVisibilityType := "private" }

/-- Source `Gateway.HandleChatCompletion`; `body` is what
`json.NewDecoder(r.Body).Decode` gives, `none` for a decoding error. The clock
reads that only feed log lines are left out. -/
def HandleChatCompletion (env : Env) (w : ResponseWriter) (body : Option OpenAIRequest) :
    M ResponseWriter := do
  match body with
  | none => httpError w "Invalid request" 400
  | some openAIReq =>
    if openAIReq.Messages.length = 0 then httpError w "No messages found" 400
    else if isMeaninglessRequest env.caseTable openAIReq.Messages then
      respondBAKA env w openAIReq.Stream
    else
      let chatReq ← newChatRequest env openAIReq.Model openAIReq.Messages
      if (← getGateway).useAuth then handleWithAccount env w openAIReq chatReq
      else handleWithSession env w openAIReq chatReq

/-- Source `Gateway.HandleAnthropicMessages`. -/
def HandleAnthropicMessages (env : Env) (w : ResponseWriter)
    (body : Option AnthropicRequestCompat) : M ResponseWriter := do
  match body with
  | none => httpError w "Invalid request" 400
  | some anthropicReqCompat =>
    if anthropicReqCompat.Messages.length = 0 then httpError w "No messages found" 400
    else
      let openAIReq := anthropicCompatToOpenAI anthropicReqCompat
      if isMeaninglessRequest env.caseTable openAIReq.Messages then
        respondAnthropicBAKA env w anthropicReqCompat.Stream
      else
        let chatReq ← newChatRequest env openAIReq.Model openAIReq.Messages
        if (← getGateway).useAuth then handleWithAccountAnthropic env w openAIReq chatReq
        else handleWithSessionAnthropic env w openAIReq chatReq

/-! ### Vocabulary of the specification for upstream streams -/

/-- The completion marker line of the upstream stream. -/
def doneLine : String := "data: [DONE]"

/-- The lines of the stream that come before its completion marker. -/
def beforeDone (lines : List String) : List String :=
  lines.takeWhile (fun line => decide (line ≠ doneLine))

/-- The text carried by a line when the line is a `text-delta` event. -/
def textDelta (unmarshal : String → Option SSEEvent) (line : String) : Option String :=
  if strings.HasPrefix line "data: " then
    match unmarshal (strings.TrimPrefix line "data: ") with
    | some event => if event.Type_ = "text-delta" then some event.Delta else none
    | none => none
  else none

/-- The texts `t1..tN` of the text-delta events of a stream, in arrival order. -/
def deltaTexts (unmarshal : String → Option SSEEvent) (lines : List String) : List String :=
  (beforeDone lines).filterMap (textDelta unmarshal)

/-- The concatenation `t1 + ... + tN`. -/
def concatTexts : List String → String
  | [] => ""
  | t :: ts => t ++ concatTexts ts

/-- The texts the streaming translator forwards: those of the text-delta events
with non-empty text, in arrival order. -/
def emittedTexts (unmarshal : String → Option SSEEvent) (lines : List String) : List String :=
  (deltaTexts unmarshal lines).filter (fun t => decide (t ≠ ""))

/-- The OpenAI client events for the given texts, one per text; the clock is
read once per event, `n` being the index of the next read. -/
def openAIEvents (env : Env) (chatID model : String) : Nat → List String → List Written
  | _, [] => []
  | n, t :: ts =>
    Written.data (openAIChunk chatID (env.now n) model t) ::
      openAIEvents env chatID model (n + 1) ts

/-- The Anthropic client events for the given texts: one framed pair per text. -/
def anthropicEvents : List String → List Written
  | [] => []
  | t :: ts =>
    Written.text "event: content_block_delta\n" :: Written.data (anthropicChunk t) ::
      anthropicEvents ts

/-- A response with status 200 whose body is that of `w` followed by `xs`. -/
def sent (w : ResponseWriter) (xs : List Written) : ResponseWriter :=
  { w with status := some 200, body := w.body ++ xs }

/-- Writing and flushing each element in turn. -/
def flushAll (w : ResponseWriter) (xs : List Written) : ResponseWriter :=
  xs.foldl (fun w x => (w.write x).flush) w

/-- The response `http.Error(w, msg, code)` leaves on a writer whose status was
not written yet. -/
def errorResponse (w : ResponseWriter) (msg : String) (code : Nat) : ResponseWriter :=
  let w1 := ((w.delHeader "Content-Length").setHeader "Content-Type"
    "text/plain; charset=utf-8").setHeader "X-Content-Type-Options" "nosniff"
  ({ w1 with status := some code }).write (Written.text (msg ++ "\n"))

/-! ### Vocabulary of the specification for the dispatcher -/

/-- The number of effects satisfying `p` that have happened so far. -/
def countEffect (p : Effect → Bool) (s : World) : Nat := (s.trace.filter p).length

/-- A call of `getOrCreateSession` or `getOrCreateAccount`. -/
def isAcquire : Effect → Bool
  | Effect.getOrCreateSession => true
  | Effect.getOrCreateAccount => true
  | _ => false

/-- An upstream chat call. -/
def isChat : Effect → Bool
  | Effect.chat _ _ => true
  | _ => false

/-- The state reached when the first `n` attempts of the retry loop all fail
(each one returns an error and is followed by the sleep); `none` when one of
them does not fail. -/
def afterFailures {ι : Type} (acquire : M (Except String ι)) : Nat → World → Option World
  | 0, s => some s
  | n + 1, s =>
    match acquire s with
    | Outcome.ret (Except.error _) s2 =>
      afterFailures acquire n { s2 with trace := s2.trace ++ [Effect.sleep] }
    | _ => none

/-- The upstream handler an OpenAI dispatcher hands the identity to. -/
def forwardOpenAI (env : Env) (openAIReq : OpenAIRequest) (chatReq : ChatRequest)
    (w : ResponseWriter) (client : Client) (proxyIndex : Int) : M ResponseWriter :=
  if openAIReq.Stream then handleStreamWithClient env w client proxyIndex chatReq
  else handleNonStreamWithClient env w client proxyIndex chatReq

/-- The upstream handler an Anthropic dispatcher hands the identity to. -/
def forwardAnthropic (env : Env) (openAIReq : OpenAIRequest) (chatReq : ChatRequest)
    (w : ResponseWriter) (client : Client) (proxyIndex : Int) : M ResponseWriter :=
  if openAIReq.Stream then handleStreamAnthropic env w client proxyIndex chatReq
  else handleNonStreamAnthropic env w client proxyIndex chatReq

/-- A computation that adds no effect satisfying `p`, whether it returns or
panics. -/
def Silent (p : Effect → Bool) {α : Type} (m : M α) : Prop :=
  ∀ s, countEffect p (m s).state = countEffect p s

/-- The contract of the acquisition step of a dispatcher `handler` that
acquires with `acquire` and forwards to `forward`, on a fresh response:
* `acquire` is called at most three times;
* when the first `n < 3` attempts fail and the next one succeeds, the handler
  goes on with that identity from the state of that success, having called
  `acquire` exactly `n + 1` times;
* the handler answers 503 with no upstream chat call exactly when all three
  attempts fail. -/
def RetryContract {ι : Type} (acquire : M (Except String ι))
    (forward : ResponseWriter → ι → M ResponseWriter)
    (handler : ResponseWriter → M ResponseWriter) : Prop :=
  ∀ (w : ResponseWriter) (s : World), w.status = none →
    countEffect isAcquire (handler w s).state ≤ countEffect isAcquire s + 3 ∧
    (∀ (n : Nat) (sn : World) (identity : ι) (s2 : World), n < 3 →
      afterFailures acquire n s = some sn →
      acquire sn = Outcome.ret (Except.ok identity) s2 →
      handler w s = forward w identity s2 ∧
        countEffect isAcquire (handler w s).state = countEffect isAcquire s + (n + 1)) ∧
    ((∃ w2 s2, handler w s = Outcome.ret w2 s2 ∧ w2.status = some 503 ∧
        countEffect isChat s2 = countEffect isChat s) ↔
      (afterFailures acquire 3 s).isSome = true)

/-! ### Vocabulary of the specification for the entry points -/

/-- An upstream chat call whose `selectedChatModel` is not `model`. -/
def sendsOtherModel (model : String) : Effect → Bool
  | Effect.chat _ chatReq => decide (chatReq.SelectedChatModel ≠ model)
  | _ => false

/-- The `selectedChatModel` values of the upstream chat calls made so far. -/
def sentModels (s : World) : List String :=
  s.trace.filterMap (fun e =>
    match e with
    | Effect.chat _ chatReq => some chatReq.SelectedChatModel
    | _ => none)

/-- An acquisition request: the probe of a guest session or a registration. -/
def isAcquisition : Effect → Bool
  | Effect.probe _ => true
  | Effect.register _ _ _ => true
  | _ => false

/-- The cache invariant: an identity is cached under its own route index. It
holds for the empty caches of `NewGateway` and every write keeps it. -/
def WellKeyed (g : Gateway) : Prop :=
  (∀ k session, g.sessions k = some session → session.ProxyIndex = k) ∧
  (∀ k account, g.accounts k = some account → account.ProxyIndex = k)

/-- A computation that keeps a property of the gateway, whether it returns or
panics. -/
def Keeps (P : Gateway → Prop) {α : Type} (m : M α) : Prop :=
  ∀ s, P s.g → P (m s).state.g

/-- Reading `usage.output_tokens` in a response object. -/
def outputTokens : JSONValue → Option Int
  | JSONValue.object fields =>
    match JSONValue.field fields "usage" with
    | JSONValue.object usage =>
      match JSONValue.field usage "output_tokens" with
      | JSONValue.number n => some n
      | _ => none
    | _ => none
  | _ => none

/-- Reading `usage.input_tokens` in a response object. -/
def inputTokens : JSONValue → Option Int
  | JSONValue.object fields =>
    match JSONValue.field fields "usage" with
    | JSONValue.object usage =>
      match JSONValue.field usage "input_tokens" with
      | JSONValue.number n => some n
      | _ => none
    | _ => none
  | _ => none

/-- A malformed upstream line: not the completion marker, and either without
the `data: ` prefix or with a payload that does not decode to an event. -/
def malformed (unmarshal : String → Option SSEEvent) (line : String) : Bool :=
  decide (line ≠ doneLine) &&
    (!strings.HasPrefix line "data: " ||
      (unmarshal (strings.TrimPrefix line "data: ")).isNone)

/-- The comma-separated entries that `NewProxyManager` keeps, each with its
position: those that are not blank. -/
def keptEntries (entries : List String) : List (Nat × String) :=
  entries.enum.filter (fun ip => decide (strings.TrimSpace ip.2 ≠ ""))

/-- Reading `v[key]` in a decoded object; `nil` when `v` is no object or has no
such key. -/
def JSONValue.get (v : JSONValue) (key : String) : JSONValue :=
  match v with
  | JSONValue.object fields => JSONValue.field fields key
  | _ => JSONValue.null

/-- Reading `v[0]` in a decoded array; `nil` when `v` is no array or is empty. -/
def JSONValue.first : JSONValue → JSONValue
  | JSONValue.array (item :: _) => item
  | _ => JSONValue.null

/-- The string a decoded value is, if it is one. -/
def JSONValue.text : JSONValue → Option String
  | JSONValue.string s => some s
  | _ => none

/-- Reading `choices[0].message.content` in an OpenAI response object. -/
def messageContent (v : JSONValue) : Option String :=
  (((v.get "choices").first.get "message").get "content").text

/-- Reading `choices[0].finish_reason` in an OpenAI response object. -/
def finishReason (v : JSONValue) : Option String :=
  ((v.get "choices").first.get "finish_reason").text

/-- Reading `choices[0].delta.content` in an OpenAI chunk object. -/
def chunkContent (v : JSONValue) : Option String :=
  (((v.get "choices").first.get "delta").get "content").text

/-- Reading `content[0].text` in an Anthropic response object. -/
def firstBlockText (v : JSONValue) : Option String :=
  ((v.get "content").first.get "text").text

/-- Reading `delta.text` in an Anthropic `content_block_delta` object. -/
def deltaText (v : JSONValue) : Option String :=
  ((v.get "delta").get "text").text

/-- The value a run returned, if it did not panic. -/
def Outcome.value? {σ α : Type} : Outcome σ α → Option α
  | Outcome.ret a _ => some a
  | Outcome.panic _ => none

/-- The object of the last write to the body of a response, when that write is
a JSON document. -/
def ResponseWriter.lastJSON (w : ResponseWriter) : Option JSONValue :=
  match w.body.getLast? with
  | some (Written.json payload) => some payload
  | _ => none

/-- The object a client reads in the response of a handler that returned. -/
def answered (o : Outcome World ResponseWriter) : Option JSONValue :=
  o.value?.bind ResponseWriter.lastJSON

/-- The texts a client reads in the `data:` events of an Anthropic stream. -/
def streamedDeltas (events : List Written) : List String :=
  events.filterMap (fun x =>
    match x with
    | Written.data payload => deltaText payload
    | _ => none)

/-- A raw line the scanner yields: it is shorter than the scanner's buffer. -/
def fitsScanner (line : String) : Bool := decide (len line < MaxScanTokenSize)

/-- The kept address entries whose comma position has an entry in the handle
string. -/
def keptWithHandle (entries handles : List String) : List (Nat × String) :=
  (keptEntries entries).filter (fun ip => decide (ip.1 < handles.length))

/-! ### Sample data -/

/-- A decoder that knows four payloads and rejects everything else. -/
def sampleUnmarshal (data : String) : Option SSEEvent :=
  if data = "\x7b\"type\":\"start\"\x7d" then some ⟨"start", ""⟩
  else if data = "\x7b\"type\":\"text-delta\",\"delta\":\"Hel\"\x7d" then some ⟨"text-delta", "Hel"⟩
  else if data = "\x7b\"type\":\"text-delta\",\"delta\":\"lo\"\x7d" then some ⟨"text-delta", "lo"⟩
  else if data = "\x7b\"type\":\"text-delta\",\"delta\":\"\"\x7d" then some ⟨"text-delta", ""⟩
  else none

/-- An upstream body with a non-delta event, a comment line, two deltas around a
line that does not decode, an empty delta, the marker, and a delta after it. -/
def sampleLines : List String :=
  ["data: \x7b\"type\":\"start\"\x7d",
   ": keep-alive",
   "data: \x7b\"type\":\"text-delta\",\"delta\":\"Hel\"\x7d",
   "data: not json",
   "data: \x7b\"type\":\"text-delta\",\"delta\":\"\"\x7d",
   "data: \x7b\"type\":\"text-delta\",\"delta\":\"lo\"\x7d",
   "data: [DONE]",
   "data: \x7b\"type\":\"text-delta\",\"delta\":\"Hel\"\x7d"]

/-- An environment whose upstream gives `first` to the first request and
`later` to every other one. -/
def sampleEnv (first later : Reply) : Env :=
  { caseTable := id
    unmarshal := sampleUnmarshal
    badProxy := fun _ => false
    reply := fun n => if n = 0 then first else later
    now := fun n => 1700000000 + n
    uuid := fun n => "uuid-" ++ toString n
    email := fun _ => "james.smith1@gmail.com"
    password := fun _ => "abcdefghijklmnop" }

/-- A gateway over the given proxy manager with empty caches. -/
def sampleGateway (pm : ProxyManager) : Gateway :=
  { baseURL := "https://demo.chat-sdk.dev", proxyMgr := pm,
    accounts := fun _ => none, sessions := fun _ => none, useAuth := false }

/-- The shared state at start-up. -/
def sampleWorld (pm : ProxyManager) : World :=
  { g := sampleGateway pm, step := 0, trace := [] }

/-- A fresh response writer that supports flushing. -/
def freshWriter : ResponseWriter :=
  { header := [], status := none, body := [], flusher := true }

/-- The upstream request `HandleChatCompletion` builds for the given text. -/
def sampleChatReq (text : String) : ChatRequest :=
  { ID := "req-1",
    Message := { Role := "user", Parts := [{ Type_ := "text", Text := text }], ID := "msg-1" },
    SelectedChatModel := "openai/gpt-5.2", SelectedVisibilityType := "private" }

/-- A decoder that knows one payload, a delta of two CJK characters. -/
def cjkUnmarshal (data : String) : Option SSEEvent :=
  if data = "\x7b\"type\":\"text-delta\",\"delta\":\"你好\"\x7d" then some ⟨"text-delta", "你好"⟩
  else none

/-- An upstream body with that single delta. -/
def cjkLines : List String :=
  ["data: \x7b\"type\":\"text-delta\",\"delta\":\"你好\"\x7d", "data: [DONE]"]

/-- An environment whose upstream answers every request with `cjkLines`. -/
def cjkEnv : Env :=
  { caseTable := id
    unmarshal := cjkUnmarshal
    badProxy := fun _ => false
    reply := fun _ => Reply.response 200 [] [] cjkLines
    now := fun n => 1700000000 + n
    uuid := fun n => "uuid-" ++ toString n
    email := fun _ => "james.smith1@gmail.com"
    password := fun _ => "abcdefghijklmnop" }

/-- A message content made of two text blocks. -/
def twoBlocks (first second : String) : JSONValue :=
  JSONValue.array [
    JSONValue.object [("type", JSONValue.string "text"), ("text", JSONValue.string first)],
    JSONValue.object [("type", JSONValue.string "text"), ("text", JSONValue.string second)]]

/-- The shared state at start-up of a gateway that registers accounts. -/
def authWorld (pm : ProxyManager) : World :=
  { g := NewGateway "https://demo.chat-sdk.dev" pm true, step := 0, trace := [] }

/-- A raw line of 70000 bytes without the `data: ` prefix. -/
def longLine : String := ⟨List.replicate 70000 'x'⟩

/-! # Theorems -/

/-! ## Classification of trivial requests -/

theorem countStep_foldl_fst (messages : List OpenAIMessage) (acc : Nat × String) :
    (messages.foldl countStep acc).1 = acc.1 + turnCount messages := by
  induction messages generalizing acc with
  | nil => simp [turnCount]
  | cons m rest ih =>
    rw [List.foldl_cons, ih]
    by_cases h : m.Role = "user" ∨ m.Role = "assistant"
    · have ht : isTurn m = true := by simpa [isTurn] using h
      simp [countStep, h, turnCount, List.filter_cons, ht]
      omega
    · have ht : isTurn m = false := by simpa [isTurn] using h
      simp [countStep, h, turnCount, List.filter_cons, ht]

theorem countStep_foldl_noTurn (messages : List OpenAIMessage) (acc : Nat × String)
    (h : turnCount messages = 0) : messages.foldl countStep acc = acc := by
  induction messages generalizing acc with
  | nil => rfl
  | cons m rest ih =>
    by_cases ht : isTurn m = true
    · simp [turnCount, List.filter_cons, ht] at h
    · have hr : turnCount rest = 0 := by simpa [turnCount, List.filter_cons, ht] using h
      have hn : ¬ (m.Role = "user" ∨ m.Role = "assistant") := by simpa [isTurn] using ht
      rw [List.foldl_cons, ih _ hr]
      simp [countStep, hn]

theorem firstUserText_noTurn (messages : List OpenAIMessage)
    (h : turnCount messages = 0) : firstUserText messages = "" := by
  induction messages with
  | nil => rfl
  | cons m rest ih =>
    by_cases ht : isTurn m = true
    · simp [turnCount, List.filter_cons, ht] at h
    · have hr : turnCount rest = 0 := by simpa [turnCount, List.filter_cons, ht] using h
      have hn : ¬ (m.Role = "user" ∨ m.Role = "assistant") := by simpa [isTurn] using ht
      have hu : ¬ m.Role = "user" := fun hu => hn (Or.inl hu)
      have := ih hr
      simp only [firstUserText, List.find?_cons, hu, decide_False] at this ⊢
      exact this

theorem countStep_foldl_snd (messages : List OpenAIMessage) (n : Nat)
    (h : turnCount messages = 1) :
    (messages.foldl countStep (n, "")).2 = firstUserText messages := by
  induction messages generalizing n with
  | nil => simp [turnCount] at h
  | cons m rest ih =>
    rw [List.foldl_cons]
    by_cases ht : isTurn m = true
    · have hr : turnCount rest = 0 := by simpa [turnCount, List.filter_cons, ht] using h
      rw [countStep_foldl_noTurn _ _ hr]
      have hor : m.Role = "user" ∨ m.Role = "assistant" := by simpa [isTurn] using ht
      by_cases hu : m.Role = "user"
      · simp [countStep, hu, firstUserText, List.find?_cons]
      · have := firstUserText_noTurn rest hr
        simp only [firstUserText, List.find?_cons, hu, decide_False] at this ⊢
        rw [this]
        simp only [countStep, hu, false_or, false_and, if_false]
        split <;> rfl
    · have hr : turnCount rest = 1 := by simpa [turnCount, List.filter_cons, ht] using h
      have hn : ¬ (m.Role = "user" ∨ m.Role = "assistant") := by simpa [isTurn] using ht
      have hu : ¬ m.Role = "user" := fun hu => hn (Or.inl hu)
      have := ih n hr
      simp only [firstUserText, List.find?_cons, hu, decide_False] at this ⊢
      simpa [countStep, hn] using this

/-- C1, as amended: for a conversation with exactly one user/assistant turn,
`isMeaninglessRequest` answers true exactly when the first user message's text
is under 10 bytes long (Go's `len`, the UTF-8 length) and its lower-cased text
contains one of the keywords; "hi" gives true, "hello there, how are you" and
"banana" give false. -/
theorem isMeaninglessRequest_single_turn :
    (∀ (caseTable : Char → Char) (messages : List OpenAIMessage),
      turnCount messages = 1 →
      (isMeaninglessRequest caseTable messages = true ↔
        len (firstUserText messages) < 10 ∧
          containsKeyword (strings.ToLower caseTable (firstUserText messages)))) ∧
    (∀ caseTable : Char → Char, isMeaninglessRequest caseTable (userSays "hi") = true) ∧
    (∀ caseTable : Char → Char,
      isMeaninglessRequest caseTable (userSays "hello there, how are you") = false) ∧
    (∀ caseTable : Char → Char, isMeaninglessRequest caseTable (userSays "banana") = false) := by
  refine ⟨?_, fun _ => rfl, fun _ => rfl, fun _ => rfl⟩
  intro caseTable messages h
  have h1 := countStep_foldl_fst messages (0, "")
  have h2 := countStep_foldl_snd messages 0 h
  simp only [isMeaninglessRequest, h1, h2, h, containsKeyword, List.any_eq_true]
  constructor
  · intro hm
    by_cases hl : len (firstUserText messages) ≥ 10
    · simp [hl] at hm
    · refine ⟨by omega, ?_⟩
      simpa [hl] using hm
  · rintro ⟨hl, hk⟩
    have hl2 : ¬ len (firstUserText messages) ≥ 10 := by omega
    simpa [hl2] using hk

/-- C1, the amended statement at the conversation made of the user turn "hi". -/
theorem isMeaninglessRequest_single_turn_witness :
    turnCount (userSays "hi") = 1 ∧
      (isMeaninglessRequest id (userSays "hi") = true ↔
        len (firstUserText (userSays "hi")) < 10 ∧
          containsKeyword (strings.ToLower id (firstUserText (userSays "hi")))) :=
  ⟨by decide, isMeaninglessRequest_single_turn.1 id (userSays "hi") (by decide)⟩

/-- C1 as stated fails: the single user turn "你好你好" is 4 characters long and
contains the keyword "你好", yet `isMeaninglessRequest` answers false, because
the text is 12 bytes long. The case table `id` is right on these runes, which
have no case. -/
theorem isMeaninglessRequest_characters_counterexample :
    turnCount (userSays "你好你好") = 1 ∧
      (firstUserText (userSays "你好你好")).length < 10 ∧
      containsKeyword (strings.ToLower id (firstUserText (userSays "你好你好"))) ∧
      len (firstUserText (userSays "你好你好")) = 12 ∧
      isMeaninglessRequest id (userSays "你好你好") = false := by
  refine ⟨by decide, by decide, by decide, by decide, by decide⟩

/-- C2: a conversation with two or more user/assistant messages is never
classified as meaningless, whatever the messages hold. -/
theorem isMeaninglessRequest_multi_turn (caseTable : Char → Char)
    (messages : List OpenAIMessage) (h : 2 ≤ turnCount messages) :
    isMeaninglessRequest caseTable messages = false := by
  have h1 := countStep_foldl_fst messages (0, "")
  have hgt : (messages.foldl countStep (0, "")).1 > 1 := by rw [h1]; simp; omega
  simp only [isMeaninglessRequest, hgt, if_true]

/-- C2 at a three-turn conversation whose last turn is the keyword "hi". -/
theorem isMeaninglessRequest_multi_turn_witness :
    2 ≤ turnCount [⟨"user", JSONValue.string "hi"⟩, ⟨"assistant", JSONValue.string "hello"⟩,
        ⟨"user", JSONValue.string "hi"⟩] ∧
      isMeaninglessRequest id [⟨"user", JSONValue.string "hi"⟩,
        ⟨"assistant", JSONValue.string "hello"⟩, ⟨"user", JSONValue.string "hi"⟩] = false :=
  ⟨by decide, isMeaninglessRequest_multi_turn id _ (by decide)⟩

/-! ## Flattening a conversation -/

theorem historyStep_turn (parts : List String) (m : OpenAIMessage) (h : isTurn m = true) :
    historyStep parts m = parts ++ [renderTurn m] := by
  have hor : m.Role = "user" ∨ m.Role = "assistant" := by simpa [isTurn] using h
  rcases hor with hu | ha
  · simp [historyStep, renderTurn, hu]
  · simp [historyStep, renderTurn, ha]

theorem historyStep_other (parts : List String) (m : OpenAIMessage) (h : isTurn m = false) :
    historyStep parts m = parts := by
  have hn : ¬ (m.Role = "user" ∨ m.Role = "assistant") := by simpa [isTurn] using h
  have hu : ¬ m.Role = "user" := fun hu => hn (Or.inl hu)
  have ha : ¬ m.Role = "assistant" := fun ha => hn (Or.inr ha)
  simp [historyStep, hu, ha]

theorem historyStep_foldl (messages : List OpenAIMessage) (parts : List String) :
    messages.foldl historyStep parts = parts ++ (messages.filter isTurn).map renderTurn := by
  induction messages generalizing parts with
  | nil => simp
  | cons m rest ih =>
    rw [List.foldl_cons, ih]
    by_cases ht : isTurn m = true
    · simp [historyStep_turn _ _ ht, List.filter_cons, ht]
    · have hf : isTurn m = false := by simpa using ht
      simp [historyStep_other _ _ hf, List.filter_cons, hf]

theorem conversationParts_eq (messages : List OpenAIMessage) :
    conversationParts messages =
      systemBlock messages :: (messages.filter isTurn).map renderTurn := by
  simp [conversationParts, historyStep_foldl]

/-- C3: the flattened text is the `[System]` block followed by one block per
user or assistant message, in message order, joined by a blank line; a user
message with text c gives `[User]\n` + c, an assistant message `[Assistant]\n`
+ c, and there are 1 + (number of user/assistant messages) blocks. -/
theorem buildConversationMessage_blocks (messages : List OpenAIMessage) :
    conversationParts messages =
        systemBlock messages :: (messages.filter isTurn).map renderTurn ∧
      buildConversationMessage messages =
        strings.Join (systemBlock messages :: (messages.filter isTurn).map renderTurn) "\n\n" ∧
      (conversationParts messages).length = 1 + turnCount messages ∧
      (∀ c : JSONValue, renderTurn ⟨"user", c⟩ = "[User]\n" ++ extractContent c) ∧
      (∀ c : JSONValue, renderTurn ⟨"assistant", c⟩ = "[Assistant]\n" ++ extractContent c) := by
  have hp := conversationParts_eq messages
  refine ⟨hp, ?_, ?_, fun _ => rfl, fun _ => rfl⟩
  · rw [buildConversationMessage, hp]
  · rw [hp]; simp [turnCount]; omega

theorem isSystemBlock_label (x : String) : isSystemBlock ("[System]\n" ++ x) = true := by
  simp only [isSystemBlock, strings.HasPrefix, String.data_append]
  rfl

theorem isSystemBlock_systemBlock (messages : List OpenAIMessage) :
    isSystemBlock (systemBlock messages) = true := by
  unfold systemBlock
  split
  · rw [String.append_assoc, String.append_assoc]; exact isSystemBlock_label _
  · exact isSystemBlock_label _

theorem isSystemBlock_renderTurn (m : OpenAIMessage) : isSystemBlock (renderTurn m) = false := by
  unfold renderTurn
  split <;> (simp only [isSystemBlock, strings.HasPrefix, String.data_append]; rfl)

theorem userSystemPrompt_append (pre rest : List OpenAIMessage)
    (h : hasSystem pre = true) :
    userSystemPrompt (pre ++ rest) = userSystemPrompt pre := by
  induction pre with
  | nil => simp [hasSystem] at h
  | cons a pre ih =>
    by_cases ha : a.Role = "system"
    · simp [userSystemPrompt, ha]
    · have h2 : hasSystem pre = true := by
        simpa [hasSystem, ha] using h
      simp [userSystemPrompt, ha, ih h2]

theorem isTurn_system (s : OpenAIMessage) (h : s.Role = "system") : isTurn s = false := by
  simp [isTurn, h]

theorem conversationParts_drop_system (pre post : List OpenAIMessage) (s : OpenAIMessage)
    (hpre : hasSystem pre = true) (hs : s.Role = "system") :
    conversationParts (pre ++ s :: post) = conversationParts (pre ++ post) := by
  rw [conversationParts_eq, conversationParts_eq]
  have e1 : systemBlock (pre ++ s :: post) = systemBlock (pre ++ post) := by
    simp only [systemBlock, userSystemPrompt_append _ _ hpre]
  rw [e1]
  simp [List.filter_append, List.filter_cons, isTurn_system s hs]

theorem userSystemPrompt_first (pre post : List OpenAIMessage) (s : OpenAIMessage)
    (hpre : hasSystem pre = false) (hs : s.Role = "system") :
    userSystemPrompt (pre ++ s :: post) = extractContent s.Content := by
  induction pre with
  | nil => simp [userSystemPrompt, hs]
  | cons a pre ih =>
    have ha : ¬ a.Role = "system" := by
      intro ha
      simp [hasSystem, ha] at hpre
    have h2 : hasSystem pre = false := by
      simpa [hasSystem, ha] using hpre
    simp only [List.cons_append, userSystemPrompt, ha, if_false]
    exact ih h2

theorem userSystemPrompt_none (messages : List OpenAIMessage)
    (h : hasSystem messages = false) : userSystemPrompt messages = "" := by
  induction messages with
  | nil => rfl
  | cons a rest ih =>
    have ha : ¬ a.Role = "system" := by
      intro ha
      simp [hasSystem, ha] at h
    have h2 : hasSystem rest = false := by
      simpa [hasSystem, ha] using h
    simp only [userSystemPrompt, ha, if_false]
    exact ih h2

/-- C4: whatever the number of system-role messages, the parts hold exactly one
`[System]` block and it comes first; once a system message has been seen,
removing a later system-role message, or replacing it by another system-role
message, leaves the flattened text unchanged; the block carries the text of
the first system-role message, followed by the built-in instruction, and the
built-in instruction alone when that text is empty or when the conversation
has no system-role message. -/
theorem buildConversationMessage_single_system_block :
    (∀ messages : List OpenAIMessage,
      (conversationParts messages).head? = some (systemBlock messages) ∧
      isSystemBlock (systemBlock messages) = true ∧
      ((conversationParts messages).filter isSystemBlock).length = 1) ∧
    (∀ (pre post : List OpenAIMessage) (s s2 : OpenAIMessage),
      hasSystem pre = true → s.Role = "system" → s2.Role = "system" →
      buildConversationMessage (pre ++ s :: post) = buildConversationMessage (pre ++ post) ∧
      buildConversationMessage (pre ++ s2 :: post) =
        buildConversationMessage (pre ++ s :: post)) ∧
    (∀ (pre post : List OpenAIMessage) (s : OpenAIMessage),
      hasSystem pre = false → s.Role = "system" →
      userSystemPrompt (pre ++ s :: post) = extractContent s.Content ∧
      systemBlock (pre ++ s :: post) =
        (if extractContent s.Content ≠ "" then
          "[System]\n" ++ extractContent s.Content ++ "\n\n" ++ builtinSystemPrompt
         else "[System]\n" ++ builtinSystemPrompt)) ∧
    (∀ messages : List OpenAIMessage, hasSystem messages = false →
      systemBlock messages = "[System]\n" ++ builtinSystemPrompt) := by
  refine ⟨?_, ?_, ?_, ?_⟩
  · intro messages
    refine ⟨by rw [conversationParts_eq]; rfl, isSystemBlock_systemBlock messages, ?_⟩
    rw [conversationParts_eq, List.filter_cons, isSystemBlock_systemBlock]
    have hnone : ∀ l : List OpenAIMessage, (l.map renderTurn).filter isSystemBlock = [] := by
      intro l
      induction l with
      | nil => rfl
      | cons a l ih => simp [List.filter_cons, isSystemBlock_renderTurn, ih]
    simp [hnone]
  · intro pre post s s2 hpre hs hs2
    simp only [buildConversationMessage, conversationParts_drop_system pre post s hpre hs,
      conversationParts_drop_system pre post s2 hpre hs2, and_self]
  · intro pre post s hpre hs
    refine ⟨userSystemPrompt_first pre post s hpre hs, ?_⟩
    simp only [systemBlock, userSystemPrompt_first pre post s hpre hs]
  · intro messages h
    simp only [systemBlock, userSystemPrompt_none messages h, ne_eq, not_true_eq_false,
      if_false]

/-- C4 at a conversation with two system messages: dropping or rewriting the
second one does not change the flattened text, and the `[System]` block
carries the text of the first one. -/
theorem buildConversationMessage_single_system_block_witness :
    hasSystem [⟨"system", JSONValue.string "be brief"⟩] = true ∧
    (buildConversationMessage
        ([⟨"system", JSONValue.string "be brief"⟩] ++
          ⟨"system", JSONValue.string "be long"⟩ :: [⟨"user", JSONValue.string "why?"⟩]) =
      buildConversationMessage
        ([⟨"system", JSONValue.string "be brief"⟩] ++ [⟨"user", JSONValue.string "why?"⟩]) ∧
     buildConversationMessage
        ([⟨"system", JSONValue.string "be brief"⟩] ++
          ⟨"system", JSONValue.string "shout"⟩ :: [⟨"user", JSONValue.string "why?"⟩]) =
      buildConversationMessage
        ([⟨"system", JSONValue.string "be brief"⟩] ++
          ⟨"system", JSONValue.string "be long"⟩ :: [⟨"user", JSONValue.string "why?"⟩])) ∧
    hasSystem [⟨"user", JSONValue.string "why?"⟩] = false ∧
    systemBlock
        ([⟨"user", JSONValue.string "why?"⟩] ++
          ⟨"system", JSONValue.string "be brief"⟩ :: [⟨"system", JSONValue.string "be long"⟩]) =
      "[System]\nbe brief\n\n请不要调用任何工具" ∧
    buildConversationMessage
        [⟨"system", JSONValue.string "be brief"⟩, ⟨"system", JSONValue.string "be long"⟩,
          ⟨"user", JSONValue.string "why?"⟩] =
      "[System]\nbe brief\n\n请不要调用任何工具\n\n[User]\nwhy?" :=
  ⟨by decide,
    buildConversationMessage_single_system_block.2.1 _ _ _ _ (by decide) rfl rfl,
    by decide,
    ((buildConversationMessage_single_system_block.2.2.1 _ _ _ (by decide) rfl).2).trans
      (by decide),
    by decide⟩

/-! ## Reading the upstream stream -/

theorem done_iff (line : String) :
    (strings.HasPrefix line "data: " = true ∧ strings.TrimPrefix line "data: " = "[DONE]") ↔
      line = doneLine := by
  constructor
  · rintro ⟨hp, ht⟩
    have hpre : "data: ".data <+: line.data := List.isPrefixOf_iff_prefix.1 hp
    obtain ⟨t, ht2⟩ := hpre
    simp only [strings.TrimPrefix, hp, if_true] at ht
    have hd : line.data.drop "data: ".data.length = "[DONE]".data := by
      rw [← ht]
    rw [← ht2, List.drop_left] at hd
    apply String.ext
    rw [← ht2, hd]
    rfl
  · intro h
    subst h
    exact ⟨by decide, by decide⟩

theorem classifyLine_done (unmarshal : String → Option SSEEvent) :
    classifyLine unmarshal doneLine = LineKind.done := by
  simp only [classifyLine]
  rw [if_neg (by decide), if_pos (by decide)]

theorem classifyLine_not_done (unmarshal : String → Option SSEEvent) (line : String)
    (h : line ≠ doneLine) :
    (classifyLine unmarshal line = LineKind.skip ∧
      (textDelta unmarshal line = none ∨ textDelta unmarshal line = some "")) ∨
    (∃ t, t ≠ "" ∧ classifyLine unmarshal line = LineKind.delta t ∧
      textDelta unmarshal line = some t) := by
  by_cases hp : strings.HasPrefix line "data: " = true
  · have hnd : ¬ strings.TrimPrefix line "data: " = "[DONE]" :=
      fun hd => h ((done_iff line).1 ⟨hp, hd⟩)
    simp only [classifyLine, textDelta, hp, hnd, Bool.not_true, if_false, if_true]
    cases hu : unmarshal (strings.TrimPrefix line "data: ") with
    | none => simp
    | some event =>
      by_cases ht : event.Type_ = "text-delta"
      · by_cases hd : event.Delta = ""
        · simp [ht, hd]
        · simp [ht, hd]
      · simp [ht]
  · simp [classifyLine, textDelta, hp]

theorem readAll_eq (unmarshal : String → Option SSEEvent) (lines : List String)
    (fullContent : String) :
    readAll unmarshal lines fullContent =
      fullContent ++ concatTexts (deltaTexts unmarshal lines) := by
  induction lines generalizing fullContent with
  | nil => simp [readAll, deltaTexts, beforeDone, concatTexts]
  | cons line rest ih =>
    by_cases hd : line = doneLine
    · subst hd
      simp [readAll, classifyLine_done, deltaTexts, beforeDone, concatTexts]
    · have hstep : deltaTexts unmarshal (line :: rest) =
          (match textDelta unmarshal line with
            | some t => [t]
            | none => []) ++ deltaTexts unmarshal rest := by
        simp only [deltaTexts, beforeDone, List.takeWhile_cons, hd, ne_eq, not_false_eq_true,
          decide_True, if_true, List.filterMap_cons]
        cases textDelta unmarshal line <;> simp
      rcases classifyLine_not_done unmarshal line hd with ⟨hc, hn | he⟩ | ⟨t, _, hc, ht⟩
      · simp [readAll, hc, ih, hstep, hn]
      · simp [readAll, hc, ih, hstep, he, concatTexts]
      · simp [readAll, hc, ih, hstep, ht, concatTexts, String.append_assoc]

/-! ## Running the handlers -/

theorem run_bind {α β : Type} (m : M α) (f : α → M β) (s : World) :
    (m >>= f) s =
      match m s with
      | Outcome.ret a s2 => f a s2
      | Outcome.panic s2 => Outcome.panic s2 := rfl

theorem run_pure {α : Type} (a : α) (s : World) : (pure a : M α) s = Outcome.ret a s := rfl

theorem run_clientDo (env : Env) (e : Effect) (s : World) :
    clientDo env e s =
      Outcome.ret (env.reply s.step) { s with step := s.step + 1, trace := s.trace ++ [e] } := rfl

theorem run_uuidNew (env : Env) (s : World) :
    uuidNew env s = Outcome.ret (env.uuid s.step) { s with step := s.step + 1 } := rfl

theorem run_timeNow (env : Env) (s : World) :
    timeNow env s = Outcome.ret (env.now s.step) { s with step := s.step + 1 } := rfl

theorem write_flush_open (w : ResponseWriter) (x : Written)
    (h : w.status = none ∨ w.status = some 200) : (w.write x).flush = sent w [x] := by
  rcases h with h | h <;>
    simp [ResponseWriter.write, ResponseWriter.flush, sent, h, bodyAllowed]

theorem write_open (w : ResponseWriter) (x : Written)
    (h : w.status = none ∨ w.status = some 200) : w.write x = sent w [x] := by
  rcases h with h | h <;> simp [ResponseWriter.write, sent, h, bodyAllowed]

theorem sent_open (w : ResponseWriter) (xs : List Written) :
    (sent w xs).status = none ∨ (sent w xs).status = some 200 := Or.inr rfl

theorem sent_sent (w : ResponseWriter) (xs ys : List Written) :
    sent (sent w xs) ys = sent w (xs ++ ys) := by
  simp [sent, List.append_assoc]

theorem emittedTexts_done (unmarshal : String → Option SSEEvent) (rest : List String) :
    emittedTexts unmarshal (doneLine :: rest) = [] := by
  simp [emittedTexts, deltaTexts, beforeDone]

theorem emittedTexts_nil (unmarshal : String → Option SSEEvent) :
    emittedTexts unmarshal [] = [] := rfl

theorem emittedTexts_cons (unmarshal : String → Option SSEEvent) (line : String)
    (rest : List String) (h : line ≠ doneLine) :
    emittedTexts unmarshal (line :: rest) =
      (match classifyLine unmarshal line with
        | LineKind.delta t => [t]
        | _ => []) ++ emittedTexts unmarshal rest := by
  have hstep : deltaTexts unmarshal (line :: rest) =
      (match textDelta unmarshal line with
        | some t => [t]
        | none => []) ++ deltaTexts unmarshal rest := by
    simp only [deltaTexts, beforeDone, List.takeWhile_cons, h, ne_eq, not_false_eq_true,
      decide_True, if_true, List.filterMap_cons]
    cases textDelta unmarshal line <;> simp
  rcases classifyLine_not_done unmarshal line h with ⟨hc, hn | he⟩ | ⟨t, hne, hc, ht⟩
  · simp [emittedTexts, hstep, hc, hn]
  · simp [emittedTexts, hstep, hc, he]
  · simp [emittedTexts, hstep, hc, ht, List.filter_cons, hne]

theorem streamOpenAI_eq (env : Env) (chatID model : String) (lines : List String)
    (w : ResponseWriter) (s : World) :
    streamOpenAI env chatID model lines w s =
      Outcome.ret
        (flushAll w (openAIEvents env chatID model s.step (emittedTexts env.unmarshal lines)))
        { s with step := s.step + (emittedTexts env.unmarshal lines).length } := by
  induction lines generalizing w s with
  | nil => simp [streamOpenAI, emittedTexts_nil, openAIEvents, flushAll, run_pure]
  | cons line rest ih =>
    by_cases hd : line = doneLine
    · subst hd
      simp [streamOpenAI, classifyLine_done, emittedTexts_done, openAIEvents, flushAll, run_pure]
    · rw [emittedTexts_cons _ _ _ hd]
      cases hc : classifyLine env.unmarshal line with
      | skip => simp [streamOpenAI, hc, ih]
      | done =>
        rcases classifyLine_not_done env.unmarshal line hd with ⟨h1, _⟩ | ⟨t, _, h1, _⟩ <;>
          simp [hc] at h1
      | delta t =>
        simp only [streamOpenAI, hc, run_bind, run_timeNow, ih, List.singleton_append,
          openAIEvents, flushAll, List.foldl_cons, List.length_cons]
        congr 1
        simp only [World.mk.injEq, true_and, and_true]
        omega

theorem streamAnthropic_then (unmarshal : String → Option SSEEvent) (lines : List String)
    (w : ResponseWriter) (h : w.status = none ∨ w.status = some 200) :
    (((streamAnthropic unmarshal lines w).write (Written.text "event: message_stop\n")).write
        (Written.text "data: \x7b\"type\":\"message_stop\"\x7d\n\n")).flush =
      sent w (anthropicEvents (emittedTexts unmarshal lines) ++ messageStop) := by
  have hstop : ∀ v : ResponseWriter, (v.status = none ∨ v.status = some 200) →
      ((v.write (Written.text "event: message_stop\n")).write
        (Written.text "data: \x7b\"type\":\"message_stop\"\x7d\n\n")).flush =
        sent v messageStop := by
    intro v hv
    rw [write_open v _ hv, write_flush_open _ _ (sent_open _ _), sent_sent]
    rfl
  induction lines generalizing w with
  | nil => simpa [streamAnthropic, emittedTexts_nil, anthropicEvents] using hstop w h
  | cons line rest ih =>
    by_cases hd : line = doneLine
    · subst hd
      simpa [streamAnthropic, classifyLine_done, emittedTexts_done, anthropicEvents]
        using hstop w h
    · rw [emittedTexts_cons _ _ _ hd]
      cases hc : classifyLine unmarshal line with
      | skip => simpa [streamAnthropic, hc] using ih w h
      | done =>
        rcases classifyLine_not_done unmarshal line hd with ⟨h1, _⟩ | ⟨t, _, h1, _⟩ <;>
          simp [hc] at h1
      | delta t =>
        simp only [streamAnthropic, hc, List.singleton_append, anthropicEvents]
        rw [write_open w _ h, write_flush_open _ _ (sent_open _ _), sent_sent,
          ih _ (sent_open _ _), sent_sent]
        rfl

theorem eventStreamHeaders_status (w : ResponseWriter) :
    (eventStreamHeaders w).status = w.status := rfl

theorem eventStreamHeaders_flusher (w : ResponseWriter) :
    (eventStreamHeaders w).flusher = w.flusher := rfl

theorem OnRateLimit_empty (pm : ProxyManager) (h : pm.proxies.length = 0) :
    pm.OnRateLimit = Outcome.ret none pm := by
  simp [ProxyManager.OnRateLimit, h]

theorem OnRateLimit_covered (pm : ProxyManager)
    (hc : pm.proxies.length ≤ pm.containers.length)
    (hi : pm.currentIndex < pm.proxies.length) :
    pm.OnRateLimit =
      Outcome.ret pm.containers[pm.currentIndex]?
        { pm with currentIndex := (pm.currentIndex + 1) % pm.proxies.length } := by
  have hM : pm.proxies.length ≠ 0 := by omega
  have h1 : pm.currentIndex < pm.containers.length := by omega
  have h2 : (pm.currentIndex + 1) % pm.proxies.length < pm.containers.length :=
    lt_of_lt_of_le (Nat.mod_lt _ (by omega)) hc
  simp only [ProxyManager.OnRateLimit, hM, if_false, List.getElem?_eq_getElem h1,
    List.getElem?_eq_getElem h2]

/-- Rotation on a manager that holds a container for every proxy: `k` calls of
`OnRateLimit` leave the index at `(i + k) mod M`, none of them panics, and the
lists are untouched. -/
theorem onRateLimitTimes_covered (k : Nat) (pm : ProxyManager)
    (hc : pm.proxies.length ≤ pm.containers.length)
    (hi : pm.currentIndex < pm.proxies.length) :
    (onRateLimitTimes k pm).currentIndex = (pm.currentIndex + k) % pm.proxies.length ∧
      (onRateLimitTimes k pm).proxies = pm.proxies ∧
      (onRateLimitTimes k pm).containers = pm.containers ∧
      onRateLimitPanics k pm = false := by
  induction k generalizing pm with
  | zero => simp [onRateLimitTimes, onRateLimitPanics, Nat.mod_eq_of_lt hi]
  | succ k ih =>
    have hM : 0 < pm.proxies.length := by omega
    have hstep := OnRateLimit_covered pm hc hi
    have hnext := ih { pm with currentIndex := (pm.currentIndex + 1) % pm.proxies.length }
      hc (Nat.mod_lt _ hM)
    simp only [onRateLimitTimes, onRateLimitPanics, hstep, Outcome.state, Outcome.panicked,
      Bool.false_or]
    refine ⟨?_, hnext.2.1, hnext.2.2.1, hnext.2.2.2⟩
    rw [hnext.1]
    simp only [Nat.mod_add_mod]
    congr 1
    omega

/-- C7, the code at the failing input: the manager built from the addresses
"a,b" and no container names holds two proxies and one container; the first
`OnRateLimit` panics after moving the index to 1, the second panics before
moving it, so two calls leave the index at 1 and not at (0 + 2) mod 2 = 0. On
an empty pool the call returns without any change. -/
theorem OnRateLimit_short_containers :
    (NewProxyManager "a,b" "").proxies = ["a", "b"] ∧
      (NewProxyManager "a,b" "").containers = [""] ∧
      (NewProxyManager "a,b" "").currentIndex = 0 ∧
      (NewProxyManager "a,b" "").OnRateLimit.panicked = true ∧
      (onRateLimitTimes 1 (NewProxyManager "a,b" "")).currentIndex = 1 ∧
      (onRateLimitTimes 1 (NewProxyManager "a,b" "")).OnRateLimit.panicked = true ∧
      (onRateLimitTimes 2 (NewProxyManager "a,b" "")).currentIndex = 1 ∧
      (NewProxyManager "" "").proxies = [] ∧
      (NewProxyManager "" "").OnRateLimit.panicked = false ∧
      (NewProxyManager "" "").OnRateLimit.state.currentIndex = 0 := by
  refine ⟨by decide, by decide, by decide, by decide, by decide, by decide, by decide,
    by decide, by decide, by decide⟩

/-! ## Transport failures -/

theorem run_httpError_fresh (w : ResponseWriter) (msg : String) (code : Nat) (s : World)
    (hfresh : w.status = none) (hlo : 100 ≤ code) (hhi : code ≤ 999) :
    httpError w msg code s = Outcome.ret (errorResponse w msg code) s := by
  have h1 : ¬ (code < 100 ∨ code > 999) := by omega
  simp only [httpError, errorResponse, ResponseWriter.WriteHeader, ResponseWriter.setHeader,
    ResponseWriter.delHeader, hfresh, Option.isSome_none, Bool.false_eq_true, if_false, h1]
  rfl

theorem errorResponse_status (w : ResponseWriter) (msg : String) (code : Nat) :
    (errorResponse w msg code).status = some code := by
  simp [errorResponse, ResponseWriter.write]

/-- What the four handlers do when `client.Do` fails: the two non-streaming
ones answer through `http.Error` with code 500, the two streaming ones return
with nothing written; none of them touches the gateway. -/
theorem transport_failure (env : Env) (w : ResponseWriter) (client : Client)
    (proxyIndex : Int) (chatReq : ChatRequest) (s : World) (message : String)
    (hreply : env.reply s.step = Reply.failed message)
    (hparts : chatReq.Message.Parts ≠ []) (hflush : w.flusher = true) :
    handleStreamWithClient env w client proxyIndex chatReq s =
        Outcome.ret (eventStreamHeaders w)
          { s with step := s.step + 1, trace := s.trace ++ [Effect.chat client chatReq] } ∧
      handleStreamAnthropic env w client proxyIndex chatReq s =
        Outcome.ret (eventStreamHeaders w)
          { s with step := s.step + 1, trace := s.trace ++ [Effect.chat client chatReq] } ∧
      handleNonStreamWithClient env w client proxyIndex chatReq s =
        httpError w "Request failed" 500
          { s with step := s.step + 1, trace := s.trace ++ [Effect.chat client chatReq] } ∧
      handleNonStreamAnthropic env w client proxyIndex chatReq s =
        httpError w "Request failed" 500
          { s with step := s.step + 1, trace := s.trace ++ [Effect.chat client chatReq] } := by
  cases hp : chatReq.Message.Parts with
  | nil => exact absurd hp hparts
  | cons part parts =>
    refine ⟨?_, ?_, ?_, ?_⟩
    · simp only [handleStreamWithClient, eventStreamHeaders_flusher, hflush, hp, run_bind,
        run_clientDo, hreply, run_pure, Bool.not_true, Bool.false_eq_true, if_false]
    · simp only [handleStreamAnthropic, eventStreamHeaders_flusher, hflush, run_bind,
        run_clientDo, hreply, run_pure, Bool.not_true, Bool.false_eq_true, if_false]
    · simp only [handleNonStreamWithClient, hp, run_bind, run_clientDo, hreply]
    · simp only [handleNonStreamAnthropic, run_bind, run_clientDo, hreply]

/-- C8, the code at the failing input: a streaming request whose upstream call
fails at the transport level. Both streaming handlers return having written no
status and no body, so the client receives 200 with an empty event stream, not
500; the gateway (route index and caches) is left as it was. -/
theorem stream_transport_failure_writes_nothing :
    handleStreamWithClient (sampleEnv (Reply.failed "dial tcp: i/o timeout") (Reply.failed ""))
        freshWriter ⟨""⟩ (-1) (sampleChatReq "hi there, friend")
        (sampleWorld (NewProxyManager "" "")) =
      Outcome.ret (eventStreamHeaders freshWriter)
        { sampleWorld (NewProxyManager "" "") with
          step := 1, trace := [Effect.chat ⟨""⟩ (sampleChatReq "hi there, friend")] } ∧
    handleStreamAnthropic (sampleEnv (Reply.failed "dial tcp: i/o timeout") (Reply.failed ""))
        freshWriter ⟨""⟩ (-1) (sampleChatReq "hi there, friend")
        (sampleWorld (NewProxyManager "" "")) =
      Outcome.ret (eventStreamHeaders freshWriter)
        { sampleWorld (NewProxyManager "" "") with
          step := 1, trace := [Effect.chat ⟨""⟩ (sampleChatReq "hi there, friend")] } ∧
    (eventStreamHeaders freshWriter).status = none ∧
    (eventStreamHeaders freshWriter).body.length = 0 ∧
    (eventStreamHeaders freshWriter).received = 200 := by
  have h := transport_failure
    (sampleEnv (Reply.failed "dial tcp: i/o timeout") (Reply.failed "")) freshWriter ⟨""⟩ (-1)
    (sampleChatReq "hi there, friend") (sampleWorld (NewProxyManager "" ""))
    "dial tcp: i/o timeout" rfl (List.cons_ne_nil _ _) rfl
  exact ⟨h.1, h.2.1, rfl, rfl, rfl⟩

/-! ## Upstream rejections -/

theorem run_onRateLimit_ret (s : World) (restart : Option String) (pm2 : ProxyManager)
    (h : s.g.proxyMgr.OnRateLimit = Outcome.ret restart pm2) :
    onRateLimit s =
      Outcome.ret ()
        { s with g := { s.g with proxyMgr := pm2 }, trace := s.trace ++ restartWarp restart } := by
  simp only [onRateLimit, h]

theorem run_onRateLimit_panic (s : World) (pm2 : ProxyManager)
    (h : s.g.proxyMgr.OnRateLimit = Outcome.panic pm2) :
    onRateLimit s = Outcome.panic { s with g := { s.g with proxyMgr := pm2 } } := by
  simp only [onRateLimit, h]

theorem run_clearSession (proxyIndex : Int) (s : World) :
    clearSession proxyIndex s =
      Outcome.ret ()
        { s with g := { s.g with sessions := mapDelete s.g.sessions proxyIndex } } := rfl

theorem run_clearAccount (proxyIndex : Int) (s : World) :
    clearAccount proxyIndex s =
      Outcome.ret ()
        { s with g := { s.g with accounts := mapDelete s.g.accounts proxyIndex } } := rfl

/-- The text `rejectUpstream` passes to `http.Error`. -/
theorem rejectUpstream_ret (w : ResponseWriter) (proxyIndex : Int) (status : Nat) (s : World)
    (restart : Option String) (pm2 : ProxyManager)
    (h : s.g.proxyMgr.OnRateLimit = Outcome.ret restart pm2)
    (hfresh : w.status = none) (hlo : 100 ≤ status) (hhi : status ≤ 999) :
    rejectUpstream w proxyIndex status s =
      Outcome.ret
        (errorResponse w (if status = 429 then "Rate limited" else "Upstream error") status)
        { s with
          g := { s.g with
            proxyMgr := pm2,
            sessions := mapDelete s.g.sessions proxyIndex,
            accounts := mapDelete s.g.accounts proxyIndex },
          trace := s.trace ++ restartWarp restart } := by
  by_cases h429 : status = 429
  · subst h429
    simp only [rejectUpstream, if_true, run_bind, run_onRateLimit_ret s restart pm2 h,
      run_clearSession, run_clearAccount]
    rw [run_httpError_fresh _ _ _ _ hfresh hlo hhi]
  · simp only [rejectUpstream, h429, if_false, run_bind, run_onRateLimit_ret s restart pm2 h,
      run_clearSession, run_clearAccount]
    rw [run_httpError_fresh _ _ _ _ hfresh hlo hhi]

theorem rejectUpstream_panic (w : ResponseWriter) (proxyIndex : Int) (status : Nat) (s : World)
    (pm2 : ProxyManager) (h : s.g.proxyMgr.OnRateLimit = Outcome.panic pm2) :
    rejectUpstream w proxyIndex status s =
      Outcome.panic { s with g := { s.g with proxyMgr := pm2 } } := by
  by_cases h429 : status = 429
  · simp only [rejectUpstream, h429, if_true, run_bind, run_onRateLimit_panic s pm2 h]
  · simp only [rejectUpstream, h429, if_false, run_bind, run_onRateLimit_panic s pm2 h]

/-- What the four handlers do on an upstream status other than 200 when
`OnRateLimit` returns: the route index is the one `OnRateLimit` leaves, the
entries of both caches for the route index of the request are gone and all
other entries are as before, and the response carries 429 for a rate limit and
the upstream status otherwise, with the error text as its only body write. -/
theorem upstream_rejection (env : Env) (w : ResponseWriter) (client : Client)
    (proxyIndex : Int) (chatReq : ChatRequest) (s : World) (status : Nat)
    (cookies jarCookies lines : List String) (restart : Option String) (pm2 : ProxyManager)
    (hreply : env.reply s.step = Reply.response status cookies jarCookies lines)
    (hstatus : status ≠ 200) (hlo : 100 ≤ status) (hhi : status ≤ 999)
    (hrot : s.g.proxyMgr.OnRateLimit = Outcome.ret restart pm2)
    (hparts : chatReq.Message.Parts ≠ []) (hflush : w.flusher = true)
    (hfresh : w.status = none) :
    handleStreamWithClient env w client proxyIndex chatReq s =
        Outcome.ret
          (errorResponse (eventStreamHeaders w)
            (if status = 429 then "Rate limited" else "Upstream error") status)
          { g := { s.g with
              proxyMgr := pm2,
              sessions := mapDelete s.g.sessions proxyIndex,
              accounts := mapDelete s.g.accounts proxyIndex },
            step := s.step + 1,
            trace := s.trace ++ [Effect.chat client chatReq] ++ restartWarp restart } ∧
      handleNonStreamWithClient env w client proxyIndex chatReq s =
        Outcome.ret
          (errorResponse w (if status = 429 then "Rate limited" else "Upstream error") status)
          { g := { s.g with
              proxyMgr := pm2,
              sessions := mapDelete s.g.sessions proxyIndex,
              accounts := mapDelete s.g.accounts proxyIndex },
            step := s.step + 1,
            trace := s.trace ++ [Effect.chat client chatReq] ++ restartWarp restart } ∧
      handleStreamAnthropic env w client proxyIndex chatReq s =
        Outcome.ret
          (errorResponse (eventStreamHeaders w)
            (if status = 429 then "Rate limited" else "Upstream error") status)
          { g := { s.g with
              proxyMgr := pm2,
              sessions := mapDelete s.g.sessions proxyIndex,
              accounts := mapDelete s.g.accounts proxyIndex },
            step := s.step + 1,
            trace := s.trace ++ [Effect.chat client chatReq] ++ restartWarp restart } ∧
      handleNonStreamAnthropic env w client proxyIndex chatReq s =
        Outcome.ret
          (errorResponse w (if status = 429 then "Rate limited" else "Upstream error") status)
          { g := { s.g with
              proxyMgr := pm2,
              sessions := mapDelete s.g.sessions proxyIndex,
              accounts := mapDelete s.g.accounts proxyIndex },
            step := s.step + 1,
            trace := s.trace ++ [Effect.chat client chatReq] ++ restartWarp restart } := by
  have hfresh2 : (eventStreamHeaders w).status = none := by
    rw [eventStreamHeaders_status, hfresh]
  cases hp : chatReq.Message.Parts with
  | nil => exact absurd hp hparts
  | cons part parts =>
    refine ⟨?_, ?_, ?_, ?_⟩
    · simp only [handleStreamWithClient, eventStreamHeaders_flusher, hflush, hp, run_bind,
        run_clientDo, hreply, Bool.not_true, Bool.false_eq_true, if_false, ne_eq, hstatus,
        not_false_eq_true, if_true]
      exact rejectUpstream_ret _ _ _
        ⟨s.g, s.step + 1, s.trace ++ [Effect.chat client chatReq]⟩ restart pm2 hrot hfresh2 hlo hhi
    · simp only [handleNonStreamWithClient, hp, run_bind, run_clientDo, hreply, ne_eq, hstatus,
        not_false_eq_true, if_true]
      exact rejectUpstream_ret _ _ _
        ⟨s.g, s.step + 1, s.trace ++ [Effect.chat client chatReq]⟩ restart pm2 hrot hfresh hlo hhi
    · simp only [handleStreamAnthropic, eventStreamHeaders_flusher, hflush, run_bind,
        run_clientDo, hreply, Bool.not_true, Bool.false_eq_true, if_false, ne_eq, hstatus,
        not_false_eq_true, if_true]
      exact rejectUpstream_ret _ _ _
        ⟨s.g, s.step + 1, s.trace ++ [Effect.chat client chatReq]⟩ restart pm2 hrot hfresh2 hlo hhi
    · simp only [handleNonStreamAnthropic, run_bind, run_clientDo, hreply, ne_eq, hstatus,
        not_false_eq_true, if_true]
      exact rejectUpstream_ret _ _ _
        ⟨s.g, s.step + 1, s.trace ++ [Effect.chat client chatReq]⟩ restart pm2 hrot hfresh hlo hhi

theorem mapDelete_self {α : Type} (m : Int → Option α) (key : Int) :
    mapDelete m key key = none := by
  simp [mapDelete]

theorem mapDelete_other {α : Type} (m : Int → Option α) (key j : Int) (h : j ≠ key) :
    mapDelete m key j = m j := by
  simp [mapDelete, h]

/-- C9, the code at the failing input: a gateway built from the addresses "a,b"
and no container names serves a non-streaming request; the session is created
for route 0, the upstream answers the chat call with 429, and `OnRateLimit`
panics on the missing container of route 1 after moving the index. The handler
ends in that panic: the session of route 0 is still cached and no 429 was
written to the response. -/
theorem rejection_panics_on_short_containers :
    (handleWithSession
        (sampleEnv (Reply.response 200 [] [] []) (Reply.response 429 [] [] []))
        freshWriter ⟨"gpt-5.2", userSays "hi there, friend", false⟩
        (sampleChatReq "hi there, friend")
        (sampleWorld (NewProxyManager "a,b" ""))).panicked = true ∧
    (handleWithSession
        (sampleEnv (Reply.response 200 [] [] []) (Reply.response 429 [] [] []))
        freshWriter ⟨"gpt-5.2", userSays "hi there, friend", false⟩
        (sampleChatReq "hi there, friend")
        (sampleWorld (NewProxyManager "a,b" ""))).state.g.proxyMgr.currentIndex = 1 ∧
    ((handleWithSession
        (sampleEnv (Reply.response 200 [] [] []) (Reply.response 429 [] [] []))
        freshWriter ⟨"gpt-5.2", userSays "hi there, friend", false⟩
        (sampleChatReq "hi there, friend")
        (sampleWorld (NewProxyManager "a,b" ""))).state.g.sessions 0).isSome = true := by
  refine ⟨by decide, by decide, by decide⟩

/-! ## Effects of the building blocks -/

theorem silent_pure (p : Effect → Bool) {α : Type} (a : α) : Silent p (pure a : M α) :=
  fun _ => rfl

theorem silent_bind (p : Effect → Bool) {α β : Type} (m : M α) (f : α → M β)
    (hm : Silent p m) (hf : ∀ a, Silent p (f a)) : Silent p (m >>= f) := by
  intro s
  have h1 := hm s
  rw [run_bind]
  cases h : m s with
  | ret a s2 =>
    rw [h] at h1
    simp only [Outcome.state] at h1
    simp only [hf a s2, h1]
  | panic s2 =>
    rw [h] at h1
    simpa [Outcome.state] using h1

theorem silent_panicNow (p : Effect → Bool) {α : Type} : Silent p (panicNow : M α) :=
  fun _ => rfl

theorem silent_getGateway (p : Effect → Bool) : Silent p getGateway := fun _ => rfl

theorem silent_modifyGateway (p : Effect → Bool) (f : Gateway → Gateway) :
    Silent p (modifyGateway f) := fun _ => rfl

theorem silent_tick (p : Effect → Bool) : Silent p tick := fun _ => rfl

theorem silent_timeNow (p : Effect → Bool) (env : Env) : Silent p (timeNow env) :=
  fun _ => rfl

theorem silent_uuidNew (p : Effect → Bool) (env : Env) : Silent p (uuidNew env) :=
  fun _ => rfl

theorem silent_emit (p : Effect → Bool) (e : Effect) (h : p e = false) : Silent p (emit e) := by
  intro s
  simp [emit, Outcome.state, countEffect, List.filter_append, List.filter_cons, h]

theorem silent_clientDo (p : Effect → Bool) (env : Env) (e : Effect) (h : p e = false) :
    Silent p (clientDo env e) := by
  intro s
  simp [run_clientDo, Outcome.state, countEffect, List.filter_append, List.filter_cons, h]

theorem silent_onRateLimit (p : Effect → Bool) (h : ∀ c, p (Effect.restartWarp c) = false) :
    Silent p onRateLimit := by
  intro s
  simp only [onRateLimit]
  cases hr : s.g.proxyMgr.OnRateLimit with
  | ret restart pm =>
    cases restart with
    | none => simp [Outcome.state, countEffect, restartWarp]
    | some c =>
      by_cases hc : c = ""
      · simp [Outcome.state, countEffect, restartWarp, hc]
      · simp [Outcome.state, countEffect, restartWarp, hc, List.filter_append,
          List.filter_cons, h]
  | panic pm => simp [Outcome.state, countEffect]

theorem silent_clearSession (p : Effect → Bool) (proxyIndex : Int) :
    Silent p (clearSession proxyIndex) := fun _ => rfl

theorem silent_clearAccount (p : Effect → Bool) (proxyIndex : Int) :
    Silent p (clearAccount proxyIndex) := fun _ => rfl

theorem silent_httpError (p : Effect → Bool) (w : ResponseWriter) (msg : String) (code : Nat) :
    Silent p (httpError w msg code) := by
  intro s
  simp only [httpError]
  cases ((((w.delHeader "Content-Length").setHeader "Content-Type"
    "text/plain; charset=utf-8").setHeader "X-Content-Type-Options" "nosniff").WriteHeader
    code) <;> rfl

theorem silent_rejectUpstream (p : Effect → Bool) (h : ∀ c, p (Effect.restartWarp c) = false)
    (w : ResponseWriter) (proxyIndex : Int) (status : Nat) :
    Silent p (rejectUpstream w proxyIndex status) := by
  unfold rejectUpstream
  split <;>
    exact silent_bind _ _ _ (silent_onRateLimit p h) (fun _ =>
      silent_bind _ _ _ (silent_clearSession p _) (fun _ =>
        silent_bind _ _ _ (silent_clearAccount p _) (fun _ => silent_httpError p _ _ _)))

theorem count_emit_bind (p : Effect → Bool) {α : Type} (e : Effect) (f : Unit → M α)
    (hf : Silent p (f ())) (s : World) :
    countEffect p ((emit e >>= f) s).state = countEffect p s + (if p e = true then 1 else 0) := by
  have h := hf { s with trace := s.trace ++ [e] }
  simp only [run_bind, emit]
  rw [h]
  by_cases hp : p e = true
  · simp [countEffect, List.filter_append, List.filter_cons, hp]
  · simp [countEffect, List.filter_append, List.filter_cons, hp]

theorem silent_register (p : Effect → Bool) (env : Env)
    (hreg : ∀ c e pw, p (Effect.register c e pw) = false) (client : Client) :
    Silent p (register env client) := by
  unfold register
  repeat' first
    | exact silent_pure _ _
    | exact silent_tick _
    | exact silent_clientDo _ _ _ (hreg _ _ _)
    | apply silent_bind
    | split
    | intro _

theorem silent_sessionBody (p : Effect → Bool) (env : Env)
    (hprobe : ∀ c, p (Effect.probe c) = false)
    (hwarp : ∀ c, p (Effect.restartWarp c) = false) (s : World) :
    countEffect p (getOrCreateSession env s).state =
      countEffect p s + (if p Effect.getOrCreateSession = true then 1 else 0) := by
  unfold getOrCreateSession
  apply count_emit_bind
  repeat' first
    | exact silent_pure _ _
    | exact silent_panicNow _
    | exact silent_getGateway _
    | exact silent_modifyGateway _ _
    | exact silent_timeNow _ _
    | exact silent_onRateLimit _ hwarp
    | exact silent_clientDo _ _ _ (hprobe _)
    | apply silent_bind
    | split
    | intro _

theorem silent_accountBody (p : Effect → Bool) (env : Env)
    (hreg : ∀ c e pw, p (Effect.register c e pw) = false)
    (hwarp : ∀ c, p (Effect.restartWarp c) = false) (s : World) :
    countEffect p (getOrCreateAccount env s).state =
      countEffect p s + (if p Effect.getOrCreateAccount = true then 1 else 0) := by
  unfold getOrCreateAccount
  apply count_emit_bind
  repeat' first
    | exact silent_pure _ _
    | exact silent_panicNow _
    | exact silent_getGateway _
    | exact silent_modifyGateway _ _
    | exact silent_timeNow _ _
    | exact silent_onRateLimit _ hwarp
    | exact silent_register _ _ hreg _
    | apply silent_bind
    | split
    | intro _

theorem silent_streamOpenAI (p : Effect → Bool) (env : Env) (chatID model : String)
    (lines : List String) (w : ResponseWriter) :
    Silent p (streamOpenAI env chatID model lines w) := by
  intro s
  rw [streamOpenAI_eq]
  rfl

theorem after_clientDo (p : Effect → Bool) {α : Type} (env : Env) (e : Effect)
    (k : Reply → M α) (hk : ∀ r, Silent p (k r)) (s : World) :
    countEffect p ((clientDo env e >>= k) s).state =
      countEffect p s + (if p e = true then 1 else 0) := by
  rw [run_bind, run_clientDo]
  simp only []
  rw [hk]
  by_cases hp : p e = true
  · simp [countEffect, List.filter_append, List.filter_cons, hp]
  · simp [countEffect, List.filter_append, List.filter_cons, hp]

/-- The effects of the four upstream handlers: for a kind of effect that the
restart of a container does not belong to, a handler adds one effect of that
kind when the chat call is of that kind and it gets to the call, and none
otherwise. -/
theorem handler_effects (p : Effect → Bool) (hwarp : ∀ c, p (Effect.restartWarp c) = false)
    (env : Env) (w : ResponseWriter) (client : Client) (proxyIndex : Int)
    (chatReq : ChatRequest) (s : World) :
    (countEffect p (handleStreamWithClient env w client proxyIndex chatReq s).state =
        countEffect p s +
          (if w.flusher = true ∧ chatReq.Message.Parts.isEmpty = false ∧
            p (Effect.chat client chatReq) = true then 1 else 0)) ∧
    (countEffect p (handleNonStreamWithClient env w client proxyIndex chatReq s).state =
        countEffect p s +
          (if chatReq.Message.Parts.isEmpty = false ∧ p (Effect.chat client chatReq) = true
            then 1 else 0)) ∧
    (countEffect p (handleStreamAnthropic env w client proxyIndex chatReq s).state =
        countEffect p s +
          (if w.flusher = true ∧ p (Effect.chat client chatReq) = true then 1 else 0)) ∧
    (countEffect p (handleNonStreamAnthropic env w client proxyIndex chatReq s).state =
        countEffect p s + (if p (Effect.chat client chatReq) = true then 1 else 0)) := by
  refine ⟨?_, ?_, ?_, ?_⟩
  · unfold handleStreamWithClient
    by_cases hf : w.flusher = true
    · cases hp : chatReq.Message.Parts with
      | nil => simp [eventStreamHeaders_flusher, hf, panicNow, Outcome.state]
      | cons part parts =>
        simp only [eventStreamHeaders_flusher, hf, Bool.not_true, Bool.false_eq_true, if_false,
          List.isEmpty_cons, true_and]
        apply after_clientDo
        intro r
        repeat' first
          | exact silent_pure _ _
          | exact silent_uuidNew _ _
          | exact silent_streamOpenAI _ _ _ _ _ _
          | exact silent_rejectUpstream _ hwarp _ _ _
          | apply silent_bind
          | split
          | intro _
    · have := silent_httpError p (eventStreamHeaders w) "Streaming not supported" 500 s
      simpa [eventStreamHeaders_flusher, hf] using this
  · unfold handleNonStreamWithClient
    cases hp : chatReq.Message.Parts with
    | nil => simp [panicNow, Outcome.state]
    | cons part parts =>
      simp only [List.isEmpty_cons, true_and]
      apply after_clientDo
      intro r
      repeat' first
        | exact silent_pure _ _
        | exact silent_uuidNew _ _
        | exact silent_timeNow _ _
        | exact silent_httpError _ _ _ _
        | exact silent_rejectUpstream _ hwarp _ _ _
        | apply silent_bind
        | split
        | intro _
  · unfold handleStreamAnthropic
    by_cases hf : w.flusher = true
    · simp only [eventStreamHeaders_flusher, hf, Bool.not_true, Bool.false_eq_true, if_false,
        true_and]
      apply after_clientDo
      intro r
      repeat' first
        | exact silent_pure _ _
        | exact silent_rejectUpstream _ hwarp _ _ _
        | apply silent_bind
        | split
    · have := silent_httpError p (eventStreamHeaders w) "Streaming not supported" 500 s
      simpa [eventStreamHeaders_flusher, hf] using this
  · unfold handleNonStreamAnthropic
    apply after_clientDo
    intro r
    repeat' first
      | exact silent_pure _ _
      | exact silent_uuidNew _ _
      | exact silent_httpError _ _ _ _
      | exact silent_rejectUpstream _ hwarp _ _ _
      | apply silent_bind
      | split
      | intro _

/-! ## The retry loop -/

theorem run_retry_succ {ι : Type} (acquire : M (Except String ι)) (n : Nat) (s : World) :
    retryAcquire acquire (n + 1) s =
      match acquire s with
      | Outcome.ret (Except.ok identity) s2 => Outcome.ret (some identity) s2
      | Outcome.ret (Except.error _) s2 =>
        retryAcquire acquire n { s2 with trace := s2.trace ++ [Effect.sleep] }
      | Outcome.panic s2 => Outcome.panic s2 := by
  simp only [retryAcquire, run_bind]
  cases acquire s with
  | ret r s2 => cases r <;> rfl
  | panic s2 => rfl

theorem afterFailures_counts {ι : Type} (acquire : M (Except String ι))
    (hacq : ∀ s, countEffect isAcquire (acquire s).state = countEffect isAcquire s + 1)
    (hchat : Silent isChat acquire) (n : Nat) (s sn : World)
    (h : afterFailures acquire n s = some sn) :
    countEffect isAcquire sn = countEffect isAcquire s + n ∧
      countEffect isChat sn = countEffect isChat s := by
  induction n generalizing s with
  | zero =>
    simp only [afterFailures, Option.some.injEq] at h
    subst h
    exact ⟨rfl, rfl⟩
  | succ n ih =>
    have h1 := hacq s
    have h2 := hchat s
    simp only [afterFailures] at h
    cases ha : acquire s with
    | ret r s2 =>
      rw [ha] at h h1 h2
      cases r with
      | ok identity => simp at h
      | error err =>
        simp only [Outcome.state] at h1 h2
        obtain ⟨h3, h4⟩ := ih _ h
        have e1 : countEffect isAcquire { s2 with trace := s2.trace ++ [Effect.sleep] } =
            countEffect isAcquire s2 := by
          simp [countEffect, List.filter_append, List.filter_cons, isAcquire]
        have e2 : countEffect isChat { s2 with trace := s2.trace ++ [Effect.sleep] } =
            countEffect isChat s2 := by
          simp [countEffect, List.filter_append, List.filter_cons, isChat]
        constructor
        · rw [h3, e1, h1]; omega
        · rw [h4, e2, h2]
    | panic s2 =>
      rw [ha] at h
      simp at h

theorem retryAcquire_allFail {ι : Type} (acquire : M (Except String ι)) (n : Nat)
    (s sn : World) (h : afterFailures acquire n s = some sn) :
    retryAcquire acquire n s = Outcome.ret none sn := by
  induction n generalizing s with
  | zero =>
    simp only [afterFailures, Option.some.injEq] at h
    subst h
    rfl
  | succ n ih =>
    rw [run_retry_succ]
    simp only [afterFailures] at h
    cases ha : acquire s with
    | ret r s2 =>
      rw [ha] at h
      cases r with
      | ok identity => simp at h
      | error err => exact ih _ h
    | panic s2 =>
      rw [ha] at h
      simp at h

theorem retryAcquire_success {ι : Type} (acquire : M (Except String ι)) (n k : Nat)
    (s sk s2 : World) (identity : ι) (hk : k < n)
    (h : afterFailures acquire k s = some sk)
    (hok : acquire sk = Outcome.ret (Except.ok identity) s2) :
    retryAcquire acquire n s = Outcome.ret (some identity) s2 := by
  induction k generalizing n s with
  | zero =>
    simp only [afterFailures, Option.some.injEq] at h
    subst h
    obtain ⟨m, rfl⟩ : ∃ m, n = m + 1 := ⟨n - 1, by omega⟩
    rw [run_retry_succ, hok]
  | succ k ih =>
    obtain ⟨m, rfl⟩ : ∃ m, n = m + 1 := ⟨n - 1, by omega⟩
    rw [run_retry_succ]
    simp only [afterFailures] at h
    cases ha : acquire s with
    | ret r s3 =>
      rw [ha] at h
      cases r with
      | ok identity2 => simp at h
      | error err => exact ih m _ (by omega) h
    | panic s3 =>
      rw [ha] at h
      simp at h

theorem retryAcquire_panic {ι : Type} (acquire : M (Except String ι)) (n k : Nat)
    (s sk s2 : World) (hk : k < n)
    (h : afterFailures acquire k s = some sk)
    (hp : acquire sk = Outcome.panic s2) :
    retryAcquire acquire n s = Outcome.panic s2 := by
  induction k generalizing n s with
  | zero =>
    simp only [afterFailures, Option.some.injEq] at h
    subst h
    obtain ⟨m, rfl⟩ : ∃ m, n = m + 1 := ⟨n - 1, by omega⟩
    rw [run_retry_succ, hp]
  | succ k ih =>
    obtain ⟨m, rfl⟩ : ∃ m, n = m + 1 := ⟨n - 1, by omega⟩
    rw [run_retry_succ]
    simp only [afterFailures] at h
    cases ha : acquire s with
    | ret r s3 =>
      rw [ha] at h
      cases r with
      | ok identity2 => simp at h
      | error err => exact ih m _ (by omega) h
    | panic s3 =>
      rw [ha] at h
      simp at h

theorem attempts_cases {ι : Type} (acquire : M (Except String ι)) (n : Nat) (s : World) :
    (∃ sn, afterFailures acquire n s = some sn) ∨
      ∃ k sk, k < n ∧ afterFailures acquire k s = some sk ∧
        ((∃ identity s2, acquire sk = Outcome.ret (Except.ok identity) s2) ∨
          ∃ s2, acquire sk = Outcome.panic s2) := by
  induction n generalizing s with
  | zero => exact Or.inl ⟨s, rfl⟩
  | succ n ih =>
    cases ha : acquire s with
    | ret r s2 =>
      cases r with
      | ok identity =>
        exact Or.inr ⟨0, s, by omega, rfl, Or.inl ⟨identity, s2, ha⟩⟩
      | error err =>
        rcases ih { s2 with trace := s2.trace ++ [Effect.sleep] } with ⟨sn, hsn⟩ | ⟨k, sk, hk, hsk, hr⟩
        · refine Or.inl ⟨sn, ?_⟩
          simp only [afterFailures, ha, hsn]
        · refine Or.inr ⟨k + 1, sk, by omega, ?_, hr⟩
          simp only [afterFailures, ha, hsk]
    | panic s2 =>
      exact Or.inr ⟨0, s, by omega, rfl, Or.inr ⟨s2, ha⟩⟩

theorem retryContract_of {ι : Type} (acquire : M (Except String ι))
    (forward : ResponseWriter → ι → M ResponseWriter)
    (handler : ResponseWriter → M ResponseWriter)
    (hdef : ∀ w s, handler w s =
      match retryAcquire acquire 3 s with
      | Outcome.ret none s2 => httpError w "Service unavailable" 503 s2
      | Outcome.ret (some identity) s2 => forward w identity s2
      | Outcome.panic s2 => Outcome.panic s2)
    (hacq : ∀ s, countEffect isAcquire (acquire s).state = countEffect isAcquire s + 1)
    (hchat : Silent isChat acquire)
    (hfwdAcq : ∀ w identity, Silent isAcquire (forward w identity))
    (hfwdChat : ∀ w identity s w2 s2, w.status = none →
      forward w identity s = Outcome.ret w2 s2 → w2.status = some 503 →
      countEffect isChat s2 ≠ countEffect isChat s) :
    RetryContract acquire forward handler := by
  intro w s hfresh
  have hsucc : ∀ (n : Nat) (sn : World) (identity : ι) (s2 : World), n < 3 →
      afterFailures acquire n s = some sn →
      acquire sn = Outcome.ret (Except.ok identity) s2 →
      handler w s = forward w identity s2 ∧
        countEffect isAcquire (handler w s).state = countEffect isAcquire s + (n + 1) := by
    intro n sn identity s2 hn hsn hok
    have hrun : handler w s = forward w identity s2 := by
      rw [hdef, retryAcquire_success acquire 3 n s sn s2 identity hn hsn hok]
    refine ⟨hrun, ?_⟩
    have h1 := (afterFailures_counts acquire hacq hchat n s sn hsn).1
    have h2 := hacq sn
    rw [hok] at h2
    simp only [Outcome.state] at h2
    rw [hrun, hfwdAcq w identity s2, h2, h1]
    omega
  refine ⟨?_, hsucc, ?_⟩
  · rcases attempts_cases acquire 3 s with ⟨s3, h3⟩ | ⟨k, sk, hk, hsk, ⟨identity, s2, hok⟩ | ⟨s2, hp⟩⟩
    · have hc := (afterFailures_counts acquire hacq hchat 3 s s3 h3).1
      rw [hdef, retryAcquire_allFail acquire 3 s s3 h3]
      simp only []
      rw [silent_httpError isAcquire w _ _ s3, hc]
    · rw [(hsucc k sk identity s2 hk hsk hok).2]
      omega
    · have hc := (afterFailures_counts acquire hacq hchat k s sk hsk).1
      have h2 := hacq sk
      rw [hp] at h2
      simp only [Outcome.state] at h2
      rw [hdef, retryAcquire_panic acquire 3 k s sk s2 hk hsk hp]
      simp only [Outcome.state]
      omega
  · constructor
    · rintro ⟨w2, s2, hret, h503, hcount⟩
      rcases attempts_cases acquire 3 s with ⟨s3, h3⟩ | ⟨k, sk, hk, hsk, ⟨identity, s4, hok⟩ | ⟨s4, hp⟩⟩
      · simp [h3]
      · exfalso
        have hrun := (hsucc k sk identity s4 hk hsk hok).1
        rw [hrun] at hret
        have h1 := (afterFailures_counts acquire hacq hchat k s sk hsk).2
        have h2 := hchat sk
        rw [hok] at h2
        simp only [Outcome.state] at h2
        exact hfwdChat w identity s4 w2 s2 hfresh hret h503 (by rw [hcount, h2, h1])
      · exfalso
        rw [hdef, retryAcquire_panic acquire 3 k s sk s4 hk hsk hp] at hret
        simp at hret
    · intro hall
      obtain ⟨s3, h3⟩ := Option.isSome_iff_exists.1 hall
      refine ⟨errorResponse w "Service unavailable" 503, s3, ?_, errorResponse_status _ _ _,
        (afterFailures_counts acquire hacq hchat 3 s s3 h3).2⟩
      rw [hdef, retryAcquire_allFail acquire 3 s s3 h3]
      exact run_httpError_fresh w _ 503 s3 hfresh (by omega) (by omega)

theorem isChat_restartWarp (c : String) : isChat (Effect.restartWarp c) = false := rfl

theorem isAcquire_restartWarp (c : String) : isAcquire (Effect.restartWarp c) = false := rfl

theorem stream_unsupported (env : Env) (w : ResponseWriter) (client : Client)
    (proxyIndex : Int) (chatReq : ChatRequest) (s : World)
    (hfresh : w.status = none) (hf : ¬ w.flusher = true) :
    handleStreamWithClient env w client proxyIndex chatReq s =
        Outcome.ret (errorResponse (eventStreamHeaders w) "Streaming not supported" 500) s ∧
      handleStreamAnthropic env w client proxyIndex chatReq s =
        Outcome.ret (errorResponse (eventStreamHeaders w) "Streaming not supported" 500) s := by
  have hfresh2 : (eventStreamHeaders w).status = none := by
    rw [eventStreamHeaders_status, hfresh]
  have hff : w.flusher = false := by simpa using hf
  constructor
  · simp only [handleStreamWithClient, eventStreamHeaders_flusher, hff, Bool.not_false, if_true]
    exact run_httpError_fresh _ _ 500 s hfresh2 (by omega) (by omega)
  · simp only [handleStreamAnthropic, eventStreamHeaders_flusher, hff, Bool.not_false, if_true]
    exact run_httpError_fresh _ _ 500 s hfresh2 (by omega) (by omega)

/-- A handler that answers 503 on a fresh response has made the chat call. -/
theorem handler_503_after_chat (env : Env) (w : ResponseWriter) (client : Client)
    (proxyIndex : Int) (chatReq : ChatRequest) (s : World) (w2 : ResponseWriter) (s2 : World)
    (hfresh : w.status = none) (h503 : w2.status = some 503) :
    (handleStreamWithClient env w client proxyIndex chatReq s = Outcome.ret w2 s2 →
        countEffect isChat s2 ≠ countEffect isChat s) ∧
      (handleNonStreamWithClient env w client proxyIndex chatReq s = Outcome.ret w2 s2 →
        countEffect isChat s2 ≠ countEffect isChat s) ∧
      (handleStreamAnthropic env w client proxyIndex chatReq s = Outcome.ret w2 s2 →
        countEffect isChat s2 ≠ countEffect isChat s) ∧
      (handleNonStreamAnthropic env w client proxyIndex chatReq s = Outcome.ret w2 s2 →
        countEffect isChat s2 ≠ countEffect isChat s) := by
  obtain ⟨e1, e2, e3, e4⟩ :=
    handler_effects isChat isChat_restartWarp env w client proxyIndex chatReq s
  have hchat : isChat (Effect.chat client chatReq) = true := rfl
  refine ⟨?_, ?_, ?_, ?_⟩
  · intro h
    rw [h] at e1
    simp only [Outcome.state, hchat, and_true] at e1
    by_cases hf : w.flusher = true
    · cases hp : chatReq.Message.Parts with
      | nil =>
        simp [handleStreamWithClient, eventStreamHeaders_flusher, hf, hp, panicNow] at h
      | cons part parts =>
        simp only [hf, hp, List.isEmpty_cons, and_self, if_true] at e1
        omega
    · rw [(stream_unsupported env w client proxyIndex chatReq s hfresh hf).1] at h
      simp only [Outcome.ret.injEq] at h
      rw [← h.1, errorResponse_status] at h503
      simp at h503
  · intro h
    rw [h] at e2
    simp only [Outcome.state, hchat, and_true] at e2
    cases hp : chatReq.Message.Parts with
    | nil => simp [handleNonStreamWithClient, hp, panicNow] at h
    | cons part parts =>
      simp only [hp, List.isEmpty_cons, if_true] at e2
      omega
  · intro h
    rw [h] at e3
    simp only [Outcome.state, hchat, and_true] at e3
    by_cases hf : w.flusher = true
    · simp only [hf, if_true] at e3
      omega
    · rw [(stream_unsupported env w client proxyIndex chatReq s hfresh hf).2] at h
      simp only [Outcome.ret.injEq] at h
      rw [← h.1, errorResponse_status] at h503
      simp at h503
  · intro h
    rw [h] at e4
    simp only [Outcome.state, hchat, if_true] at e4
    omega

theorem forward_silent_acquire (env : Env) (openAIReq : OpenAIRequest) (chatReq : ChatRequest)
    (w : ResponseWriter) (client : Client) (proxyIndex : Int) :
    Silent isAcquire (forwardOpenAI env openAIReq chatReq w client proxyIndex) ∧
      Silent isAcquire (forwardAnthropic env openAIReq chatReq w client proxyIndex) := by
  have hchat : isAcquire (Effect.chat client chatReq) = false := rfl
  constructor
  · intro s
    obtain ⟨e1, e2, _, _⟩ :=
      handler_effects isAcquire isAcquire_restartWarp env w client proxyIndex chatReq s
    unfold forwardOpenAI
    split
    · simpa [hchat] using e1
    · simpa [hchat] using e2
  · intro s
    obtain ⟨_, _, e3, e4⟩ :=
      handler_effects isAcquire isAcquire_restartWarp env w client proxyIndex chatReq s
    unfold forwardAnthropic
    split
    · simpa [hchat] using e3
    · simpa [hchat] using e4

theorem forward_503_after_chat (env : Env) (openAIReq : OpenAIRequest) (chatReq : ChatRequest)
    (w : ResponseWriter) (client : Client) (proxyIndex : Int) (s : World)
    (w2 : ResponseWriter) (s2 : World) (hfresh : w.status = none)
    (h503 : w2.status = some 503) :
    (forwardOpenAI env openAIReq chatReq w client proxyIndex s = Outcome.ret w2 s2 →
        countEffect isChat s2 ≠ countEffect isChat s) ∧
      (forwardAnthropic env openAIReq chatReq w client proxyIndex s = Outcome.ret w2 s2 →
        countEffect isChat s2 ≠ countEffect isChat s) := by
  obtain ⟨h1, h2, h3, h4⟩ :=
    handler_503_after_chat env w client proxyIndex chatReq s w2 s2 hfresh h503
  constructor
  · unfold forwardOpenAI
    split
    · exact h1
    · exact h2
  · unfold forwardAnthropic
    split
    · exact h3
    · exact h4

theorem acquire_counts (env : Env) (s : World) :
    countEffect isAcquire (getOrCreateSession env s).state = countEffect isAcquire s + 1 ∧
      countEffect isAcquire (getOrCreateAccount env s).state = countEffect isAcquire s + 1 ∧
      countEffect isChat (getOrCreateSession env s).state = countEffect isChat s ∧
      countEffect isChat (getOrCreateAccount env s).state = countEffect isChat s := by
  refine ⟨?_, ?_, ?_, ?_⟩
  · simpa [isAcquire] using
      silent_sessionBody isAcquire env (fun _ => rfl) (fun _ => rfl) s
  · simpa [isAcquire] using
      silent_accountBody isAcquire env (fun _ _ _ => rfl) (fun _ => rfl) s
  · simpa [isChat] using silent_sessionBody isChat env (fun _ => rfl) (fun _ => rfl) s
  · simpa [isChat] using silent_accountBody isChat env (fun _ _ _ => rfl) (fun _ => rfl) s

/-- C10: each of the four dispatchers calls its `getOrCreate` at most 3 times,
goes on with the identity of the first successful attempt without a further
attempt, and answers 503 without any upstream chat call exactly when all 3
attempts fail. -/
theorem dispatch_retry_contract (env : Env) (openAIReq : OpenAIRequest)
    (chatReq : ChatRequest) :
    RetryContract (getOrCreateAccount env)
        (fun w account =>
          forwardOpenAI env openAIReq chatReq w account.Client account.ProxyIndex)
        (fun w => handleWithAccount env w openAIReq chatReq) ∧
      RetryContract (getOrCreateSession env)
        (fun w session =>
          forwardOpenAI env openAIReq chatReq w session.Client session.ProxyIndex)
        (fun w => handleWithSession env w openAIReq chatReq) ∧
      RetryContract (getOrCreateAccount env)
        (fun w account =>
          forwardAnthropic env openAIReq chatReq w account.Client account.ProxyIndex)
        (fun w => handleWithAccountAnthropic env w openAIReq chatReq) ∧
      RetryContract (getOrCreateSession env)
        (fun w session =>
          forwardAnthropic env openAIReq chatReq w session.Client session.ProxyIndex)
        (fun w => handleWithSessionAnthropic env w openAIReq chatReq) := by
  refine ⟨?_, ?_, ?_, ?_⟩
  · apply retryContract_of
    · intro w s
      simp only [handleWithAccount, run_bind]
      cases retryAcquire (getOrCreateAccount env) 3 s with
      | ret r s2 => cases r <;> rfl
      | panic s2 => rfl
    · exact fun s => (acquire_counts env s).2.1
    · exact fun s => (acquire_counts env s).2.2.2
    · exact fun w a => (forward_silent_acquire env openAIReq chatReq w _ _).1
    · exact fun w a s w2 s2 hf hr h5 =>
        (forward_503_after_chat env openAIReq chatReq w _ _ s w2 s2 hf h5).1 hr
  · apply retryContract_of
    · intro w s
      simp only [handleWithSession, run_bind]
      cases retryAcquire (getOrCreateSession env) 3 s with
      | ret r s2 => cases r <;> rfl
      | panic s2 => rfl
    · exact fun s => (acquire_counts env s).1
    · exact fun s => (acquire_counts env s).2.2.1
    · exact fun w a => (forward_silent_acquire env openAIReq chatReq w _ _).1
    · exact fun w a s w2 s2 hf hr h5 =>
        (forward_503_after_chat env openAIReq chatReq w _ _ s w2 s2 hf h5).1 hr
  · apply retryContract_of
    · intro w s
      simp only [handleWithAccountAnthropic, run_bind]
      cases retryAcquire (getOrCreateAccount env) 3 s with
      | ret r s2 => cases r <;> rfl
      | panic s2 => rfl
    · exact fun s => (acquire_counts env s).2.1
    · exact fun s => (acquire_counts env s).2.2.2
    · exact fun w a => (forward_silent_acquire env openAIReq chatReq w _ _).2
    · exact fun w a s w2 s2 hf hr h5 =>
        (forward_503_after_chat env openAIReq chatReq w _ _ s w2 s2 hf h5).2 hr
  · apply retryContract_of
    · intro w s
      simp only [handleWithSessionAnthropic, run_bind]
      cases retryAcquire (getOrCreateSession env) 3 s with
      | ret r s2 => cases r <;> rfl
      | panic s2 => rfl
    · exact fun s => (acquire_counts env s).1
    · exact fun s => (acquire_counts env s).2.2.1
    · exact fun w a => (forward_silent_acquire env openAIReq chatReq w _ _).2
    · exact fun w a s w2 s2 hf hr h5 =>
        (forward_503_after_chat env openAIReq chatReq w _ _ s w2 s2 hf h5).2 hr

/-- C10 at a gateway whose upstream cannot be reached: the three attempts of
`handleWithSession` fail, and the bound on the number of attempts holds. -/
theorem dispatch_retry_contract_witness :
    freshWriter.status = none ∧
      (afterFailures
        (getOrCreateSession (sampleEnv (Reply.failed "refused") (Reply.failed "refused"))) 3
        (sampleWorld (NewProxyManager "" ""))).isSome = true ∧
      countEffect isAcquire
          (handleWithSession (sampleEnv (Reply.failed "refused") (Reply.failed "refused"))
            freshWriter ⟨"gpt-5.2", userSays "hi there, friend", false⟩
            (sampleChatReq "hi there, friend") (sampleWorld (NewProxyManager "" ""))).state ≤
        countEffect isAcquire (sampleWorld (NewProxyManager "" "")) + 3 :=
  ⟨rfl, by decide,
    ((dispatch_retry_contract (sampleEnv (Reply.failed "refused") (Reply.failed "refused"))
      ⟨"gpt-5.2", userSays "hi there, friend", false⟩
      (sampleChatReq "hi there, friend")).2.1 freshWriter
      (sampleWorld (NewProxyManager "" "")) rfl).1⟩

/-! ## Model aliases and what is sent upstream -/

theorem silent_retryAcquire (p : Effect → Bool) {ι : Type} (acquire : M (Except String ι))
    (hacq : Silent p acquire) (hsleep : p Effect.sleep = false) (n : Nat) :
    Silent p (retryAcquire acquire n) := by
  induction n with
  | zero => exact silent_pure p none
  | succ n ih =>
    unfold retryAcquire
    apply silent_bind _ _ _ hacq
    intro r
    cases r with
    | ok identity => exact silent_pure p _
    | error err =>
      exact silent_bind _ _ _ (silent_emit p _ hsleep) (fun _ => ih)

/-- Both kinds of `getOrCreate` add no effect of a kind that neither their call
markers nor their requests nor a restart belong to. -/
theorem silent_acquire_of (p : Effect → Bool) (env : Env)
    (h1 : p Effect.getOrCreateSession = false) (h2 : p Effect.getOrCreateAccount = false)
    (hprobe : ∀ c, p (Effect.probe c) = false)
    (hreg : ∀ c e pw, p (Effect.register c e pw) = false)
    (hwarp : ∀ c, p (Effect.restartWarp c) = false) :
    Silent p (getOrCreateSession env) ∧ Silent p (getOrCreateAccount env) := by
  constructor
  · intro s
    simpa [h1] using silent_sessionBody p env hprobe hwarp s
  · intro s
    simpa [h2] using silent_accountBody p env hreg hwarp s

theorem dispatch_effects (p : Effect → Bool) (env : Env)
    (h1 : p Effect.getOrCreateSession = false) (h2 : p Effect.getOrCreateAccount = false)
    (hprobe : ∀ c, p (Effect.probe c) = false)
    (hreg : ∀ c e pw, p (Effect.register c e pw) = false)
    (hwarp : ∀ c, p (Effect.restartWarp c) = false) (hsleep : p Effect.sleep = false)
    (w : ResponseWriter) (openAIReq : OpenAIRequest) (chatReq : ChatRequest)
    (hchat : ∀ c, p (Effect.chat c chatReq) = false) :
    Silent p (handleWithAccount env w openAIReq chatReq) ∧
      Silent p (handleWithSession env w openAIReq chatReq) ∧
      Silent p (handleWithAccountAnthropic env w openAIReq chatReq) ∧
      Silent p (handleWithSessionAnthropic env w openAIReq chatReq) := by
  obtain ⟨hs, ha⟩ := silent_acquire_of p env h1 h2 hprobe hreg hwarp
  have hfw : ∀ (c : Client) (i : Int),
      Silent p (handleStreamWithClient env w c i chatReq) ∧
      Silent p (handleNonStreamWithClient env w c i chatReq) ∧
      Silent p (handleStreamAnthropic env w c i chatReq) ∧
      Silent p (handleNonStreamAnthropic env w c i chatReq) := by
    intro c i
    refine ⟨fun s => ?_, fun s => ?_, fun s => ?_, fun s => ?_⟩
    · simpa [hchat c] using (handler_effects p hwarp env w c i chatReq s).1
    · simpa [hchat c] using (handler_effects p hwarp env w c i chatReq s).2.1
    · simpa [hchat c] using (handler_effects p hwarp env w c i chatReq s).2.2.1
    · simpa [hchat c] using (handler_effects p hwarp env w c i chatReq s).2.2.2
  refine ⟨?_, ?_, ?_, ?_⟩
  · unfold handleWithAccount
    apply silent_bind _ _ _ (silent_retryAcquire p _ ha hsleep 3)
    intro r
    cases r with
    | none => exact silent_httpError p _ _ _
    | some account =>
      simp only []
      split
      · exact (hfw _ _).1
      · exact (hfw _ _).2.1
  · unfold handleWithSession
    apply silent_bind _ _ _ (silent_retryAcquire p _ hs hsleep 3)
    intro r
    cases r with
    | none => exact silent_httpError p _ _ _
    | some session =>
      simp only []
      split
      · exact (hfw _ _).1
      · exact (hfw _ _).2.1
  · unfold handleWithAccountAnthropic
    apply silent_bind _ _ _ (silent_retryAcquire p _ ha hsleep 3)
    intro r
    cases r with
    | none => exact silent_httpError p _ _ _
    | some account =>
      simp only []
      split
      · exact (hfw _ _).2.2.1
      · exact (hfw _ _).2.2.2
  · unfold handleWithSessionAnthropic
    apply silent_bind _ _ _ (silent_retryAcquire p _ hs hsleep 3)
    intro r
    cases r with
    | none => exact silent_httpError p _ _ _
    | some session =>
      simp only []
      split
      · exact (hfw _ _).2.2.1
      · exact (hfw _ _).2.2.2

theorem run_newChatRequest (env : Env) (model : String) (messages : List OpenAIMessage)
    (s : World) :
    newChatRequest env model messages s =
      Outcome.ret
        { ID := env.uuid s.step,
          Message := { Role := "user",
                       Parts := [{ Type_ := "text", Text := buildConversationMessage messages }],
                       ID := env.uuid (s.step + 1) },
          SelectedChatModel := convertModel model,
          SelectedVisibilityType := "private" }
        { s with step := s.step + 2 } := rfl

theorem silent_respondBAKA (p : Effect → Bool) (env : Env) (w : ResponseWriter)
    (stream : Bool) :
    Silent p (respondBAKA env w stream) ∧ Silent p (respondAnthropicBAKA env w stream) := by
  constructor
  · unfold respondBAKA
    repeat' first
      | exact silent_pure _ _
      | exact silent_uuidNew _ _
      | exact silent_timeNow _ _
      | apply silent_bind
      | split
      | intro _
  · unfold respondAnthropicBAKA
    repeat' first
      | exact silent_pure _ _
      | exact silent_uuidNew _ _
      | apply silent_bind
      | split
      | intro _

theorem sendsOtherModel_chat (model : String) (c : Client) (chatReq : ChatRequest)
    (h : chatReq.SelectedChatModel = model) :
    sendsOtherModel model (Effect.chat c chatReq) = false := by
  simp [sendsOtherModel, h]

/-- The entry points add no effect of a kind that only a chat call with another
model than `convertModel model` can belong to. -/
theorem entry_sends_converted_model (env : Env) (w : ResponseWriter) :
    (∀ (req : OpenAIRequest),
      Silent (sendsOtherModel (convertModel req.Model))
        (HandleChatCompletion env w (some req))) ∧
    (∀ (req : AnthropicRequestCompat),
      Silent (sendsOtherModel (convertModel req.Model))
        (HandleAnthropicMessages env w (some req))) := by
  constructor
  · intro req s
    simp only [HandleChatCompletion]
    split
    · exact silent_httpError _ _ _ _ s
    · split
      · exact (silent_respondBAKA _ env w _).1 s
      · rw [run_bind, run_newChatRequest]
        simp only []
        have hd := dispatch_effects (sendsOtherModel (convertModel req.Model)) env rfl rfl
          (fun _ => rfl) (fun _ _ _ => rfl) (fun _ => rfl) rfl w req
          { ID := env.uuid s.step,
            Message := { Role := "user",
                         Parts := [{ Type_ := "text",
                                     Text := buildConversationMessage req.Messages }],
                         ID := env.uuid (s.step + 1) },
            SelectedChatModel := convertModel req.Model,
            SelectedVisibilityType := "private" }
          (fun c => sendsOtherModel_chat _ _ _ rfl)
        rw [run_bind]
        simp only [getGateway]
        split
        · exact hd.1 _
        · exact hd.2.1 _
  · intro req s
    simp only [HandleAnthropicMessages]
    split
    · exact silent_httpError _ _ _ _ s
    · split
      · exact (silent_respondBAKA _ env w _).2 s
      · rw [run_bind, run_newChatRequest]
        simp only []
        have hd := dispatch_effects (sendsOtherModel (convertModel req.Model)) env rfl rfl
          (fun _ => rfl) (fun _ _ _ => rfl) (fun _ => rfl) rfl w (anthropicCompatToOpenAI req)
          { ID := env.uuid s.step,
            Message := { Role := "user",
                         Parts := [{ Type_ := "text",
                                     Text := buildConversationMessage
                                       (anthropicCompatToOpenAI req).Messages }],
                         ID := env.uuid (s.step + 1) },
            SelectedChatModel := convertModel req.Model,
            SelectedVisibilityType := "private" }
          (fun c => sendsOtherModel_chat _ _ _ rfl)
        rw [run_bind]
        simp only [getGateway]
        split
        · exact hd.2.2.1 _
        · exact hd.2.2.2 _

/-- C14: `convertModel` gives the table's identifier for every alias and leaves
every other name unchanged; "claude-opus-4.5" gives
"anthropic/claude-opus-4.5". Both entry points send the converted name as
`selectedChatModel`: they make no chat call with another value, and the sample
request with the alias "claude-opus-4.5" makes exactly one chat call, with
"anthropic/claude-opus-4.5". -/
theorem convertModel_maps_aliases :
    (∀ name target : String, (name, target) ∈ ModelMapping → convertModel name = target) ∧
    (∀ name : String, (∀ kv ∈ ModelMapping, kv.1 ≠ name) → convertModel name = name) ∧
    convertModel "claude-opus-4.5" = "anthropic/claude-opus-4.5" ∧
    (∀ (env : Env) (w : ResponseWriter) (req : OpenAIRequest) (s : World),
      countEffect (sendsOtherModel (convertModel req.Model))
          (HandleChatCompletion env w (some req) s).state =
        countEffect (sendsOtherModel (convertModel req.Model)) s) ∧
    (∀ (env : Env) (w : ResponseWriter) (req : AnthropicRequestCompat) (s : World),
      countEffect (sendsOtherModel (convertModel req.Model))
          (HandleAnthropicMessages env w (some req) s).state =
        countEffect (sendsOtherModel (convertModel req.Model)) s) ∧
    sentModels
        (HandleChatCompletion
          (sampleEnv (Reply.response 200 [] [] []) (Reply.response 200 [] [] sampleLines))
          freshWriter (some ⟨"claude-opus-4.5", userSays "tell me about lean", false⟩)
          (sampleWorld (NewProxyManager "" ""))).state =
      ["anthropic/claude-opus-4.5"] := by
  refine ⟨?_, ?_, by decide, ?_, ?_, by decide⟩
  · intro name target h
    simp only [ModelMapping, List.mem_cons, Prod.mk.injEq, List.mem_singleton,
      List.not_mem_nil, or_false] at h
    rcases h with ⟨rfl, rfl⟩ | ⟨rfl, rfl⟩ | ⟨rfl, rfl⟩ | ⟨rfl, rfl⟩ <;> decide
  · intro name h
    have hnone : ModelMapping.find? (fun kv => kv.1 == name) = none := by
      rw [List.find?_eq_none]
      intro kv hkv
      simpa using h kv hkv
    simp only [convertModel, hnone]
  · intro env w req s
    exact (entry_sends_converted_model env w).1 req s
  · intro env w req s
    exact (entry_sends_converted_model env w).2 req s

/-- C14 at a name that is not an alias. -/
theorem convertModel_maps_aliases_witness :
    (∀ kv ∈ ModelMapping, kv.1 ≠ "llama-3") ∧ convertModel "llama-3" = "llama-3" :=
  ⟨by decide, convertModel_maps_aliases.2.1 "llama-3" (by decide)⟩

/-! ## The canned reply -/

theorem isMeaninglessRequest_nil (caseTable : Char → Char) :
    isMeaninglessRequest caseTable [] = false := rfl

theorem anthropicCompat_foldl_length (msgs : List AnthropicMessageCompat)
    (acc : List OpenAIMessage) :
    (msgs.foldl
      (fun messages msg =>
        messages ++ [{ Role := msg.Role, Content := JSONValue.string (compatContent msg.Content) }])
      acc).length = acc.length + msgs.length := by
  induction msgs generalizing acc with
  | nil => simp
  | cons m rest ih =>
    rw [List.foldl_cons, ih]
    simp
    omega

theorem anthropicCompatToOpenAI_length (req : AnthropicRequestCompat) :
    (anthropicCompatToOpenAI req).Messages.length = req.Messages.length := by
  simp [anthropicCompatToOpenAI, anthropicCompat_foldl_length]

/-- C15: a request whose conversation is classified trivial is answered by the
canned reply of its dialect and mode, whose text is "BAKA!" (with
`finish_reason` "stop" in the OpenAI non-streaming object); the state is left
with the same gateway (route index and caches) and the same effects: no
identity is acquired and the upstream is not contacted. What a client reads in
the content field of each canned object is "BAKA!", and `finish_reason` reads
"stop". -/
theorem trivial_request_gets_canned_reply (env : Env) (w : ResponseWriter) (s : World) :
    (∀ req : OpenAIRequest, isMeaninglessRequest env.caseTable req.Messages = true →
      HandleChatCompletion env w (some req) s = respondBAKA env w req.Stream s) ∧
    (∀ req : AnthropicRequestCompat,
      isMeaninglessRequest env.caseTable (anthropicCompatToOpenAI req).Messages = true →
      HandleAnthropicMessages env w (some req) s = respondAnthropicBAKA env w req.Stream s) ∧
    respondBAKA env w false s =
      Outcome.ret
        ((w.setHeader "Content-Type" "application/json").write
          (Written.json (openAIResp (env.uuid s.step) (env.now (s.step + 1)) "baka" "BAKA!")))
        { g := s.g, step := s.step + 2, trace := s.trace } ∧
    respondBAKA env w true s =
      Outcome.ret
        (if w.flusher = true then
          ((((eventStreamHeaders w).write
            (Written.data (openAIChunk (env.uuid s.step) (env.now (s.step + 1)) "baka"
              "BAKA!"))).write doneMarker).flush)
         else
          (((eventStreamHeaders w).write
            (Written.data (openAIChunk (env.uuid s.step) (env.now (s.step + 1)) "baka"
              "BAKA!"))).write doneMarker))
        { g := s.g, step := s.step + 2, trace := s.trace } ∧
    respondAnthropicBAKA env w false s =
      Outcome.ret
        ((w.setHeader "Content-Type" "application/json").write
          (Written.json (anthropicBAKA (env.uuid s.step))))
        { g := s.g, step := s.step + 1, trace := s.trace } ∧
    respondAnthropicBAKA env w true s =
      Outcome.ret
        (if w.flusher = true then
          ((((((eventStreamHeaders w).write (Written.text "event: content_block_delta\n")).write
            (Written.data (anthropicChunk "BAKA!"))).write
            (Written.text "event: message_stop\n")).write
            (Written.text "data: \x7b\"type\":\"message_stop\"\x7d\n\n")).flush)
         else
          (((((eventStreamHeaders w).write (Written.text "event: content_block_delta\n")).write
            (Written.data (anthropicChunk "BAKA!"))).write
            (Written.text "event: message_stop\n")).write
            (Written.text "data: \x7b\"type\":\"message_stop\"\x7d\n\n")))
        s ∧
    messageContent (openAIResp (env.uuid s.step) (env.now (s.step + 1)) "baka" "BAKA!") =
      some "BAKA!" ∧
    finishReason (openAIResp (env.uuid s.step) (env.now (s.step + 1)) "baka" "BAKA!") =
      some "stop" ∧
    chunkContent (openAIChunk (env.uuid s.step) (env.now (s.step + 1)) "baka" "BAKA!") =
      some "BAKA!" ∧
    firstBlockText (anthropicBAKA (env.uuid s.step)) = some "BAKA!" ∧
    deltaText (anthropicChunk "BAKA!") = some "BAKA!" := by
  refine ⟨?_, ?_, rfl, ?_, rfl, ?_, rfl, rfl, rfl, rfl, rfl⟩
  · intro req h
    have hne : ¬ req.Messages.length = 0 := by
      intro h0
      rw [List.length_eq_zero.1 h0, isMeaninglessRequest_nil] at h
      exact Bool.false_ne_true h
    simp only [HandleChatCompletion, hne, if_false, h, if_true]
  · intro req h
    have hne : ¬ req.Messages.length = 0 := by
      intro h0
      have h1 : (anthropicCompatToOpenAI req).Messages.length = 0 := by
        rw [anthropicCompatToOpenAI_length, h0]
      rw [List.length_eq_zero.1 h1, isMeaninglessRequest_nil] at h
      exact Bool.false_ne_true h
    simp only [HandleAnthropicMessages, hne, if_false, h, if_true]
  · simp only [respondBAKA, if_true, run_bind, run_uuidNew, run_timeNow, run_pure,
      eventStreamHeaders_flusher, ResponseWriter.write, ResponseWriter.flush]
  · simp only [respondAnthropicBAKA, if_true, run_pure,
      eventStreamHeaders_flusher, ResponseWriter.write, ResponseWriter.flush]

/-- C15 at the request `{model: "gpt-5.2", messages: [{role: "user", content:
"hi"}], stream: false}`. -/
theorem trivial_request_gets_canned_reply_witness :
    isMeaninglessRequest
        (sampleEnv (Reply.failed "") (Reply.failed "")).caseTable
        (OpenAIRequest.mk "gpt-5.2" (userSays "hi") false).Messages = true ∧
      HandleChatCompletion (sampleEnv (Reply.failed "") (Reply.failed "")) freshWriter
          (some ⟨"gpt-5.2", userSays "hi", false⟩) (sampleWorld (NewProxyManager "" "")) =
        respondBAKA (sampleEnv (Reply.failed "") (Reply.failed "")) freshWriter
          (OpenAIRequest.mk "gpt-5.2" (userSays "hi") false).Stream
          (sampleWorld (NewProxyManager "" "")) :=
  ⟨by decide,
    (trivial_request_gets_canned_reply (sampleEnv (Reply.failed "") (Reply.failed ""))
      freshWriter (sampleWorld (NewProxyManager "" ""))).1
      ⟨"gpt-5.2", userSays "hi", false⟩ (by decide)⟩

/-! ## Acquiring an identity -/

theorem run_emit (e : Effect) (s : World) :
    emit e s = Outcome.ret () { s with trace := s.trace ++ [e] } := rfl

theorem run_getGateway (s : World) : getGateway s = Outcome.ret s.g s := rfl

theorem run_modifyGateway (f : Gateway → Gateway) (s : World) :
    modifyGateway f s = Outcome.ret () { s with g := f s.g } := rfl

theorem run_panicNow {α : Type} (s : World) : (panicNow : M α) s = Outcome.panic s := rfl

/-- The run of `getOrCreateSession`, branch by branch. -/
theorem getOrCreateSession_eq (env : Env) (s : World) :
    getOrCreateSession env s =
      match s.g.proxyMgr.GetCurrentProxy with
      | none => Outcome.panic { s with trace := s.trace ++ [Effect.getOrCreateSession] }
      | some (proxyURL, proxyIndex) =>
        match s.g.sessions proxyIndex with
        | some session =>
          Outcome.ret (Except.ok { session with LastUsedAt := env.now s.step })
            { g := { s.g with
                sessions := mapSet s.g.sessions proxyIndex
                  { session with LastUsedAt := env.now s.step } },
              step := s.step + 1,
              trace := s.trace ++ [Effect.getOrCreateSession] }
        | none =>
          match createHTTPClient env proxyURL with
          | Except.error err =>
            Outcome.ret (Except.error err)
              { s with trace := s.trace ++ [Effect.getOrCreateSession] }
          | Except.ok client =>
            match env.reply s.step with
            | Reply.failed message =>
              Outcome.ret (Except.error ("获取会话失败: " ++ message))
                { s with
                  step := s.step + 1,
                  trace := s.trace ++ [Effect.getOrCreateSession] ++ [Effect.probe client] }
            | Reply.response status _ _ _ =>
              if status = 429 then
                match s.g.proxyMgr.OnRateLimit with
                | Outcome.ret restart pm2 =>
                  Outcome.ret (Except.error "触发限流")
                    { g := { s.g with proxyMgr := pm2 },
                      step := s.step + 1,
                      trace := s.trace ++ [Effect.getOrCreateSession] ++ [Effect.probe client] ++
                        restartWarp restart }
                | Outcome.panic pm2 =>
                  Outcome.panic
                    { g := { s.g with proxyMgr := pm2 },
                      step := s.step + 1,
                      trace := s.trace ++ [Effect.getOrCreateSession] ++ [Effect.probe client] }
              else
                Outcome.ret
                  (Except.ok
                    { Client := client, ProxyIndex := proxyIndex,
                      CreatedAt := env.now (s.step + 1), LastUsedAt := env.now (s.step + 2) })
                  { g := { s.g with
                      sessions := mapSet s.g.sessions proxyIndex
                        { Client := client, ProxyIndex := proxyIndex,
                          CreatedAt := env.now (s.step + 1),
                          LastUsedAt := env.now (s.step + 2) } },
                    step := s.step + 3,
                    trace := s.trace ++ [Effect.getOrCreateSession] ++ [Effect.probe client] } := by
  simp only [getOrCreateSession, run_bind, run_emit, run_getGateway]
  cases hg : s.g.proxyMgr.GetCurrentProxy with
  | none => rfl
  | some pair =>
    obtain ⟨proxyURL, proxyIndex⟩ := pair
    simp only []
    cases hs : s.g.sessions proxyIndex with
    | some session => rfl
    | none =>
      simp only []
      cases hc : createHTTPClient env proxyURL with
      | error err => rfl
      | ok client =>
        simp only [run_bind, run_clientDo]
        cases hr : env.reply s.step with
        | failed message => rfl
        | response status cookies jarCookies lines =>
          simp only []
          by_cases h429 : status = 429
          · simp only [h429, if_true, run_bind, onRateLimit]
            cases ho : s.g.proxyMgr.OnRateLimit with
            | ret restart pm2 => rfl
            | panic pm2 => rfl
          · simp only [h429, if_false]
            rfl

/-- The run of `register`: two reads of the random source, then the request. -/
theorem register_eq (env : Env) (client : Client) (s : World) :
    register env client s =
      Outcome.ret
        (match env.reply (s.step + 2) with
          | Reply.failed message => Except.error ("注册请求失败: " ++ message)
          | Reply.response status cookies jarCookies _ =>
            if status = 429 then Except.error "注册触发限流"
            else if cookies.any (fun name => strings.Contains name "session-token") then
              Except.ok (env.email s.step, env.password (s.step + 1))
            else if jarCookies.any (fun name => strings.Contains name "session-token") then
              Except.ok (env.email s.step, env.password (s.step + 1))
            else Except.error "注册失败，未获取到 session token")
        { s with
          step := s.step + 3,
          trace := s.trace ++
            [Effect.register client (env.email s.step) (env.password (s.step + 1))] } := by
  simp only [register, run_bind, tick, run_clientDo]
  cases hr : env.reply (s.step + 2) with
  | failed message => rfl
  | response status cookies jarCookies lines =>
    simp only []
    by_cases h429 : status = 429
    · simp only [h429, if_true]; rfl
    · simp only [h429, if_false]
      by_cases hc : cookies.any (fun name => strings.Contains name "session-token") = true
      · simp only [hc, if_true]; rfl
      · simp only [hc, if_false]
        by_cases hj : jarCookies.any (fun name => strings.Contains name "session-token") = true
        · simp only [hj, if_true]; rfl
        · simp only [hj, if_false]; rfl

/-- The run of `getOrCreateAccount`, branch by branch; `registered` stands for
the result of `register`. -/
theorem getOrCreateAccount_eq (env : Env) (s : World) :
    getOrCreateAccount env s =
      match s.g.proxyMgr.GetCurrentProxy with
      | none => Outcome.panic { s with trace := s.trace ++ [Effect.getOrCreateAccount] }
      | some (proxyURL, proxyIndex) =>
        match s.g.accounts proxyIndex with
        | some account =>
          Outcome.ret (Except.ok { account with LastUsedAt := env.now s.step })
            { g := { s.g with
                accounts := mapSet s.g.accounts proxyIndex
                  { account with LastUsedAt := env.now s.step } },
              step := s.step + 1,
              trace := s.trace ++ [Effect.getOrCreateAccount] }
        | none =>
          if proxyIndex < (s.g.proxyMgr.containers.length : Int) ∧
              (sliceAt s.g.proxyMgr.containers proxyIndex).isNone = true then
            Outcome.panic { s with trace := s.trace ++ [Effect.getOrCreateAccount] }
          else
            match createHTTPClient env proxyURL with
            | Except.error err =>
              Outcome.ret (Except.error err)
                { s with trace := s.trace ++ [Effect.getOrCreateAccount] }
            | Except.ok client =>
              match register env client
                  { s with trace := s.trace ++ [Effect.getOrCreateAccount] } with
              | Outcome.panic s2 => Outcome.panic s2
              | Outcome.ret (Except.error err) s2 =>
                if strings.Contains err "限流" = true then
                  match s2.g.proxyMgr.OnRateLimit with
                  | Outcome.ret restart pm2 =>
                    Outcome.ret (Except.error err)
                      { s2 with
                        g := { s2.g with proxyMgr := pm2 },
                        trace := s2.trace ++ restartWarp restart }
                  | Outcome.panic pm2 =>
                    Outcome.panic { s2 with g := { s2.g with proxyMgr := pm2 } }
                else Outcome.ret (Except.error err) s2
              | Outcome.ret (Except.ok (email, password)) s2 =>
                Outcome.ret
                  (Except.ok
                    { Email := email, Password := password, SessionToken := "",
                      Client := client, ProxyIndex := proxyIndex,
                      CreatedAt := env.now s2.step, LastUsedAt := env.now (s2.step + 1) })
                  { g := { s2.g with
                      accounts := mapSet s2.g.accounts proxyIndex
                        { Email := email, Password := password, SessionToken := "",
                          Client := client, ProxyIndex := proxyIndex,
                          CreatedAt := env.now s2.step,
                          LastUsedAt := env.now (s2.step + 1) } },
                    step := s2.step + 2,
                    trace := s2.trace } := by
  simp only [getOrCreateAccount, run_bind, run_emit, run_getGateway]
  cases hg : s.g.proxyMgr.GetCurrentProxy with
  | none => rfl
  | some pair =>
    obtain ⟨proxyURL, proxyIndex⟩ := pair
    simp only []
    cases hs : s.g.accounts proxyIndex with
    | some account => rfl
    | none =>
      simp only []
      by_cases hguard : proxyIndex < (s.g.proxyMgr.containers.length : Int) ∧
          (sliceAt s.g.proxyMgr.containers proxyIndex).isNone = true
      · simp only [hguard, and_self, if_true]
        rfl
      · simp only [hguard, if_false]
        cases hc : createHTTPClient env proxyURL with
        | error err => rfl
        | ok client =>
          simp only [run_bind]
          cases hr : register env client
              { s with trace := s.trace ++ [Effect.getOrCreateAccount] } with
          | panic s2 => rfl
          | ret r s2 =>
            cases r with
            | error err =>
              simp only []
              by_cases hl : strings.Contains err "限流" = true
              · simp only [hl, if_true, run_bind, onRateLimit]
                cases ho : s2.g.proxyMgr.OnRateLimit with
                | ret restart pm2 => rfl
                | panic pm2 => rfl
              · simp only [hl, if_false]
                rfl
            | ok pair2 =>
              obtain ⟨email, password⟩ := pair2
              rfl

theorem wellKeyed_setSession (g : Gateway) (k : Int) (session : GuestSession)
    (hg : WellKeyed g) (hk : session.ProxyIndex = k) :
    WellKeyed { g with sessions := mapSet g.sessions k session } := by
  refine ⟨?_, hg.2⟩
  intro j x hx
  by_cases hj : j = k
  · subst hj
    simp only [mapSet, if_true, Option.some.injEq] at hx
    rw [← hx, hk]
  · simp only [mapSet, hj, if_false] at hx
    exact hg.1 j x hx

theorem wellKeyed_setAccount (g : Gateway) (k : Int) (account : Account)
    (hg : WellKeyed g) (hk : account.ProxyIndex = k) :
    WellKeyed { g with accounts := mapSet g.accounts k account } := by
  refine ⟨hg.1, ?_⟩
  intro j x hx
  by_cases hj : j = k
  · subst hj
    simp only [mapSet, if_true, Option.some.injEq] at hx
    rw [← hx, hk]
  · simp only [mapSet, hj, if_false] at hx
    exact hg.2 j x hx

theorem mapSet_self {α : Type} (m : Int → Option α) (key : Int) (value : α) :
    mapSet m key value key = some value := by
  simp [mapSet]

theorem mapSet_other {α : Type} (m : Int → Option α) (key j : Int) (value : α) (h : j ≠ key) :
    mapSet m key value j = m j := by
  simp [mapSet, h]

/-- What a successful `getOrCreateSession` leaves, and what the next call does. -/
theorem getOrCreateSession_success (env : Env) (s s2 : World) (session : GuestSession)
    (hkeyed : WellKeyed s.g)
    (h : getOrCreateSession env s = Outcome.ret (Except.ok session) s2) :
    (s.g.proxyMgr.GetCurrentProxy).map Prod.snd = some session.ProxyIndex ∧
      s2.g.sessions session.ProxyIndex = some session ∧
      (∀ j, j ≠ session.ProxyIndex → s2.g.sessions j = s.g.sessions j) ∧
      s2.g.accounts = s.g.accounts ∧
      s2.g.proxyMgr = s.g.proxyMgr ∧
      WellKeyed s2.g ∧
      getOrCreateSession env s2 =
        Outcome.ret (Except.ok { session with LastUsedAt := env.now s2.step })
          { g := { s2.g with
              sessions := mapSet s2.g.sessions session.ProxyIndex
                { session with LastUsedAt := env.now s2.step } },
            step := s2.step + 1,
            trace := s2.trace ++ [Effect.getOrCreateSession] } := by
  have hsecond : ∀ (url : String), s2.g.proxyMgr = s.g.proxyMgr →
      s.g.proxyMgr.GetCurrentProxy = some (url, session.ProxyIndex) →
      s2.g.sessions session.ProxyIndex = some session →
      getOrCreateSession env s2 =
        Outcome.ret (Except.ok { session with LastUsedAt := env.now s2.step })
          { g := { s2.g with
              sessions := mapSet s2.g.sessions session.ProxyIndex
                { session with LastUsedAt := env.now s2.step } },
            step := s2.step + 1,
            trace := s2.trace ++ [Effect.getOrCreateSession] } := by
    intro url hpm hcur hcache
    rw [getOrCreateSession_eq, hpm, hcur]
    simp only [hcache]
  rw [getOrCreateSession_eq] at h
  cases hg : s.g.proxyMgr.GetCurrentProxy with
  | none => simp [hg] at h
  | some pair =>
    obtain ⟨proxyURL, proxyIndex⟩ := pair
    simp only [hg] at h
    cases hs : s.g.sessions proxyIndex with
    | some cached =>
      simp only [hs, Outcome.ret.injEq, Except.ok.injEq] at h
      obtain ⟨h1, h2⟩ := h
      have hidx : session.ProxyIndex = proxyIndex := by
        rw [← h1]
        exact hkeyed.1 proxyIndex cached hs
      subst h2
      rw [hidx]
      have hcache : mapSet s.g.sessions proxyIndex
          { cached with LastUsedAt := env.now s.step } proxyIndex = some session := by
        rw [mapSet_self, h1]
      refine ⟨rfl, hcache, fun j hj => mapSet_other _ _ _ _ hj, rfl, rfl, ?_, ?_⟩
      · exact wellKeyed_setSession s.g proxyIndex _ hkeyed
          (by rw [← hidx, ← h1])
      · have := hsecond proxyURL rfl (by rw [hg, hidx]) (by rw [hidx]; exact hcache)
        rw [hidx] at this
        exact this
    | none =>
      simp only [hs] at h
      cases hc : createHTTPClient env proxyURL with
      | error err => simp [hc] at h
      | ok client =>
        simp only [hc] at h
        cases hr : env.reply s.step with
        | failed message => simp [hr] at h
        | response status cookies jarCookies lines =>
          simp only [hr] at h
          by_cases h429 : status = 429
          · simp only [h429, if_true] at h
            cases ho : s.g.proxyMgr.OnRateLimit with
            | ret restart pm2 => simp [ho] at h
            | panic pm2 => simp [ho] at h
          · simp only [h429, if_false, Outcome.ret.injEq, Except.ok.injEq] at h
            obtain ⟨h1, h2⟩ := h
            have hidx : session.ProxyIndex = proxyIndex := by rw [← h1]
            subst h2
            rw [hidx]
            have hcache : mapSet s.g.sessions proxyIndex
                { Client := client, ProxyIndex := proxyIndex,
                  CreatedAt := env.now (s.step + 1), LastUsedAt := env.now (s.step + 2) }
                proxyIndex = some session := by
              rw [mapSet_self, h1]
            refine ⟨rfl, hcache, fun j hj => mapSet_other _ _ _ _ hj, rfl, rfl, ?_, ?_⟩
            · exact wellKeyed_setSession s.g proxyIndex _ hkeyed rfl
            · have := hsecond proxyURL rfl (by rw [hg, hidx]) (by rw [hidx]; exact hcache)
              rw [hidx] at this
              exact this

theorem register_keeps_gateway (env : Env) (client : Client) (s : World) :
    (register env client s).state.g = s.g ∧ (register env client s).panicked = false := by
  rw [register_eq]
  exact ⟨rfl, rfl⟩

/-- What a successful `getOrCreateAccount` leaves, and what the next call does. -/
theorem getOrCreateAccount_success (env : Env) (s s2 : World) (account : Account)
    (hkeyed : WellKeyed s.g)
    (h : getOrCreateAccount env s = Outcome.ret (Except.ok account) s2) :
    (s.g.proxyMgr.GetCurrentProxy).map Prod.snd = some account.ProxyIndex ∧
      s2.g.accounts account.ProxyIndex = some account ∧
      (∀ j, j ≠ account.ProxyIndex → s2.g.accounts j = s.g.accounts j) ∧
      s2.g.sessions = s.g.sessions ∧
      s2.g.proxyMgr = s.g.proxyMgr ∧
      WellKeyed s2.g ∧
      getOrCreateAccount env s2 =
        Outcome.ret (Except.ok { account with LastUsedAt := env.now s2.step })
          { g := { s2.g with
              accounts := mapSet s2.g.accounts account.ProxyIndex
                { account with LastUsedAt := env.now s2.step } },
            step := s2.step + 1,
            trace := s2.trace ++ [Effect.getOrCreateAccount] } := by
  have hsecond : ∀ (url : String), s2.g.proxyMgr = s.g.proxyMgr →
      s.g.proxyMgr.GetCurrentProxy = some (url, account.ProxyIndex) →
      s2.g.accounts account.ProxyIndex = some account →
      getOrCreateAccount env s2 =
        Outcome.ret (Except.ok { account with LastUsedAt := env.now s2.step })
          { g := { s2.g with
              accounts := mapSet s2.g.accounts account.ProxyIndex
                { account with LastUsedAt := env.now s2.step } },
            step := s2.step + 1,
            trace := s2.trace ++ [Effect.getOrCreateAccount] } := by
    intro url hpm hcur hcache
    rw [getOrCreateAccount_eq, hpm, hcur]
    simp only [hcache]
  rw [getOrCreateAccount_eq] at h
  cases hg : s.g.proxyMgr.GetCurrentProxy with
  | none => simp [hg] at h
  | some pair =>
    obtain ⟨proxyURL, proxyIndex⟩ := pair
    simp only [hg] at h
    cases hs : s.g.accounts proxyIndex with
    | some cached =>
      simp only [hs, Outcome.ret.injEq, Except.ok.injEq] at h
      obtain ⟨h1, h2⟩ := h
      have hidx : account.ProxyIndex = proxyIndex := by
        rw [← h1]
        exact hkeyed.2 proxyIndex cached hs
      subst h2
      rw [hidx]
      have hcache : mapSet s.g.accounts proxyIndex
          { cached with LastUsedAt := env.now s.step } proxyIndex = some account := by
        rw [mapSet_self, h1]
      refine ⟨rfl, hcache, fun j hj => mapSet_other _ _ _ _ hj, rfl, rfl, ?_, ?_⟩
      · exact wellKeyed_setAccount s.g proxyIndex _ hkeyed
          (by rw [← hidx, ← h1])
      · have := hsecond proxyURL rfl (by rw [hg, hidx]) (by rw [hidx]; exact hcache)
        rw [hidx] at this
        exact this
    | none =>
      simp only [hs] at h
      by_cases hguard : proxyIndex < (s.g.proxyMgr.containers.length : Int) ∧
          (sliceAt s.g.proxyMgr.containers proxyIndex).isNone = true
      · simp [hguard] at h
      · simp only [hguard, if_false] at h
        cases hc : createHTTPClient env proxyURL with
        | error err => simp [hc] at h
        | ok client =>
          simp only [hc] at h
          have hkeep := (register_keeps_gateway env client
            { s with trace := s.trace ++ [Effect.getOrCreateAccount] }).1
          cases hr : register env client
              { s with trace := s.trace ++ [Effect.getOrCreateAccount] } with
          | panic s3 => simp [hr] at h
          | ret r s3 =>
            rw [hr] at hkeep
            simp only [Outcome.state] at hkeep
            simp only [hr] at h
            cases r with
            | error err =>
              simp only [] at h
              by_cases hl : strings.Contains err "限流" = true
              · simp only [hl, if_true] at h
                cases ho : s3.g.proxyMgr.OnRateLimit with
                | ret restart pm2 => simp [ho] at h
                | panic pm2 => simp [ho] at h
              · simp [hl] at h
            | ok pair2 =>
              obtain ⟨email, password⟩ := pair2
              simp only [Outcome.ret.injEq, Except.ok.injEq] at h
              obtain ⟨h1, h2⟩ := h
              have hidx : account.ProxyIndex = proxyIndex := by rw [← h1]
              subst h2
              rw [hidx]
              simp only [hkeep]
              have hcache : mapSet s.g.accounts proxyIndex
                  { Email := email, Password := password, SessionToken := "",
                    Client := client, ProxyIndex := proxyIndex,
                    CreatedAt := env.now s3.step, LastUsedAt := env.now (s3.step + 1) }
                  proxyIndex = some account := by
                rw [mapSet_self, h1]
              refine ⟨rfl, hcache, fun j hj => mapSet_other _ _ _ _ hj, trivial, trivial, ?_, ?_⟩
              · exact wellKeyed_setAccount s.g proxyIndex _ hkeyed rfl
              · have := hsecond proxyURL (by simp only [hkeep]) (by rw [hg, hidx])
                  (by rw [hidx]; simp only [hkeep]; exact hcache)
                rw [hidx] at this
                simpa only [hkeep] using this

/-! ## The cache invariant -/

theorem keeps_pure (P : Gateway → Prop) {α : Type} (a : α) : Keeps P (pure a : M α) :=
  fun _ h => h

theorem keeps_bind (P : Gateway → Prop) {α β : Type} (m : M α) (f : α → M β)
    (hm : Keeps P m) (hf : ∀ a, Keeps P (f a)) : Keeps P (m >>= f) := by
  intro s hs
  have h1 := hm s hs
  rw [run_bind]
  cases h : m s with
  | ret a s2 =>
    rw [h] at h1
    exact hf a s2 h1
  | panic s2 =>
    rw [h] at h1
    exact h1

theorem keeps_panicNow (P : Gateway → Prop) {α : Type} : Keeps P (panicNow : M α) :=
  fun _ h => h

theorem keeps_getGateway (P : Gateway → Prop) : Keeps P getGateway := fun _ h => h

theorem keeps_tick (P : Gateway → Prop) : Keeps P tick := fun _ h => h

theorem keeps_timeNow (P : Gateway → Prop) (env : Env) : Keeps P (timeNow env) :=
  fun _ h => h

theorem keeps_uuidNew (P : Gateway → Prop) (env : Env) : Keeps P (uuidNew env) :=
  fun _ h => h

theorem keeps_emit (P : Gateway → Prop) (e : Effect) : Keeps P (emit e) := fun _ h => h

theorem keeps_clientDo (P : Gateway → Prop) (env : Env) (e : Effect) :
    Keeps P (clientDo env e) := fun _ h => h

theorem keeps_httpError (P : Gateway → Prop) (w : ResponseWriter) (msg : String) (code : Nat) :
    Keeps P (httpError w msg code) := by
  intro s hs
  simp only [httpError]
  cases ((((w.delHeader "Content-Length").setHeader "Content-Type"
    "text/plain; charset=utf-8").setHeader "X-Content-Type-Options" "nosniff").WriteHeader
    code) <;> exact hs

theorem keeps_streamOpenAI (P : Gateway → Prop) (env : Env) (chatID model : String)
    (lines : List String) (w : ResponseWriter) :
    Keeps P (streamOpenAI env chatID model lines w) := by
  intro s hs
  rw [streamOpenAI_eq]
  exact hs

theorem wellKeyed_proxyMgr (g : Gateway) (pm : ProxyManager) (h : WellKeyed g) :
    WellKeyed { g with proxyMgr := pm } := h

theorem wellKeyed_delete (g : Gateway) (k : Int) (h : WellKeyed g) :
    WellKeyed { g with sessions := mapDelete g.sessions k } ∧
      WellKeyed { g with accounts := mapDelete g.accounts k } := by
  constructor
  · refine ⟨?_, h.2⟩
    intro j x hx
    by_cases hj : j = k
    · simp [mapDelete, hj] at hx
    · simp only [mapDelete, hj, if_false] at hx
      exact h.1 j x hx
  · refine ⟨h.1, ?_⟩
    intro j x hx
    by_cases hj : j = k
    · simp [mapDelete, hj] at hx
    · simp only [mapDelete, hj, if_false] at hx
      exact h.2 j x hx

theorem keeps_onRateLimit : Keeps WellKeyed onRateLimit := by
  intro s hs
  simp only [onRateLimit]
  cases s.g.proxyMgr.OnRateLimit with
  | ret restart pm => exact hs
  | panic pm => exact hs

theorem keeps_rejectUpstream (w : ResponseWriter) (proxyIndex : Int) (status : Nat) :
    Keeps WellKeyed (rejectUpstream w proxyIndex status) := by
  have hclearS : Keeps WellKeyed (clearSession proxyIndex) :=
    fun s hs => (wellKeyed_delete s.g proxyIndex hs).1
  have hclearA : Keeps WellKeyed (clearAccount proxyIndex) :=
    fun s hs => (wellKeyed_delete s.g proxyIndex hs).2
  unfold rejectUpstream
  split <;>
    exact keeps_bind _ _ _ keeps_onRateLimit (fun _ =>
      keeps_bind _ _ _ hclearS (fun _ =>
        keeps_bind _ _ _ hclearA (fun _ => keeps_httpError _ _ _ _)))

theorem keeps_getOrCreateSession (env : Env) : Keeps WellKeyed (getOrCreateSession env) := by
  intro s hs
  rw [getOrCreateSession_eq]
  cases hg : s.g.proxyMgr.GetCurrentProxy with
  | none => exact hs
  | some pair =>
    obtain ⟨proxyURL, proxyIndex⟩ := pair
    simp only []
    cases hc : s.g.sessions proxyIndex with
    | some cached =>
      exact wellKeyed_setSession s.g proxyIndex _ hs (hs.1 proxyIndex cached hc)
    | none =>
      simp only []
      cases createHTTPClient env proxyURL with
      | error err => exact hs
      | ok client =>
        simp only []
        cases env.reply s.step with
        | failed message => exact hs
        | response status cookies jarCookies lines =>
          simp only []
          split
          · cases s.g.proxyMgr.OnRateLimit with
            | ret restart pm2 => exact hs
            | panic pm2 => exact hs
          · exact wellKeyed_setSession s.g proxyIndex _ hs rfl

theorem keeps_getOrCreateAccount (env : Env) : Keeps WellKeyed (getOrCreateAccount env) := by
  intro s hs
  rw [getOrCreateAccount_eq]
  cases hg : s.g.proxyMgr.GetCurrentProxy with
  | none => exact hs
  | some pair =>
    obtain ⟨proxyURL, proxyIndex⟩ := pair
    simp only []
    cases hc : s.g.accounts proxyIndex with
    | some cached =>
      exact wellKeyed_setAccount s.g proxyIndex _ hs (hs.2 proxyIndex cached hc)
    | none =>
      simp only []
      split
      · exact hs
      · cases createHTTPClient env proxyURL with
        | error err => exact hs
        | ok client =>
          simp only []
          have hkeep := (register_keeps_gateway env client
            { s with trace := s.trace ++ [Effect.getOrCreateAccount] }).1
          cases hr : register env client
              { s with trace := s.trace ++ [Effect.getOrCreateAccount] } with
          | panic s3 =>
            rw [hr] at hkeep
            simp only [Outcome.state] at hkeep ⊢
            rw [hkeep]
            exact hs
          | ret r s3 =>
            rw [hr] at hkeep
            simp only [Outcome.state] at hkeep
            have hs3 : WellKeyed s3.g := by rw [hkeep]; exact hs
            cases r with
            | error err =>
              simp only []
              split
              · cases s3.g.proxyMgr.OnRateLimit with
                | ret restart pm2 => exact hs3
                | panic pm2 => exact hs3
              · exact hs3
            | ok pair2 =>
              obtain ⟨email, password⟩ := pair2
              exact wellKeyed_setAccount s3.g proxyIndex _ hs3 rfl

theorem keeps_handlers (env : Env) (w : ResponseWriter) (client : Client)
    (proxyIndex : Int) (chatReq : ChatRequest) :
    Keeps WellKeyed (handleStreamWithClient env w client proxyIndex chatReq) ∧
      Keeps WellKeyed (handleNonStreamWithClient env w client proxyIndex chatReq) ∧
      Keeps WellKeyed (handleStreamAnthropic env w client proxyIndex chatReq) ∧
      Keeps WellKeyed (handleNonStreamAnthropic env w client proxyIndex chatReq) := by
  refine ⟨?_, ?_, ?_, ?_⟩
  · unfold handleStreamWithClient
    repeat' first
      | exact keeps_pure _ _
      | exact keeps_panicNow _
      | exact keeps_uuidNew _ _
      | exact keeps_clientDo _ _ _
      | exact keeps_httpError _ _ _ _
      | exact keeps_streamOpenAI _ _ _ _ _ _
      | exact keeps_rejectUpstream _ _ _
      | apply keeps_bind
      | dsimp only
      | split
      | intro _
  · unfold handleNonStreamWithClient
    repeat' first
      | exact keeps_pure _ _
      | exact keeps_panicNow _
      | exact keeps_uuidNew _ _
      | exact keeps_timeNow _ _
      | exact keeps_clientDo _ _ _
      | exact keeps_httpError _ _ _ _
      | exact keeps_rejectUpstream _ _ _
      | apply keeps_bind
      | dsimp only
      | split
      | intro _
  · unfold handleStreamAnthropic
    repeat' first
      | exact keeps_pure _ _
      | exact keeps_clientDo _ _ _
      | exact keeps_httpError _ _ _ _
      | exact keeps_rejectUpstream _ _ _
      | apply keeps_bind
      | dsimp only
      | split
      | intro _
  · unfold handleNonStreamAnthropic
    repeat' first
      | exact keeps_pure _ _
      | exact keeps_uuidNew _ _
      | exact keeps_clientDo _ _ _
      | exact keeps_httpError _ _ _ _
      | exact keeps_rejectUpstream _ _ _
      | apply keeps_bind
      | dsimp only
      | split
      | intro _

theorem keeps_retryAcquire {ι : Type} (acquire : M (Except String ι))
    (hacq : Keeps WellKeyed acquire) (n : Nat) : Keeps WellKeyed (retryAcquire acquire n) := by
  induction n with
  | zero => exact keeps_pure _ none
  | succ n ih =>
    unfold retryAcquire
    apply keeps_bind _ _ _ hacq
    intro r
    cases r with
    | ok identity => exact keeps_pure _ _
    | error err => exact keeps_bind _ _ _ (keeps_emit _ _) (fun _ => ih)

theorem keeps_dispatch (env : Env) (w : ResponseWriter) (openAIReq : OpenAIRequest)
    (chatReq : ChatRequest) :
    Keeps WellKeyed (handleWithAccount env w openAIReq chatReq) ∧
      Keeps WellKeyed (handleWithSession env w openAIReq chatReq) ∧
      Keeps WellKeyed (handleWithAccountAnthropic env w openAIReq chatReq) ∧
      Keeps WellKeyed (handleWithSessionAnthropic env w openAIReq chatReq) := by
  have ha := keeps_retryAcquire _ (keeps_getOrCreateAccount env) 3
  have hs := keeps_retryAcquire _ (keeps_getOrCreateSession env) 3
  refine ⟨?_, ?_, ?_, ?_⟩
  · unfold handleWithAccount
    apply keeps_bind _ _ _ ha
    intro r
    cases r with
    | none => exact keeps_httpError _ _ _ _
    | some account =>
      simp only []
      split
      · exact (keeps_handlers env w _ _ chatReq).1
      · exact (keeps_handlers env w _ _ chatReq).2.1
  · unfold handleWithSession
    apply keeps_bind _ _ _ hs
    intro r
    cases r with
    | none => exact keeps_httpError _ _ _ _
    | some session =>
      simp only []
      split
      · exact (keeps_handlers env w _ _ chatReq).1
      · exact (keeps_handlers env w _ _ chatReq).2.1
  · unfold handleWithAccountAnthropic
    apply keeps_bind _ _ _ ha
    intro r
    cases r with
    | none => exact keeps_httpError _ _ _ _
    | some account =>
      simp only []
      split
      · exact (keeps_handlers env w _ _ chatReq).2.2.1
      · exact (keeps_handlers env w _ _ chatReq).2.2.2
  · unfold handleWithSessionAnthropic
    apply keeps_bind _ _ _ hs
    intro r
    cases r with
    | none => exact keeps_httpError _ _ _ _
    | some session =>
      simp only []
      split
      · exact (keeps_handlers env w _ _ chatReq).2.2.1
      · exact (keeps_handlers env w _ _ chatReq).2.2.2

/-- The cache invariant holds at start-up and every request keeps it, whatever
its outcome. -/
theorem wellKeyed_invariant (env : Env) (w : ResponseWriter) :
    (∀ (baseURL : String) (pm : ProxyManager) (useAuth : Bool),
      WellKeyed (NewGateway baseURL pm useAuth)) ∧
    (∀ body, Keeps WellKeyed (HandleChatCompletion env w body)) ∧
    (∀ body, Keeps WellKeyed (HandleAnthropicMessages env w body)) := by
  refine ⟨?_, ?_, ?_⟩
  · intro baseURL pm useAuth
    constructor <;> intro k x hx <;> simp [NewGateway] at hx
  · intro body
    unfold HandleChatCompletion respondBAKA newChatRequest
    repeat' first
      | exact keeps_pure _ _
      | exact keeps_uuidNew _ _
      | exact keeps_timeNow _ _
      | exact keeps_getGateway _
      | exact keeps_httpError _ _ _ _
      | exact (keeps_dispatch env w _ _).1
      | exact (keeps_dispatch env w _ _).2.1
      | apply keeps_bind
      | dsimp only
      | split
      | intro _
  · intro body
    unfold HandleAnthropicMessages respondAnthropicBAKA newChatRequest
    repeat' first
      | exact keeps_pure _ _
      | exact keeps_uuidNew _ _
      | exact keeps_getGateway _
      | exact keeps_httpError _ _ _ _
      | exact (keeps_dispatch env w _ _).2.2.1
      | exact (keeps_dispatch env w _ _).2.2.2
      | apply keeps_bind
      | dsimp only
      | split
      | intro _

theorem isAcquisition_marker :
    isAcquisition Effect.getOrCreateSession = false ∧
      isAcquisition Effect.getOrCreateAccount = false := ⟨rfl, rfl⟩

theorem countEffect_snoc (p : Effect → Bool) (s : World) (e : Effect) (g : Gateway) (n : Nat)
    (h : p e = false) :
    countEffect p { g := g, step := n, trace := s.trace ++ [e] } = countEffect p s := by
  simp [countEffect, List.filter_append, List.filter_cons, h]

/-- C11: in a state whose caches are keyed by route index (the invariant of the
gateway), a successful `getOrCreateSession` or `getOrCreateAccount` returns an
identity whose route index is the index `GetCurrentProxy` gives at the call,
leaves the cache of its kind mapping that index to the identity returned and
every other entry, the other cache and the proxy manager as they were; the next
call returns that identity with its last-used time refreshed, adds only its
call marker to the effects and so makes no acquisition request. -/
theorem getOrCreate_caches_identity (env : Env) (s s2 : World) (hkeyed : WellKeyed s.g) :
    (∀ session : GuestSession,
      getOrCreateSession env s = Outcome.ret (Except.ok session) s2 →
      (s.g.proxyMgr.GetCurrentProxy).map Prod.snd = some session.ProxyIndex ∧
        s2.g.sessions session.ProxyIndex = some session ∧
        (∀ j, j ≠ session.ProxyIndex → s2.g.sessions j = s.g.sessions j) ∧
        s2.g.accounts = s.g.accounts ∧
        s2.g.proxyMgr = s.g.proxyMgr ∧
        WellKeyed s2.g ∧
        getOrCreateSession env s2 =
          Outcome.ret (Except.ok { session with LastUsedAt := env.now s2.step })
            { g := { s2.g with
                sessions := mapSet s2.g.sessions session.ProxyIndex
                  { session with LastUsedAt := env.now s2.step } },
              step := s2.step + 1,
              trace := s2.trace ++ [Effect.getOrCreateSession] } ∧
        countEffect isAcquisition (getOrCreateSession env s2).state =
          countEffect isAcquisition s2) ∧
    (∀ account : Account,
      getOrCreateAccount env s = Outcome.ret (Except.ok account) s2 →
      (s.g.proxyMgr.GetCurrentProxy).map Prod.snd = some account.ProxyIndex ∧
        s2.g.accounts account.ProxyIndex = some account ∧
        (∀ j, j ≠ account.ProxyIndex → s2.g.accounts j = s.g.accounts j) ∧
        s2.g.sessions = s.g.sessions ∧
        s2.g.proxyMgr = s.g.proxyMgr ∧
        WellKeyed s2.g ∧
        getOrCreateAccount env s2 =
          Outcome.ret (Except.ok { account with LastUsedAt := env.now s2.step })
            { g := { s2.g with
                accounts := mapSet s2.g.accounts account.ProxyIndex
                  { account with LastUsedAt := env.now s2.step } },
              step := s2.step + 1,
              trace := s2.trace ++ [Effect.getOrCreateAccount] } ∧
        countEffect isAcquisition (getOrCreateAccount env s2).state =
          countEffect isAcquisition s2) := by
  constructor
  · intro session h
    obtain ⟨h1, h2, h3, h4, h5, h6, h7⟩ := getOrCreateSession_success env s s2 session hkeyed h
    refine ⟨h1, h2, h3, h4, h5, h6, h7, ?_⟩
    rw [h7]
    exact countEffect_snoc isAcquisition s2 _ _ _ rfl
  · intro account h
    obtain ⟨h1, h2, h3, h4, h5, h6, h7⟩ := getOrCreateAccount_success env s s2 account hkeyed h
    refine ⟨h1, h2, h3, h4, h5, h6, h7, ?_⟩
    rw [h7]
    exact countEffect_snoc isAcquisition s2 _ _ _ rfl

/-- C11 at a fresh gateway over the single route "a" whose probe is answered
200: the session created for route 0 is cached under 0. -/
theorem getOrCreate_caches_identity_witness :
    WellKeyed (sampleWorld (NewProxyManager "a" "c")).g ∧
      getOrCreateSession (sampleEnv (Reply.response 200 [] [] []) (Reply.failed ""))
          (sampleWorld (NewProxyManager "a" "c")) =
        Outcome.ret (Except.ok ⟨⟨"a"⟩, 0, 1700000001, 1700000002⟩)
          (getOrCreateSession (sampleEnv (Reply.response 200 [] [] []) (Reply.failed ""))
            (sampleWorld (NewProxyManager "a" "c"))).state ∧
      (getOrCreateSession (sampleEnv (Reply.response 200 [] [] []) (Reply.failed ""))
          (sampleWorld (NewProxyManager "a" "c"))).state.g.sessions
          (GuestSession.mk ⟨"a"⟩ 0 1700000001 1700000002).ProxyIndex =
        some ⟨⟨"a"⟩, 0, 1700000001, 1700000002⟩ :=
  ⟨⟨fun _ _ hx => by simp [sampleWorld, sampleGateway] at hx,
      fun _ _ hx => by simp [sampleWorld, sampleGateway] at hx⟩,
    rfl,
    ((getOrCreate_caches_identity
      (sampleEnv (Reply.response 200 [] [] []) (Reply.failed ""))
      (sampleWorld (NewProxyManager "a" "c")) _
      ⟨fun _ _ hx => by simp [sampleWorld, sampleGateway] at hx,
        fun _ _ hx => by simp [sampleWorld, sampleGateway] at hx⟩).1
      ⟨⟨"a"⟩, 0, 1700000001, 1700000002⟩ rfl).2.1⟩

/-! ## Failed acquisitions -/

/-- A rate-limited acquisition when `OnRateLimit` returns: both kinds of
`getOrCreate` return an error after that one call of `OnRateLimit`, with the
caches untouched. -/
theorem acquisition_rate_limited (env : Env) (s : World) (proxyURL : String)
    (proxyIndex : Int) (client : Client) (restart : Option String) (pm2 : ProxyManager)
    (hcur : s.g.proxyMgr.GetCurrentProxy = some (proxyURL, proxyIndex))
    (hclient : createHTTPClient env proxyURL = Except.ok client)
    (hrot : s.g.proxyMgr.OnRateLimit = Outcome.ret restart pm2) :
    (∀ cookies jarCookies lines,
      s.g.sessions proxyIndex = none →
      env.reply s.step = Reply.response 429 cookies jarCookies lines →
      getOrCreateSession env s =
        Outcome.ret (Except.error "触发限流")
          { g := { s.g with proxyMgr := pm2 },
            step := s.step + 1,
            trace := s.trace ++ [Effect.getOrCreateSession] ++ [Effect.probe client] ++
              restartWarp restart }) ∧
    (∀ cookies jarCookies lines,
      s.g.accounts proxyIndex = none →
      ¬ (proxyIndex < (s.g.proxyMgr.containers.length : Int) ∧
        (sliceAt s.g.proxyMgr.containers proxyIndex).isNone = true) →
      env.reply (s.step + 2) = Reply.response 429 cookies jarCookies lines →
      getOrCreateAccount env s =
        Outcome.ret (Except.error "注册触发限流")
          { g := { s.g with proxyMgr := pm2 },
            step := s.step + 3,
            trace := s.trace ++ [Effect.getOrCreateAccount] ++
              [Effect.register client (env.email s.step) (env.password (s.step + 1))] ++
              restartWarp restart }) := by
  constructor
  · intro cookies jarCookies lines hnone hreply
    rw [getOrCreateSession_eq, hcur]
    simp only [hnone, hclient, hreply, if_true, hrot]
  · intro cookies jarCookies lines hnone hguard hreply
    have hcontains : strings.Contains "注册触发限流" "限流" = true := by decide
    rw [getOrCreateAccount_eq, hcur]
    simp only [hnone, hguard, if_false, hclient, register_eq, hreply, if_true, hcontains, hrot]

/-- An acquisition that fails for another reason: the client cannot be built,
the request fails at the transport level, or the registration is answered
without a session cookie. Both kinds of `getOrCreate` return an error and leave
the gateway as it was; for an account this is stated for an error text that
does not contain the marker the code looks for. -/
theorem acquisition_other_failure (env : Env) (s : World) (proxyURL : String)
    (proxyIndex : Int)
    (hcur : s.g.proxyMgr.GetCurrentProxy = some (proxyURL, proxyIndex)) :
    (∀ err, s.g.sessions proxyIndex = none →
      createHTTPClient env proxyURL = Except.error err →
      getOrCreateSession env s =
        Outcome.ret (Except.error err)
          { s with trace := s.trace ++ [Effect.getOrCreateSession] }) ∧
    (∀ client message, s.g.sessions proxyIndex = none →
      createHTTPClient env proxyURL = Except.ok client →
      env.reply s.step = Reply.failed message →
      getOrCreateSession env s =
        Outcome.ret (Except.error ("获取会话失败: " ++ message))
          { s with
            step := s.step + 1,
            trace := s.trace ++ [Effect.getOrCreateSession] ++ [Effect.probe client] }) ∧
    (∀ client err s2, s.g.accounts proxyIndex = none →
      ¬ (proxyIndex < (s.g.proxyMgr.containers.length : Int) ∧
        (sliceAt s.g.proxyMgr.containers proxyIndex).isNone = true) →
      createHTTPClient env proxyURL = Except.ok client →
      register env client { s with trace := s.trace ++ [Effect.getOrCreateAccount] } =
        Outcome.ret (Except.error err) s2 →
      strings.Contains err "限流" = false →
      getOrCreateAccount env s = Outcome.ret (Except.error err) s2 ∧ s2.g = s.g) := by
  refine ⟨?_, ?_, ?_⟩
  · intro err hnone hclient
    rw [getOrCreateSession_eq, hcur]
    simp only [hnone, hclient]
  · intro client message hnone hclient hreply
    rw [getOrCreateSession_eq, hcur]
    simp only [hnone, hclient, hreply]
  · intro client err s2 hnone hguard hclient hreg hmark
    have hkeep := (register_keeps_gateway env client
      { s with trace := s.trace ++ [Effect.getOrCreateAccount] }).1
    rw [hreg] at hkeep
    refine ⟨?_, hkeep⟩
    rw [getOrCreateAccount_eq, hcur]
    simp only [hnone, hguard, if_false, hclient, hreg, hmark, Bool.false_eq_true]

/-- C12, the code at the failing input: over the manager built from the
addresses "a,b" and no container names, an acquisition answered 429 makes
`getOrCreateSession` and `getOrCreateAccount` call `OnRateLimit`, which moves
the index to 1 and panics; neither function returns an error. -/
theorem acquisition_429_panics_on_short_containers :
    (getOrCreateSession
        (sampleEnv (Reply.response 429 [] [] []) (Reply.response 429 [] [] []))
        (sampleWorld (NewProxyManager "a,b" ""))).panicked = true ∧
    (getOrCreateSession
        (sampleEnv (Reply.response 429 [] [] []) (Reply.response 429 [] [] []))
        (sampleWorld (NewProxyManager "a,b" ""))).state.g.proxyMgr.currentIndex = 1 ∧
    (getOrCreateAccount
        (sampleEnv (Reply.response 429 [] [] []) (Reply.response 429 [] [] []))
        (authWorld (NewProxyManager "a,b" ""))).panicked = true ∧
    (getOrCreateAccount
        (sampleEnv (Reply.response 429 [] [] []) (Reply.response 429 [] [] []))
        (authWorld (NewProxyManager "a,b" ""))).state.g.proxyMgr.currentIndex = 1 := by
  refine ⟨by decide, by decide, by decide, by decide⟩

/-! ## The empty pool -/

theorem GetCurrentProxy_empty (pm : ProxyManager) (h : pm.proxies.length = 0) :
    pm.GetCurrentProxy = some ("", -1) := by
  simp [ProxyManager.GetCurrentProxy, h]

/-- Guest sessions on an empty pool: `getOrCreateSession` does not panic, a new
session is built on a client without proxy and cached under index -1. -/
theorem session_on_empty_pool (env : Env) (s : World) (h : s.g.proxyMgr.proxies.length = 0) :
    (getOrCreateSession env s).panicked = false ∧
    (∀ status cookies jarCookies lines,
      s.g.sessions (-1) = none →
      env.reply s.step = Reply.response status cookies jarCookies lines →
      status ≠ 429 →
      getOrCreateSession env s =
        Outcome.ret
          (Except.ok
            { Client := { proxyURL := "" }, ProxyIndex := -1,
              CreatedAt := env.now (s.step + 1), LastUsedAt := env.now (s.step + 2) })
          { g := { s.g with
              sessions := mapSet s.g.sessions (-1)
                { Client := { proxyURL := "" }, ProxyIndex := -1,
                  CreatedAt := env.now (s.step + 1), LastUsedAt := env.now (s.step + 2) } },
            step := s.step + 3,
            trace := s.trace ++ [Effect.getOrCreateSession] ++
              [Effect.probe { proxyURL := "" }] }) := by
  have hcur := GetCurrentProxy_empty s.g.proxyMgr h
  have hrot := OnRateLimit_empty s.g.proxyMgr h
  have hclient : createHTTPClient env "" = Except.ok { proxyURL := "" } := by
    simp [createHTTPClient]
  constructor
  · rw [getOrCreateSession_eq, hcur]
    simp only [hclient, hrot]
    cases s.g.sessions (-1) with
    | some session => rfl
    | none =>
      simp only []
      cases env.reply s.step with
      | failed message => rfl
      | response status cookies jarCookies lines =>
        simp only []
        split <;> rfl
  · intro status cookies jarCookies lines hnone hreply hstatus
    rw [getOrCreateSession_eq, hcur]
    simp only [hnone, hclient, hreply, hstatus, if_false]

/-- Accounts on an empty pool built by `NewProxyManager`: with no handle at all,
the unguarded read `containers[-1]` panics as soon as no account is cached. -/
theorem account_on_empty_pool (env : Env) (s : World)
    (h : s.g.proxyMgr.proxies.length = 0) (hnone : s.g.accounts (-1) = none) :
    getOrCreateAccount env s =
      Outcome.panic { s with trace := s.trace ++ [Effect.getOrCreateAccount] } := by
  have hcur := GetCurrentProxy_empty s.g.proxyMgr h
  have hguard : (-1 : Int) < (s.g.proxyMgr.containers.length : Int) ∧
      (sliceAt s.g.proxyMgr.containers (-1)).isNone = true := by
    constructor
    · omega
    · simp [sliceAt]
  rw [getOrCreateAccount_eq, hcur]
  simp only [hnone, hguard, and_self, if_true]

/-- C13, the code at the failing input: a gateway in account mode with no
proxy configured. `GetCurrentProxy` gives the sentinel ("", -1), and the first
request that is not trivial ends in the panic of `getOrCreateAccount` on
`containers[-1]`, before any registration; the same request in guest mode gets
its session, built without proxy and cached under -1. -/
theorem account_mode_panics_on_empty_pool :
    (NewProxyManager "" "").GetCurrentProxy = some ("", -1) ∧
    (getOrCreateAccount
        (sampleEnv (Reply.response 200 ["session-token"] [] []) (Reply.response 200 [] [] []))
        (authWorld (NewProxyManager "" ""))).panicked = true ∧
    (HandleChatCompletion
        (sampleEnv (Reply.response 200 ["session-token"] [] []) (Reply.response 200 [] [] []))
        freshWriter (some ⟨"gpt-5.2", userSays "tell me about lean", false⟩)
        (authWorld (NewProxyManager "" ""))).panicked = true ∧
    countEffect isAcquisition
        (HandleChatCompletion
          (sampleEnv (Reply.response 200 ["session-token"] [] []) (Reply.response 200 [] [] []))
          freshWriter (some ⟨"gpt-5.2", userSays "tell me about lean", false⟩)
          (authWorld (NewProxyManager "" ""))).state = 0 ∧
    (getOrCreateSession
        (sampleEnv (Reply.response 200 [] [] []) (Reply.response 200 [] [] []))
        (sampleWorld (NewProxyManager "" ""))).panicked = false ∧
    ((getOrCreateSession
        (sampleEnv (Reply.response 200 [] [] []) (Reply.response 200 [] [] []))
        (sampleWorld (NewProxyManager "" ""))).state.g.sessions (-1)).isSome = true := by
  refine ⟨by decide, by decide, by decide, by decide, by decide, by decide⟩

/-! ## Normalising message content -/

/-- Where the two normalisations agree: on a plain string and on an array of at
most one element. -/
theorem compatContent_eq_extractContent (content : JSONValue) :
    (∀ v : String, compatContent (JSONValue.string v) = extractContent (JSONValue.string v)) ∧
      compatContent (JSONValue.array []) = extractContent (JSONValue.array []) ∧
      compatContent (JSONValue.array [content]) = extractContent (JSONValue.array [content]) := by
  refine ⟨fun _ => rfl, rfl, ?_⟩
  cases content with
  | null => rfl
  | bool b => rfl
  | number n => rfl
  | string s => rfl
  | array items => rfl
  | object block =>
    simp only [compatContent, extractContent, List.foldl_cons, List.foldl_nil, List.nil_append,
      extractItem]
    cases JSONValue.field block "type" with
    | string typ =>
      by_cases ht : typ = "text"
      · simp only [ht, if_true]
        cases JSONValue.field block "text" <;> rfl
      · simp only [ht, if_false]
        rfl
    | null => rfl
    | bool b => rfl
    | number n => rfl
    | array items => rfl
    | object o => rfl

/-- C16, the code at the failing input: for a content made of the two text
blocks "hi" and " there, my dear friend", the Anthropic path keeps the first
block only ("hi") while `extractContent` joins both; the same conversation is
classified trivial when it arrives on `/v1/messages` and not trivial on
`/v1/chat/completions`, and its flattened text differs. -/
theorem anthropic_path_keeps_first_block_only :
    compatContent (twoBlocks "hi" " there, my dear friend") = "hi" ∧
    extractContent (twoBlocks "hi" " there, my dear friend") = "hi there, my dear friend" ∧
    isMeaninglessRequest id
      (anthropicCompatToOpenAI
        ⟨"gpt-5.2", [⟨"user", twoBlocks "hi" " there, my dear friend"⟩], false, 0⟩).Messages
      = true ∧
    isMeaninglessRequest id [⟨"user", twoBlocks "hi" " there, my dear friend"⟩] = false ∧
    buildConversationMessage
      (anthropicCompatToOpenAI
        ⟨"gpt-5.2", [⟨"user", twoBlocks "hi" " there, my dear friend"⟩], false, 0⟩).Messages
      = "[System]\n请不要调用任何工具\n\n[User]\nhi" ∧
    buildConversationMessage [⟨"user", twoBlocks "hi" " there, my dear friend"⟩]
      = "[System]\n请不要调用任何工具\n\n[User]\nhi there, my dear friend" := by
  refine ⟨by decide, by decide, by decide, by decide, by decide, by decide⟩

/-! ## Usage counts -/

theorem anthropicResp_usage (id model content : String) :
    inputTokens (anthropicResp id model content) = some 0 ∧
      outputTokens (anthropicResp id model content) = some (len content : Int) := by
  constructor <;> rfl

/-- C17, as amended: on a 200 answer the Anthropic non-streaming handler
returns a response object whose `usage.input_tokens` is 0 and whose
`usage.output_tokens` is the length in bytes (Go's `len`) of the aggregated
text. -/
theorem anthropic_usage_counts_bytes (env : Env) (w : ResponseWriter) (client : Client)
    (proxyIndex : Int) (chatReq : ChatRequest) (s : World)
    (cookies jarCookies lines : List String)
    (hreply : env.reply s.step = Reply.response 200 cookies jarCookies lines) :
    handleNonStreamAnthropic env w client proxyIndex chatReq s =
        Outcome.ret
          ((w.setHeader "Content-Type" "application/json").write
            (Written.json (anthropicResp (env.uuid (s.step + 1)) chatReq.SelectedChatModel
              (readAll env.unmarshal lines ""))))
          { s with step := s.step + 2, trace := s.trace ++ [Effect.chat client chatReq] } ∧
      readAll env.unmarshal lines "" = concatTexts (deltaTexts env.unmarshal lines) ∧
      inputTokens (anthropicResp (env.uuid (s.step + 1)) chatReq.SelectedChatModel
        (readAll env.unmarshal lines "")) = some 0 ∧
      outputTokens (anthropicResp (env.uuid (s.step + 1)) chatReq.SelectedChatModel
        (readAll env.unmarshal lines "")) =
          some (len (readAll env.unmarshal lines "") : Int) := by
  refine ⟨?_, ?_, (anthropicResp_usage _ _ _).1, (anthropicResp_usage _ _ _).2⟩
  · simp only [handleNonStreamAnthropic, run_bind, run_clientDo, hreply, run_uuidNew,
      run_pure, ne_eq, not_true_eq_false, if_false]
  · rw [readAll_eq]
    simp

/-- C17 at the stream that carries the single delta "你好". -/
theorem anthropic_usage_counts_bytes_witness :
    cjkEnv.reply (sampleWorld (NewProxyManager "" "")).step =
        Reply.response 200 [] [] cjkLines ∧
      outputTokens (anthropicResp (cjkEnv.uuid ((sampleWorld (NewProxyManager "" "")).step + 1))
        (sampleChatReq "who are you, really?").SelectedChatModel
        (readAll cjkEnv.unmarshal cjkLines "")) =
          some (len (readAll cjkEnv.unmarshal cjkLines "") : Int) :=
  ⟨rfl,
    (anthropic_usage_counts_bytes cjkEnv freshWriter ⟨""⟩ (-1)
      (sampleChatReq "who are you, really?") (sampleWorld (NewProxyManager "" ""))
      [] [] cjkLines rfl).2.2.2⟩

/-- C17 as stated fails: for the stream that carries the single delta "你好" the
aggregated text is 2 characters long and `usage.output_tokens` is 6. -/
theorem anthropic_usage_characters_counterexample :
    readAll cjkEnv.unmarshal cjkLines "" = "你好" ∧
      (readAll cjkEnv.unmarshal cjkLines "").length = 2 ∧
      handleNonStreamAnthropic cjkEnv freshWriter ⟨""⟩ (-1)
          (sampleChatReq "who are you, really?") (sampleWorld (NewProxyManager "" "")) =
        Outcome.ret
          ((freshWriter.setHeader "Content-Type" "application/json").write
            (Written.json (anthropicResp "uuid-1" "openai/gpt-5.2" "你好")))
          { sampleWorld (NewProxyManager "" "") with
            step := 2,
            trace := [Effect.chat ⟨""⟩ (sampleChatReq "who are you, really?")] } ∧
      outputTokens (anthropicResp "uuid-1" "openai/gpt-5.2" "你好") = some 6 := by
  refine ⟨by decide, by decide, ?_, by decide⟩
  rfl

/-! ## Malformed upstream lines -/

theorem classifyLine_malformed (unmarshal : String → Option SSEEvent) (line : String)
    (h : malformed unmarshal line = true) : classifyLine unmarshal line = LineKind.skip := by
  simp only [malformed, Bool.and_eq_true, decide_eq_true_eq, Bool.or_eq_true,
    Bool.not_eq_true', Option.isNone_iff_eq_none] at h
  obtain ⟨hnd, hbad⟩ := h
  by_cases hp : strings.HasPrefix line "data: " = true
  · have hu : unmarshal (strings.TrimPrefix line "data: ") = none := by
      rcases hbad with h1 | h1
      · rw [hp] at h1; exact absurd h1 (by decide)
      · exact h1
    have hd : ¬ strings.TrimPrefix line "data: " = "[DONE]" :=
      fun hd => hnd ((done_iff line).1 ⟨hp, hd⟩)
    simp only [classifyLine, hp, hd, hu, Bool.not_true, Bool.false_eq_true, if_false]
  · simp [classifyLine, hp]

theorem textDelta_malformed (unmarshal : String → Option SSEEvent) (line : String)
    (h : malformed unmarshal line = true) : textDelta unmarshal line = none := by
  simp only [malformed, Bool.and_eq_true, decide_eq_true_eq, Bool.or_eq_true,
    Bool.not_eq_true', Option.isNone_iff_eq_none] at h
  obtain ⟨_, hbad⟩ := h
  by_cases hp : strings.HasPrefix line "data: " = true
  · have hu : unmarshal (strings.TrimPrefix line "data: ") = none := by
      rcases hbad with h1 | h1
      · rw [hp] at h1; exact absurd h1 (by decide)
      · exact h1
    simp only [textDelta, hp, hu, if_true]
  · simp [textDelta, hp]

theorem deltaTexts_insert (unmarshal : String → Option SSEEvent) (pre post : List String)
    (bad : String) (h : malformed unmarshal bad = true) :
    deltaTexts unmarshal (pre ++ bad :: post) = deltaTexts unmarshal (pre ++ post) := by
  have hnd : bad ≠ doneLine := by
    simp only [malformed, Bool.and_eq_true, decide_eq_true_eq] at h
    exact h.1
  induction pre with
  | nil =>
    simp only [List.nil_append, deltaTexts, beforeDone, List.takeWhile_cons, hnd, ne_eq,
      not_false_eq_true, decide_True, if_true, List.filterMap_cons,
      textDelta_malformed unmarshal bad h]
  | cons line rest ih =>
    by_cases hd : line = doneLine
    · simp [deltaTexts, beforeDone, hd]
    · simp only [deltaTexts, beforeDone, List.cons_append, List.takeWhile_cons, hd, ne_eq,
        not_false_eq_true, decide_True, if_true, List.filterMap_cons] at ih ⊢
      rw [ih]

theorem malformed_insert (env : Env) (pre post : List String) (bad : String)
    (h : malformed env.unmarshal bad = true) :
    (∀ fullContent : String,
      readAll env.unmarshal (pre ++ bad :: post) fullContent =
        readAll env.unmarshal (pre ++ post) fullContent) ∧
    (∀ (chatID model : String) (w : ResponseWriter) (s : World),
      streamOpenAI env chatID model (pre ++ bad :: post) w s =
        streamOpenAI env chatID model (pre ++ post) w s) ∧
    (∀ w : ResponseWriter,
      streamAnthropic env.unmarshal (pre ++ bad :: post) w =
        streamAnthropic env.unmarshal (pre ++ post) w) ∧
    deltaTexts env.unmarshal (pre ++ bad :: post) = deltaTexts env.unmarshal (pre ++ post) ∧
    emittedTexts env.unmarshal (pre ++ bad :: post) =
      emittedTexts env.unmarshal (pre ++ post) := by
  have hskip := classifyLine_malformed env.unmarshal bad h
  refine ⟨?_, ?_, ?_, deltaTexts_insert env.unmarshal pre post bad h, ?_⟩
  · induction pre with
    | nil =>
      intro fullContent
      simp only [List.nil_append, readAll, hskip]
    | cons line rest ih =>
      intro fullContent
      simp only [List.cons_append, readAll]
      cases classifyLine env.unmarshal line with
      | skip => exact ih _
      | done => rfl
      | delta t => exact ih _
  · induction pre with
    | nil =>
      intro chatID model w s
      simp only [List.nil_append, streamOpenAI, hskip]
    | cons line rest ih =>
      intro chatID model w s
      simp only [List.cons_append, streamOpenAI]
      cases classifyLine env.unmarshal line with
      | skip => exact ih _ _ _ _
      | done => rfl
      | delta t =>
        simp only [run_bind, run_timeNow]
        exact ih _ _ _ _
  · induction pre with
    | nil =>
      intro w
      simp only [List.nil_append, streamAnthropic, hskip]
    | cons line rest ih =>
      intro w
      simp only [List.cons_append, streamAnthropic]
      cases classifyLine env.unmarshal line with
      | skip => exact ih _
      | done => rfl
      | delta t => exact ih _
  · simp only [emittedTexts, deltaTexts_insert env.unmarshal pre post bad h]

theorem scanLines_cons_fit (line : String) (rest : List String)
    (h : fitsScanner line = true) : scanLines (line :: rest) = dropCR line :: scanLines rest := by
  simp only [fitsScanner] at h
  simp only [scanLines, List.takeWhile_cons, h, if_true, List.map_cons]

theorem scanLines_cons_long (line : String) (rest : List String)
    (h : fitsScanner line = false) : scanLines (line :: rest) = [] := by
  simp only [fitsScanner] at h
  simp only [scanLines, List.takeWhile_cons, h, Bool.false_eq_true, if_false, List.map_nil]

theorem scanLines_append (pre rest : List String) (h : pre.all fitsScanner = true) :
    scanLines (pre ++ rest) = pre.map dropCR ++ scanLines rest := by
  induction pre with
  | nil => rfl
  | cons line pre ih =>
    simp only [List.all_cons, Bool.and_eq_true] at h
    rw [List.cons_append, scanLines_cons_fit _ _ h.1, ih h.2, List.map_cons, List.cons_append]

theorem scanLines_stop (pre rest : List String) (h : pre.all fitsScanner = false) :
    scanLines (pre ++ rest) = scanLines pre := by
  induction pre with
  | nil => simp at h
  | cons line pre ih =>
    cases hl : fitsScanner line with
    | false => rw [List.cons_append, scanLines_cons_long _ _ hl, scanLines_cons_long _ _ hl]
    | true =>
      have h2 : pre.all fitsScanner = false := by
        simpa [List.all_cons, hl] using h
      rw [List.cons_append, scanLines_cons_fit _ _ hl, scanLines_cons_fit _ _ hl, ih h2]

theorem scanLines_fit (pre : List String) (h : pre.all fitsScanner = true) :
    scanLines pre = pre.map dropCR := by
  have := scanLines_append pre [] h
  simpa [scanLines] using this

theorem deltaTexts_append (unmarshal : String → Option SSEEvent) (a b : List String)
    (h : a.all (fun line => decide (line ≠ doneLine)) = true) :
    deltaTexts unmarshal (a ++ b) = deltaTexts unmarshal a ++ deltaTexts unmarshal b := by
  induction a with
  | nil => rfl
  | cons line a ih =>
    simp only [List.all_cons, Bool.and_eq_true, decide_eq_true_eq] at h
    have h1 := h.1
    have h2 := ih h.2
    simp only [deltaTexts, beforeDone, List.cons_append, List.takeWhile_cons, h1, ne_eq,
      not_false_eq_true, decide_True, if_true, List.filterMap_cons] at h2 ⊢
    cases textDelta unmarshal line with
    | none => exact h2
    | some t => simp only [List.cons_append, h2]

theorem concatTexts_append (a b : List String) :
    concatTexts (a ++ b) = concatTexts a ++ concatTexts b := by
  induction a with
  | nil => simp [concatTexts]
  | cons t a ih => simp [concatTexts, ih, String.append_assoc]

theorem len_replicate (n : Nat) : len ⟨List.replicate n 'x'⟩ = n := by
  induction n with
  | zero => rfl
  | succ n ih =>
    simp only [len, String.utf8ByteSize, List.replicate_succ, String.utf8ByteSize.go] at ih ⊢
    rw [ih]
    rfl

theorem fitsScanner_longLine : fitsScanner longLine = false := by
  simp only [fitsScanner, longLine, len_replicate, MaxScanTokenSize]
  decide

/-- C18, as amended: inserting a malformed line that fits the scanner (fewer
than 65536 bytes; malformed: not the completion marker, and without the
`data: ` prefix or with a payload that does not decode to an event) anywhere
in the raw lines of the body changes neither what the non-streaming reading
loop aggregates nor what the two streaming loops write, nor the texts of the
stream. When it is inserted before the completion marker and the scan got
that far, the deltas that follow it are delivered: the texts read are those
before it followed by those after it, the aggregated content is their
concatenation, and the streaming loops write one event for each of them. -/
theorem malformed_line_is_skipped (env : Env) (pre post : List String) (bad : String)
    (hfit : fitsScanner bad = true)
    (h : malformed env.unmarshal (dropCR bad) = true) :
    (∀ fullContent : String,
      readAll env.unmarshal (scanLines (pre ++ bad :: post)) fullContent =
        readAll env.unmarshal (scanLines (pre ++ post)) fullContent) ∧
    (∀ (chatID model : String) (w : ResponseWriter) (s : World),
      streamOpenAI env chatID model (scanLines (pre ++ bad :: post)) w s =
        streamOpenAI env chatID model (scanLines (pre ++ post)) w s) ∧
    (∀ w : ResponseWriter,
      streamAnthropic env.unmarshal (scanLines (pre ++ bad :: post)) w =
        streamAnthropic env.unmarshal (scanLines (pre ++ post)) w) ∧
    deltaTexts env.unmarshal (scanLines (pre ++ bad :: post)) =
      deltaTexts env.unmarshal (scanLines (pre ++ post)) ∧
    emittedTexts env.unmarshal (scanLines (pre ++ bad :: post)) =
      emittedTexts env.unmarshal (scanLines (pre ++ post)) ∧
    (pre.all (fun line => fitsScanner line && decide (dropCR line ≠ doneLine)) = true →
      deltaTexts env.unmarshal (scanLines (pre ++ bad :: post)) =
        deltaTexts env.unmarshal (scanLines pre) ++
          deltaTexts env.unmarshal (scanLines post) ∧
      emittedTexts env.unmarshal (scanLines (pre ++ bad :: post)) =
        emittedTexts env.unmarshal (scanLines pre) ++
          emittedTexts env.unmarshal (scanLines post) ∧
      (∀ fullContent : String,
        readAll env.unmarshal (scanLines (pre ++ bad :: post)) fullContent =
          fullContent ++ concatTexts (deltaTexts env.unmarshal (scanLines pre)) ++
            concatTexts (deltaTexts env.unmarshal (scanLines post))) ∧
      (∀ (chatID model : String) (w : ResponseWriter) (s : World),
        streamOpenAI env chatID model (scanLines (pre ++ bad :: post)) w s =
          Outcome.ret
            (flushAll w (openAIEvents env chatID model s.step
              (emittedTexts env.unmarshal (scanLines pre) ++
                emittedTexts env.unmarshal (scanLines post))))
            { s with
              step := s.step +
                (emittedTexts env.unmarshal (scanLines pre) ++
                  emittedTexts env.unmarshal (scanLines post)).length }) ∧
      (∀ w : ResponseWriter, w.status = none →
        (((streamAnthropic env.unmarshal (scanLines (pre ++ bad :: post)) w).write
            (Written.text "event: message_stop\n")).write
            (Written.text "data: \x7b\"type\":\"message_stop\"\x7d\n\n")).flush =
          sent w
            (anthropicEvents
              (emittedTexts env.unmarshal (scanLines pre) ++
                emittedTexts env.unmarshal (scanLines post)) ++ messageStop))) := by
  have hins : ∀ a b : List String,
      scanLines (pre ++ bad :: post) = a ++ dropCR bad :: b →
      scanLines (pre ++ post) = a ++ b →
      (∀ fullContent : String,
        readAll env.unmarshal (scanLines (pre ++ bad :: post)) fullContent =
          readAll env.unmarshal (scanLines (pre ++ post)) fullContent) ∧
      (∀ (chatID model : String) (w : ResponseWriter) (s : World),
        streamOpenAI env chatID model (scanLines (pre ++ bad :: post)) w s =
          streamOpenAI env chatID model (scanLines (pre ++ post)) w s) ∧
      (∀ w : ResponseWriter,
        streamAnthropic env.unmarshal (scanLines (pre ++ bad :: post)) w =
          streamAnthropic env.unmarshal (scanLines (pre ++ post)) w) ∧
      deltaTexts env.unmarshal (scanLines (pre ++ bad :: post)) =
        deltaTexts env.unmarshal (scanLines (pre ++ post)) ∧
      emittedTexts env.unmarshal (scanLines (pre ++ bad :: post)) =
        emittedTexts env.unmarshal (scanLines (pre ++ post)) := by
    intro a b e1 e2
    rw [e1, e2]
    exact malformed_insert env a b (dropCR bad) h
  have hmain :
      (∀ fullContent : String,
        readAll env.unmarshal (scanLines (pre ++ bad :: post)) fullContent =
          readAll env.unmarshal (scanLines (pre ++ post)) fullContent) ∧
      (∀ (chatID model : String) (w : ResponseWriter) (s : World),
        streamOpenAI env chatID model (scanLines (pre ++ bad :: post)) w s =
          streamOpenAI env chatID model (scanLines (pre ++ post)) w s) ∧
      (∀ w : ResponseWriter,
        streamAnthropic env.unmarshal (scanLines (pre ++ bad :: post)) w =
          streamAnthropic env.unmarshal (scanLines (pre ++ post)) w) ∧
      deltaTexts env.unmarshal (scanLines (pre ++ bad :: post)) =
        deltaTexts env.unmarshal (scanLines (pre ++ post)) ∧
      emittedTexts env.unmarshal (scanLines (pre ++ bad :: post)) =
        emittedTexts env.unmarshal (scanLines (pre ++ post)) := by
    cases hall : pre.all fitsScanner with
    | true =>
      exact hins (pre.map dropCR) (scanLines post)
        (by rw [scanLines_append _ _ hall, scanLines_cons_fit _ _ hfit])
        (scanLines_append _ _ hall)
    | false =>
      rw [scanLines_stop _ _ hall, scanLines_stop _ _ hall]
      exact ⟨fun _ => rfl, fun _ _ _ _ => rfl, fun _ => rfl, rfl, rfl⟩
  obtain ⟨m1, m2, m3, m4, m5⟩ := hmain
  refine ⟨m1, m2, m3, m4, m5, ?_⟩
  intro hpre
  have hall : pre.all fitsScanner = true := by
    rw [List.all_eq_true] at hpre ⊢
    intro x hx
    have := hpre x hx
    simp only [Bool.and_eq_true] at this
    exact this.1
  have hnd : (pre.map dropCR).all (fun line => decide (line ≠ doneLine)) = true := by
    rw [List.all_eq_true] at hpre ⊢
    intro x hx
    obtain ⟨y, hy, rfl⟩ := List.mem_map.1 hx
    have := hpre y hy
    simp only [Bool.and_eq_true] at this
    exact this.2
  have hd : deltaTexts env.unmarshal (scanLines (pre ++ bad :: post)) =
      deltaTexts env.unmarshal (scanLines pre) ++ deltaTexts env.unmarshal (scanLines post) := by
    rw [m4, scanLines_append _ _ hall, scanLines_fit _ hall, deltaTexts_append _ _ _ hnd]
  have he : emittedTexts env.unmarshal (scanLines (pre ++ bad :: post)) =
      emittedTexts env.unmarshal (scanLines pre) ++
        emittedTexts env.unmarshal (scanLines post) := by
    simp only [emittedTexts, hd, List.filter_append]
  refine ⟨hd, he, ?_, ?_, ?_⟩
  · intro fullContent
    rw [readAll_eq, hd, concatTexts_append, String.append_assoc]
  · intro chatID model w s
    rw [streamOpenAI_eq, he]
  · intro w hw
    rw [streamAnthropic_then _ _ _ (Or.inl hw), he]

/-- C18 at the sample stream, with a line that is not JSON inserted between its
two deltas: the content aggregated is still "Hello" and both deltas are
forwarded. -/
theorem malformed_line_is_skipped_witness :
    fitsScanner "data: oops" = true ∧
    malformed (sampleEnv (Reply.failed "") (Reply.failed "")).unmarshal
        (dropCR "data: oops") = true ∧
    deltaTexts (sampleEnv (Reply.failed "") (Reply.failed "")).unmarshal
        (scanLines (sampleLines.take 3 ++ "data: oops" :: sampleLines.drop 3)) =
      deltaTexts (sampleEnv (Reply.failed "") (Reply.failed "")).unmarshal
        (scanLines (sampleLines.take 3 ++ sampleLines.drop 3)) ∧
    (sampleLines.take 3).all
        (fun line => fitsScanner line && decide (dropCR line ≠ doneLine)) = true ∧
    readAll (sampleEnv (Reply.failed "") (Reply.failed "")).unmarshal
        (scanLines (sampleLines.take 3 ++ "data: oops" :: sampleLines.drop 3)) "" =
      "Hello" ∧
    emittedTexts (sampleEnv (Reply.failed "") (Reply.failed "")).unmarshal
        (scanLines (sampleLines.take 3 ++ "data: oops" :: sampleLines.drop 3)) =
      ["Hel", "lo"] ∧
    readAll sampleUnmarshal
        (scanLines (sampleLines.take 3 ++ "data: oops" :: sampleLines.drop 3)) "" =
      "Hello" ∧
    streamedDeltas (streamAnthropic sampleUnmarshal
        (scanLines (sampleLines.take 3 ++ "data: oops" :: sampleLines.drop 3))
        freshWriter).body = ["Hel", "lo"] :=
  ⟨by decide, by decide,
    (malformed_line_is_skipped (sampleEnv (Reply.failed "") (Reply.failed ""))
      (sampleLines.take 3) (sampleLines.drop 3) "data: oops" (by decide) (by decide)).2.2.2.1,
    by decide,
    (((malformed_line_is_skipped (sampleEnv (Reply.failed "") (Reply.failed ""))
      (sampleLines.take 3) (sampleLines.drop 3) "data: oops" (by decide) (by decide)).2.2.2.2.2
      (by decide)).2.2.1 "").trans (by decide),
    (((malformed_line_is_skipped (sampleEnv (Reply.failed "") (Reply.failed ""))
      (sampleLines.take 3) (sampleLines.drop 3) "data: oops" (by decide) (by decide)).2.2.2.2.2
      (by decide)).2.1).trans (by decide),
    by decide, by decide⟩

/-- C18 as stated fails: a line of 70000 bytes without the `data: ` prefix is
malformed, and inserting it between the two deltas of the sample stream ends
the scan there. Without it the content aggregated is "Hello" and the texts
forwarded are "Hel" and "lo"; with it the content is "Hel" and "lo" is not
forwarded, and the Anthropic non-streaming handler answers "Hel" instead of
"Hello". -/
theorem malformed_long_line_ends_scan :
    malformed sampleUnmarshal longLine = true ∧
    len longLine = 70000 ∧
    scanLines (sampleLines.take 3 ++ longLine :: sampleLines.drop 3) = sampleLines.take 3 ∧
    readAll sampleUnmarshal (scanLines (sampleLines.take 3 ++ sampleLines.drop 3)) "" =
      "Hello" ∧
    readAll sampleUnmarshal
        (scanLines (sampleLines.take 3 ++ longLine :: sampleLines.drop 3)) "" = "Hel" ∧
    emittedTexts sampleUnmarshal (scanLines (sampleLines.take 3 ++ sampleLines.drop 3)) =
      ["Hel", "lo"] ∧
    emittedTexts sampleUnmarshal
        (scanLines (sampleLines.take 3 ++ longLine :: sampleLines.drop 3)) = ["Hel"] ∧
    (answered (handleNonStreamAnthropic
        (sampleEnv (Reply.response 200 [] []
          (scanLines (sampleLines.take 3 ++ sampleLines.drop 3))) (Reply.failed ""))
        freshWriter ⟨""⟩ (-1) (sampleChatReq "hi there, friend")
        (sampleWorld (NewProxyManager "" "")))).bind firstBlockText = some "Hello" ∧
    (answered (handleNonStreamAnthropic
        (sampleEnv (Reply.response 200 [] []
          (scanLines (sampleLines.take 3 ++ longLine :: sampleLines.drop 3))) (Reply.failed ""))
        freshWriter ⟨""⟩ (-1) (sampleChatReq "hi there, friend")
        (sampleWorld (NewProxyManager "" "")))).bind firstBlockText = some "Hel" := by
  have hscan : scanLines (sampleLines.take 3 ++ longLine :: sampleLines.drop 3) =
      sampleLines.take 3 := by
    rw [scanLines_append _ _ (by decide), scanLines_cons_long _ _ fitsScanner_longLine]
    decide
  refine ⟨by decide, len_replicate 70000, hscan, by decide, ?_, by decide, ?_, by decide, ?_⟩
  · rw [hscan]
    decide
  · rw [hscan]
    decide
  · rw [hscan]
    decide

/-! ## Building the proxy manager -/

theorem keepProxy_foldl (containers : List String) (entries : List String) (n : Nat)
    (acc : List String × List String) :
    (List.enumFrom n entries).foldl (keepProxy containers) acc =
      (acc.1 ++ ((List.enumFrom n entries).filter
          (fun ip => decide (strings.TrimSpace ip.2 ≠ ""))).map
          (fun ip => strings.TrimSpace ip.2),
        acc.2 ++ ((List.enumFrom n entries).filter
          (fun ip => decide (strings.TrimSpace ip.2 ≠ ""))).filterMap
          (fun ip => (containers[ip.1]?).map strings.TrimSpace)) := by
  induction entries generalizing n acc with
  | nil => simp
  | cons p rest ih =>
    rw [List.enumFrom_cons, List.foldl_cons, ih]
    by_cases hp : strings.TrimSpace p = ""
    · simp [keepProxy, hp, List.filter_cons]
    · cases hc : containers[n]? with
      | none => simp [keepProxy, hp, List.filter_cons, hc]
      | some c => simp [keepProxy, hp, List.filter_cons, hc]

theorem kept_addresses (entries : List String) (n : Nat) :
    ((List.enumFrom n entries).filter
        (fun ip => decide (strings.TrimSpace ip.2 ≠ ""))).map
        (fun ip => strings.TrimSpace ip.2) =
      (entries.map strings.TrimSpace).filter (fun p => decide (p ≠ "")) := by
  induction entries generalizing n with
  | nil => rfl
  | cons p rest ih =>
    rw [List.enumFrom_cons]
    by_cases hp : strings.TrimSpace p = ""
    · simp only [List.filter_cons, List.map_cons, hp, ne_eq, not_true_eq_false, decide_False,
        Bool.false_eq_true, if_false]
      exact ih (n + 1)
    · simp only [List.filter_cons, List.map_cons, hp, ne_eq, not_false_eq_true, decide_True,
        if_true]
      rw [ih (n + 1)]

theorem kept_handles_none (containers : List String) (entries : List String) (n : Nat)
    (h : containers.length ≤ n) :
    ((List.enumFrom n entries).filter
        (fun ip => decide (strings.TrimSpace ip.2 ≠ ""))).filterMap
        (fun ip => (containers[ip.1]?).map strings.TrimSpace) = [] := by
  induction entries generalizing n with
  | nil => rfl
  | cons p rest ih =>
    rw [List.enumFrom_cons]
    have hn : containers[n]? = none := List.getElem?_eq_none h
    by_cases hp : strings.TrimSpace p = ""
    · simp only [List.filter_cons, hp, ne_eq, not_true_eq_false, decide_False,
        Bool.false_eq_true, if_false]
      exact ih (n + 1) (by omega)
    · simp only [List.filter_cons, hp, ne_eq, not_false_eq_true, decide_True, if_true,
        List.filterMap_cons, hn, Option.map_none']
      exact ih (n + 1) (by omega)

theorem kept_handles_aligned (containers : List String) (entries : List String) (n j : Nat)
    (hj : j < (((List.enumFrom n entries).filter
        (fun ip => decide (strings.TrimSpace ip.2 ≠ ""))).filterMap
        (fun ip => (containers[ip.1]?).map strings.TrimSpace)).length) :
    ∃ ip c,
      ((List.enumFrom n entries).filter
        (fun ip => decide (strings.TrimSpace ip.2 ≠ "")))[j]? = some ip ∧
      containers[ip.1]? = some c ∧
      (((List.enumFrom n entries).filter
        (fun ip => decide (strings.TrimSpace ip.2 ≠ ""))).filterMap
        (fun ip => (containers[ip.1]?).map strings.TrimSpace))[j]? =
          some (strings.TrimSpace c) := by
  induction entries generalizing n j with
  | nil => simp at hj
  | cons p rest ih =>
    rw [List.enumFrom_cons] at hj ⊢
    by_cases hp : strings.TrimSpace p = ""
    · simp only [List.filter_cons, hp, ne_eq, not_true_eq_false, decide_False,
        Bool.false_eq_true, if_false] at hj ⊢
      exact ih (n + 1) j hj
    · simp only [List.filter_cons, hp, ne_eq, not_false_eq_true, decide_True, if_true,
        List.filterMap_cons] at hj ⊢
      cases hc : containers[n]? with
      | none =>
        have hlen : containers.length ≤ n + 1 := by
          have := List.getElem?_eq_none_iff.1 hc
          omega
        rw [hc] at hj
        simp only [Option.map_none'] at hj
        rw [kept_handles_none containers rest (n + 1) hlen] at hj
        simp at hj
      | some c =>
        rw [hc] at hj
        simp only [Option.map_some'] at hj ⊢
        cases j with
        | zero => exact ⟨(n, p), c, by simp, hc, by simp⟩
        | succ j =>
          simp only [List.length_cons, Nat.add_lt_add_iff_right] at hj
          obtain ⟨ip, c2, h1, h2, h3⟩ := ih (n + 1) j hj
          exact ⟨ip, c2, by simpa using h1, h2, by simpa using h3⟩

theorem kept_handles_le (containers : List String) (entries : List String) (n : Nat) :
    (((List.enumFrom n entries).filter
        (fun ip => decide (strings.TrimSpace ip.2 ≠ ""))).filterMap
        (fun ip => (containers[ip.1]?).map strings.TrimSpace)).length ≤
      (((List.enumFrom n entries).filter
        (fun ip => decide (strings.TrimSpace ip.2 ≠ ""))).map
        (fun ip => strings.TrimSpace ip.2)).length := by
  rw [List.length_map]
  exact List.length_filterMap_le _ _

theorem NewProxyManager_eq (proxiesStr containersStr : String) :
    NewProxyManager proxiesStr containersStr =
      { proxies := (keptEntries (strings.Split proxiesStr)).map
          (fun ip => strings.TrimSpace ip.2),
        containers := (keptEntries (strings.Split proxiesStr)).filterMap
          (fun ip => ((strings.Split containersStr)[ip.1]?).map strings.TrimSpace),
        currentIndex := 0 } := by
  simp only [NewProxyManager, keptEntries, List.enum, keepProxy_foldl, List.nil_append]

/-- C19: the manager keeps exactly the non-blank address entries, trimmed and in
their original order; for every position j below the number of kept handles,
the kept address at j is the trimmed entry of some comma position i of the
address string, and the kept handle at j is the trimmed entry of the handle
string at that same comma position i. -/
theorem NewProxyManager_pairs_positionally (proxiesStr containersStr : String) :
    (NewProxyManager proxiesStr containersStr).proxies =
        ((strings.Split proxiesStr).map strings.TrimSpace).filter (fun p => decide (p ≠ "")) ∧
    (∀ ip ∈ keptEntries (strings.Split proxiesStr),
        (strings.Split proxiesStr)[ip.1]? = some ip.2) ∧
    (NewProxyManager proxiesStr containersStr).containers.length ≤
        (NewProxyManager proxiesStr containersStr).proxies.length ∧
    (∀ j : Nat, j < (NewProxyManager proxiesStr containersStr).containers.length →
      (NewProxyManager proxiesStr containersStr).proxies[j]? =
          ((keptEntries (strings.Split proxiesStr))[j]?).map
            (fun ip => strings.TrimSpace ip.2) ∧
        (NewProxyManager proxiesStr containersStr).containers[j]? =
          ((keptEntries (strings.Split proxiesStr))[j]?).bind
            (fun ip => ((strings.Split containersStr)[ip.1]?).map strings.TrimSpace) ∧
        ((NewProxyManager proxiesStr containersStr).containers[j]?).isSome = true) := by
  rw [NewProxyManager_eq]
  refine ⟨?_, ?_, ?_, ?_⟩
  · exact kept_addresses (strings.Split proxiesStr) 0
  · intro ip hip
    exact List.mem_enum_iff_getElem?.1 (List.mem_filter.1 hip).1
  · exact kept_handles_le (strings.Split containersStr) (strings.Split proxiesStr) 0
  · intro j hj
    obtain ⟨ip, c, h1, h2, h3⟩ :=
      kept_handles_aligned (strings.Split containersStr) (strings.Split proxiesStr) 0 j hj
    have h1k : (keptEntries (strings.Split proxiesStr))[j]? = some ip := h1
    have h3k : ((keptEntries (strings.Split proxiesStr)).filterMap
        (fun ip => ((strings.Split containersStr)[ip.1]?).map strings.TrimSpace))[j]? =
        some (strings.TrimSpace c) := h3
    simp only [List.getElem?_map, h1k, h3k, Option.map_some', Option.some_bind, h2,
      Option.isSome_some, and_self]

/-- C19 at the addresses " a , ,b" and the handles "x, y ,z": the blank second
entry is dropped with its handle, and the handle at position 1 is the one of
comma position 2, like the address at position 1. -/
theorem NewProxyManager_pairs_positionally_witness :
    1 < (NewProxyManager " a , ,b" "x, y ,z").containers.length ∧
      (NewProxyManager " a , ,b" "x, y ,z").proxies = ["a", "b"] ∧
      (NewProxyManager " a , ,b" "x, y ,z").containers = ["x", "z"] ∧
      (NewProxyManager " a , ,b" "x, y ,z").containers[1]? =
        ((keptEntries (strings.Split " a , ,b"))[1]?).bind
          (fun ip => ((strings.Split "x, y ,z")[ip.1]?).map strings.TrimSpace) :=
  ⟨by decide, by decide, by decide,
    ((NewProxyManager_pairs_positionally " a , ,b" "x, y ,z").2.2.2 1 (by decide)).2.1⟩

/-! ## Handles and routes -/

theorem kept_handles_all (containers : List String) (entries : List String) (n : Nat)
    (h : n + entries.length ≤ containers.length) :
    (((List.enumFrom n entries).filter
        (fun ip => decide (strings.TrimSpace ip.2 ≠ ""))).filterMap
        (fun ip => (containers[ip.1]?).map strings.TrimSpace)).length =
      ((List.enumFrom n entries).filter
        (fun ip => decide (strings.TrimSpace ip.2 ≠ ""))).length := by
  induction entries generalizing n with
  | nil => rfl
  | cons p rest ih =>
    rw [List.enumFrom_cons]
    simp only [List.length_cons] at h
    have hn : n < containers.length := by omega
    by_cases hp : strings.TrimSpace p = ""
    · simp only [List.filter_cons, hp, ne_eq, not_true_eq_false, decide_False,
        Bool.false_eq_true, if_false]
      exact ih (n + 1) (by omega)
    · simp only [List.filter_cons, hp, ne_eq, not_false_eq_true, decide_True, if_true,
        List.filterMap_cons, List.getElem?_eq_getElem hn, Option.map_some', List.length_cons]
      rw [ih (n + 1) (by omega)]

theorem length_filterMap_isSome {α β : Type} (f : α → Option β) (l : List α) :
    (l.filterMap f).length = (l.filter (fun a => (f a).isSome)).length := by
  induction l with
  | nil => rfl
  | cons a l ih =>
    cases h : f a with
    | none => simp [List.filterMap_cons, List.filter_cons, h, ih]
    | some b => simp [List.filterMap_cons, List.filter_cons, h, ih]

theorem length_filter_eq_iff_all {α : Type} (p : α → Bool) (l : List α) :
    (l.filter p).length = l.length ↔ l.all p = true := by
  induction l with
  | nil => simp
  | cons a l ih =>
    have hle : (l.filter p).length ≤ l.length := List.length_filter_le p l
    cases hp : p a with
    | false =>
      simp only [List.filter_cons, hp, List.all_cons, Bool.false_and, Bool.false_eq_true,
        if_false, List.length_cons, iff_false]
      omega
    | true =>
      simp only [List.filter_cons, hp, List.all_cons, Bool.true_and, if_true,
        List.length_cons, Nat.add_right_cancel_iff]
      exact ih

theorem handle_isSome (handles : List String) (ip : Nat × String) :
    ((handles[ip.1]?).map strings.TrimSpace).isSome = decide (ip.1 < handles.length) := by
  by_cases h : ip.1 < handles.length
  · simp [List.getElem?_eq_getElem h, h]
  · simp [List.getElem?_eq_none (Nat.le_of_not_lt h), h]

/-- C20, as amended: the manager built by `NewProxyManager` holds one route per
kept address and one handle per kept address whose comma position has an
entry in the handle string; so it holds at most as many handles as routes,
and as many handles as routes exactly when every kept address has such an
entry. -/
theorem NewProxyManager_handle_count (proxiesStr containersStr : String) :
    (NewProxyManager proxiesStr containersStr).proxies.length =
        (keptEntries (strings.Split proxiesStr)).length ∧
    (NewProxyManager proxiesStr containersStr).containers.length =
        (keptWithHandle (strings.Split proxiesStr) (strings.Split containersStr)).length ∧
    (NewProxyManager proxiesStr containersStr).containers.length ≤
        (NewProxyManager proxiesStr containersStr).proxies.length ∧
    ((NewProxyManager proxiesStr containersStr).containers.length =
        (NewProxyManager proxiesStr containersStr).proxies.length ↔
      (keptEntries (strings.Split proxiesStr)).all
        (fun ip => decide (ip.1 < (strings.Split containersStr).length)) = true) := by
  have hc : (NewProxyManager proxiesStr containersStr).containers.length =
      (keptWithHandle (strings.Split proxiesStr) (strings.Split containersStr)).length := by
    rw [NewProxyManager_eq]
    simp only [keptWithHandle, length_filterMap_isSome, handle_isSome]
  have hp : (NewProxyManager proxiesStr containersStr).proxies.length =
      (keptEntries (strings.Split proxiesStr)).length := by
    rw [NewProxyManager_eq]
    simp only [List.length_map]
  refine ⟨hp, hc, ?_, ?_⟩
  · rw [hc, hp]
    exact List.length_filter_le _ _
  · rw [hc, hp]
    exact length_filter_eq_iff_all _ _

/-- C20 at the addresses "a,b," and the handles "x,y": the two kept addresses
have a handle entry, the blank third one is not kept, and the manager holds
two routes and two handles. -/
theorem NewProxyManager_handle_count_witness :
    (keptEntries (strings.Split "a,b,")).all
        (fun ip => decide (ip.1 < (strings.Split "x,y").length)) = true ∧
      (NewProxyManager "a,b," "x,y").containers.length =
        (NewProxyManager "a,b," "x,y").proxies.length ∧
      (NewProxyManager "a,b," "x,y").proxies = ["a", "b"] ∧
      (NewProxyManager "a,b," "x,y").containers = ["x", "y"] :=
  ⟨by decide, (NewProxyManager_handle_count "a,b," "x,y").2.2.2.2 (by decide), by decide,
    by decide⟩

/-- C20 as stated fails: the manager built from the addresses "a,b,c" and the
handles "x,y" holds three routes and two handles. The first `OnRateLimit`
returns with the index at 1; the second moves the index to 2 and panics on the
missing handle of route 2; from then on every call panics before moving the
index, which stays at 2. -/
theorem NewProxyManager_fewer_handles_than_routes :
    (NewProxyManager "a,b,c" "x,y").proxies.length = 3 ∧
      (NewProxyManager "a,b,c" "x,y").containers.length = 2 ∧
      (NewProxyManager "a,b,c" "x,y").OnRateLimit.panicked = false ∧
      (onRateLimitTimes 1 (NewProxyManager "a,b,c" "x,y")).currentIndex = 1 ∧
      (onRateLimitTimes 1 (NewProxyManager "a,b,c" "x,y")).OnRateLimit.panicked = true ∧
      (onRateLimitTimes 2 (NewProxyManager "a,b,c" "x,y")).currentIndex = 2 ∧
      (onRateLimitTimes 2 (NewProxyManager "a,b,c" "x,y")).OnRateLimit.panicked = true ∧
      (onRateLimitTimes 3 (NewProxyManager "a,b,c" "x,y")).currentIndex = 2 := by
  refine ⟨by decide, by decide, by decide, by decide, by decide, by decide, by decide,
    by decide⟩


end Chat2API
